import Mathlib

/-!
# Stress test scenario loader (`orea/scenario/stressscenariodata.cpp`)

A shallow embedding of `StressTestScenarioData::fromXML` and the properties of
its result.

* The XML document is a finite tree (`XMLNode`); a C++ `XMLNode*` that may be
  null is an `Option XMLNode`.
* `QL_REQUIRE` / `QL_FAIL` throw; a throwing computation is an `Except String`
  whose error is the message handed to the macro.
* `fromXML` mutates the member `data_`; here it takes the old `data_` and
  returns the outcome together with the new `data_`, so that the contents left
  behind by a throwing call are visible.
* `Real` and `Period` values are only parsed and stored by the loader, never
  computed with.  The embedding is generic in their types `R` and `P` and in the
  two scalar parsers (`Values`).
-/

namespace ore

/-! ## The document tree and the `XMLUtils` helpers -/

/-- An XML element: its name, its attributes in document order, its text value
and its child elements in document order. -/
inductive XMLNode where
  | mk (name : String) (attributes : List (String × String)) (value : String)
      (children : List XMLNode)

namespace XMLNode

/-- Element name (`node->name()`). -/
def name : XMLNode → String
  | mk n _ _ _ => n

/-- Attributes in document order. -/
def attributes : XMLNode → List (String × String)
  | mk _ a _ _ => a

/-- Text value (`node->value()`). -/
def value : XMLNode → String
  | mk _ _ v _ => v

/-- Child elements in document order. -/
def children : XMLNode → List XMLNode
  | mk _ _ _ c => c

end XMLNode

/-- The macro `QL_REQUIRE(condition, message)`: throws `message` unless the
condition holds. -/
def QL_REQUIRE (condition : Bool) (message : String) : Except String Unit :=
  if condition then pure () else throw message

namespace XMLUtils

/-- Modelled from the spec: `XMLUtils::getChildNode` is declared in
`ored/utilities/xmlutils.hpp`, which is not among the sources.  It is the tree
navigation primitive that yields the first child element with the given name,
or a null pointer when there is none. -/
def getChildNode (n : XMLNode) (name : String) : Option XMLNode :=
  n.children.find? (fun c => c.name == name)

/-- Modelled from the spec: `XMLUtils::getNextSibling` is not among the sources.
Every loop of the loader has the shape
`for (c = getChildNode(n, name); c; c = getNextSibling(c))`, the helper being
called with the node only and no name.  `siblingsFrom n name` is the sequence of
nodes such a loop visits: the first child called `name` and every child that
follows it in document order.  In a document that follows the schema (§6 of the
spec) every child of a section carries the entry name, and the sequence is the
list of all children. -/
def siblingsFrom (n : XMLNode) (name : String) : List XMLNode :=
  n.children.dropWhile (fun c => c.name != name)

/-- Modelled from the spec: `XMLUtils::getAttribute` is not among the sources.
It yields the value of the attribute, and the empty string when the element has
no such attribute. -/
def getAttribute (n : XMLNode) (attrName : String) : String :=
  match n.attributes.find? (fun a => a.1 == attrName) with
  | some a => a.2
  | none => ""

/-- Modelled from the spec: `XMLUtils::getNodeValue` is not among the sources.
It yields the text of the element. -/
def getNodeValue (n : XMLNode) : String :=
  n.value

/-- Modelled from the spec: `XMLUtils::locateNode` is not among the sources.
It locates the section called `name` in the document: the root itself when it
carries that name, otherwise its first child of that name; it throws when there
is none. -/
def locateNode (n : XMLNode) (name : String) : Except String XMLNode :=
  if n.name == name then pure n
  else
    match getChildNode n name with
    | some node => pure node
    | none => throw ("XML node with name " ++ name ++ " not found")

/-- Modelled from the spec: `XMLUtils::checkNode` is not among the sources.
It throws unless the node carries the expected name. -/
def checkNode (n : XMLNode) (expectedName : String) : Except String Unit :=
  QL_REQUIRE (n.name == expectedName)
    ("XML Node name " ++ n.name ++ " does not match expected name " ++ expectedName)

/-- Modelled from the spec: `XMLUtils::getChildValue` is not among the sources.
It yields the text of the first child called `name`.  When there is no such
child it throws if the field is mandatory and yields the empty string if it is
optional (the default of the flag, used for the `ShiftType` of an FX
volatility). -/
def getChildValue (n : XMLNode) (name : String) (mandatory : Bool) : Except String String :=
  match getChildNode n name with
  | some child => pure (getNodeValue child)
  | none =>
    if mandatory then throw ("Error: No XML Child Node " ++ name ++ " found.")
    else pure ""

end XMLUtils

/-! ## Values: reals and periods -/

/-- The value types of the loader with what the loader does with them:
`parseReal` and `parsePeriod` of `ored/utilities/parsers.hpp` (not among the
sources), which throw on malformed text, and the literal `0.0`. -/
structure Values (R P : Type) where
  /-- The function `ore::data::parseReal`. -/
  parseReal : String → Except String R
  /-- The function `ore::data::parsePeriod`. -/
  parsePeriod : String → Except String P
  /-- The literal `0.0`. -/
  zero : R

/-- Strip blanks at both ends of a token. -/
def trimToken (cs : List Char) : List Char :=
  ((cs.dropWhile (fun c => c == ' ')).reverse.dropWhile (fun c => c == ' ')).reverse

/-- Cut a character sequence at every comma; `cur` is the token being read,
in reverse. -/
def splitAtCommas : List Char → List Char → List (List Char)
  | [], cur => [cur.reverse]
  | c :: cs, cur =>
    if c == ',' then cur.reverse :: splitAtCommas cs []
    else splitAtCommas cs (c :: cur)

/-- Modelled from the spec: the tokens of a "compact delimited list" (§6): the
pieces between commas, blanks stripped, empty pieces dropped. -/
def tokens (s : String) : List String :=
  (((splitAtCommas s.toList []).map trimToken).filter (fun t => !t.isEmpty)).map String.mk

/-- Parse every token in order; the first token that fails to parse throws. -/
def parseListOfValues {α : Type} (parser : String → Except String α) :
    List String → Except String (List α)
  | [] => pure []
  | t :: ts => do
    let v ← parser t
    let vs ← parseListOfValues parser ts
    pure (v :: vs)

namespace XMLUtils

variable {R P : Type}

/-- Modelled from the spec: `XMLUtils::getChildValueAsDouble` is not among the
sources.  The text of the child, parsed as a real. -/
def getChildValueAsDouble (vals : Values R P) (n : XMLNode) (name : String) (mandatory : Bool) :
    Except String R := do
  let s ← getChildValue n name mandatory
  vals.parseReal s

/-- Modelled from the spec: `XMLUtils::getChildrenValuesAsDoublesCompact` is not
among the sources.  The text of the child is a compact delimited list of
numbers; the result is the sequence of its parsed entries, in order. -/
def getChildrenValuesAsDoublesCompact (vals : Values R P) (n : XMLNode) (name : String)
    (mandatory : Bool) : Except String (List R) := do
  let s ← getChildValue n name mandatory
  parseListOfValues vals.parseReal (tokens s)

/-- Modelled from the spec: `XMLUtils::getChildrenValuesAsPeriods` is not among
the sources.  The text of the child is a compact delimited list of periods; the
result is the sequence of its parsed entries, in order. -/
def getChildrenValuesAsPeriods (vals : Values R P) (n : XMLNode) (name : String)
    (mandatory : Bool) : Except String (List P) := do
  let s ← getChildValue n name mandatory
  parseListOfValues vals.parsePeriod (tokens s)

end XMLUtils

/-! ## The data model (`stressscenariodata.hpp`) -/

/-- A `std::map<K, V>`: a finite mapping, kept as a list of entries with
pairwise different keys. -/
abbrev StdMap (K V : Type) := List (K × V)

namespace StdMap

variable {K V : Type} [DecidableEq K]

/-- The assignment `m[k] = v`: replaces the value of an existing key, adds the
entry otherwise. -/
def assign : StdMap K V → K → V → StdMap K V
  | [], k, v => [(k, v)]
  | (k', v') :: rest, k, v =>
    if k' = k then (k, v) :: rest else (k', v') :: assign rest k v

/-- The lookup `m.find(k)`. -/
def find (m : StdMap K V) (k : K) : Option V :=
  (List.find? (fun e => decide (e.1 = k)) m).map Prod.snd

/-- The keys of the mapping. -/
def keys (m : StdMap K V) : List K :=
  m.map Prod.fst

end StdMap

/-- The struct `CurveShiftData`. -/
structure CurveShiftData (R P : Type) where
  shiftType : String := ""
  shiftTenors : List P := []
  shifts : List R := []
deriving DecidableEq

/-- The struct `FxShiftData`; `shiftSize` is assigned before the record is
stored. -/
structure FxShiftData (R : Type) where
  shiftType : String := ""
  shiftSize : R
deriving DecidableEq

/-- The struct `FxVolShiftData`. -/
structure FxVolShiftData (R P : Type) where
  shiftType : String := ""
  shiftExpiries : List P := []
  shifts : List R := []
deriving DecidableEq

/-- The struct `CapFloorVolShiftData`. -/
structure CapFloorVolShiftData (R P : Type) where
  shiftType : String := ""
  shiftExpiries : List P := []
  shifts : List R := []
deriving DecidableEq

/-- The struct `SwaptionVolShiftData`; `parallelShiftSize` is assigned `0.0`
before the cells are read. -/
structure SwaptionVolShiftData (R P : Type) where
  shiftType : String := ""
  shiftExpiries : List P := []
  shiftTerms : List P := []
  shifts : StdMap (P × P) R := []
  parallelShiftSize : R
deriving DecidableEq

/-- The struct `StressTestData`: the record of one test case. -/
structure StressTestData (R P : Type) where
  label : String := ""
  discountCurveShifts : StdMap String (CurveShiftData R P) := []
  indexCurveShifts : StdMap String (CurveShiftData R P) := []
  yieldCurveShifts : StdMap String (CurveShiftData R P) := []
  fxShifts : StdMap String (FxShiftData R) := []
  fxVolShifts : StdMap String (FxVolShiftData R P) := []
  capVolShifts : StdMap String (CapFloorVolShiftData R P) := []
  swaptionVolShifts : StdMap String (SwaptionVolShiftData R P) := []
deriving DecidableEq

/-! ## The loader `StressTestScenarioData::fromXML` -/

namespace StressTestScenarioData

open XMLUtils

variable {R P : Type} [DecidableEq P]

/-- The check `QL_REQUIRE(node, message)` on a pointer: throws `message` when the
pointer is null, and gives the node otherwise. -/
def requireNode (node : Option XMLNode) (message : String) : Except String XMLNode :=
  match node with
  | some n => pure n
  | none => throw message

/-- A loop `for (child = getChildNode(..); child; child = getNextSibling(child))`
whose body reads one entry and ends with `map[key] = data`, run over the nodes
that the loop visits.  `entry` is the body up to the assignment; a body that
throws ends the loop with its error. -/
def entryLoop {K V : Type} [DecidableEq K] (entry : XMLNode → Except String (K × V)) :
    List XMLNode → StdMap K V → Except String (StdMap K V)
  | [], m => pure m
  | child :: rest, m => do
    let kd ← entry child
    entryLoop entry rest (m.assign kd.1 kd.2)

/-- Body of the discount curve loop (lines 49-58). -/
def discountCurveEntry (vals : Values R P) (child : XMLNode) :
    Except String (String × CurveShiftData R P) := do
  let ccy := getAttribute child "ccy"
  let shiftType ← getChildValue child "ShiftType" true
  let shifts ← getChildrenValuesAsDoublesCompact vals child "Shifts" true
  let shiftTenors ← getChildrenValuesAsPeriods vals child "ShiftTenors" true
  QL_REQUIRE (shifts.length == shiftTenors.length)
    "number of tenors and shifts does not match in discount curve stress data"
  QL_REQUIRE (shifts.length > 0) "no shifts provided in discount curve stress data"
  pure (ccy, { shiftType := shiftType, shifts := shifts, shiftTenors := shiftTenors })

/-- Body of the index curve loop (lines 67-77). -/
def indexCurveEntry (vals : Values R P) (child : XMLNode) :
    Except String (String × CurveShiftData R P) := do
  let index := getAttribute child "index"
  let shiftType ← getChildValue child "ShiftType" true
  let shifts ← getChildrenValuesAsDoublesCompact vals child "Shifts" true
  let shiftTenors ← getChildrenValuesAsPeriods vals child "ShiftTenors" true
  QL_REQUIRE (shifts.length == shiftTenors.length)
    "number of tenors and shifts does not match in index curve stress data"
  QL_REQUIRE (shifts.length > 0) "no shifts provided in index curve stress data"
  pure (index, { shiftType := shiftType, shifts := shifts, shiftTenors := shiftTenors })

/-- Body of the yield curve loop (lines 86-96). -/
def yieldCurveEntry (vals : Values R P) (child : XMLNode) :
    Except String (String × CurveShiftData R P) := do
  let name := getAttribute child "name"
  let shiftType ← getChildValue child "ShiftType" true
  let shifts ← getChildrenValuesAsDoublesCompact vals child "Shifts" true
  let shiftTenors ← getChildrenValuesAsPeriods vals child "ShiftTenors" true
  QL_REQUIRE (shifts.length == shiftTenors.length)
    "number of tenors and shifts does not match in yield curve stress data"
  QL_REQUIRE (shifts.length > 0) "no shifts provided in yield curve stress data"
  pure (name, { shiftType := shiftType, shifts := shifts, shiftTenors := shiftTenors })

/-- Body of the FX spot loop (lines 105-110). -/
def fxSpotEntry (vals : Values R P) (child : XMLNode) :
    Except String (String × FxShiftData R) := do
  let ccypair := getAttribute child "ccypair"
  let shiftType ← getChildValue child "ShiftType" true
  let shiftSize ← getChildValueAsDouble vals child "ShiftSize" true
  pure (ccypair, { shiftType := shiftType, shiftSize := shiftSize })

/-- Body of the FX volatility loop (lines 119-125); `ShiftType` is read with the
default `mandatory = false`. -/
def fxVolEntry (vals : Values R P) (child : XMLNode) :
    Except String (String × FxVolShiftData R P) := do
  let ccypair := getAttribute child "ccypair"
  let shiftType ← getChildValue child "ShiftType" false
  let shifts ← getChildrenValuesAsDoublesCompact vals child "Shifts" true
  let shiftExpiries ← getChildrenValuesAsPeriods vals child "ShiftExpiries" true
  pure (ccypair, { shiftType := shiftType, shifts := shifts, shiftExpiries := shiftExpiries })

/-- Body of the loop over the `Shift` cells of a swaption volatility entry
(lines 144-155), acting on the record `data` being filled. -/
def shiftCell (vals : Values R P) (data : SwaptionVolShiftData R P) (child2 : XMLNode) :
    Except String (SwaptionVolShiftData R P) := do
  let expiry := getAttribute child2 "expiry"
  let term := getAttribute child2 "term"
  if expiry == "" && term == "" then
    let value ← vals.parseReal (getNodeValue child2)
    pure { data with parallelShiftSize := value }
  else
    QL_REQUIRE (expiry != "" && term != "")
      "expiry and term attributes required on shift size nodes"
    let e ← vals.parsePeriod expiry
    let t ← vals.parsePeriod term
    let value ← vals.parseReal (getNodeValue child2)
    pure { data with shifts := data.shifts.assign (e, t) value }

/-- The loop over the `Shift` cells (lines 142-156), run over the nodes it
visits. -/
def shiftCellLoop (vals : Values R P) :
    List XMLNode → SwaptionVolShiftData R P → Except String (SwaptionVolShiftData R P)
  | [], data => pure data
  | child2 :: rest, data => do
    let data ← shiftCell vals data child2
    shiftCellLoop vals rest data

/-- Body of the swaption volatility loop (lines 134-157).  `shiftSizes` is not
checked by the loader before the cell loop starts; `getChildNode` on a null
pointer throws. -/
def swaptionVolEntry (vals : Values R P) (child : XMLNode) :
    Except String (String × SwaptionVolShiftData R P) := do
  let ccy := getAttribute child "ccy"
  let shiftType ← getChildValue child "ShiftType" true
  let shiftTerms ← getChildrenValuesAsPeriods vals child "ShiftTerms" true
  let shiftExpiries ← getChildrenValuesAsPeriods vals child "ShiftExpiries" true
  let shiftSizes ← requireNode (getChildNode child "Shifts")
    "XMLUtils::getChildNode(Shift): XML Node is NULL"
  let data : SwaptionVolShiftData R P :=
    { shiftType := shiftType, shiftTerms := shiftTerms, shiftExpiries := shiftExpiries,
      parallelShiftSize := vals.zero }
  let data ← shiftCellLoop vals (siblingsFrom shiftSizes "Shift") data
  pure (ccy, data)

/-- Body of the cap/floor volatility loop (lines 165-170). -/
def capFloorVolEntry (vals : Values R P) (child : XMLNode) :
    Except String (String × CapFloorVolShiftData R P) := do
  let ccy := getAttribute child "ccy"
  let shiftType ← getChildValue child "ShiftType" true
  let shiftExpiries ← getChildrenValuesAsPeriods vals child "ShiftExpiries" true
  let shifts ← getChildrenValuesAsDoublesCompact vals child "Shifts" true
  pure (ccy, { shiftType := shiftType, shiftExpiries := shiftExpiries, shifts := shifts })

/-- Lines 43-59: the discount curve section of a test case. -/
def loadDiscountCurves (vals : Values R P) (testCase : XMLNode) (test : StressTestData R P) :
    Except String (StressTestData R P) := do
  let discountCurves ← requireNode (getChildNode testCase "DiscountCurves")
    "DiscountCurves node not found"
  let test := { test with discountCurveShifts := [] }
  let m ← entryLoop (discountCurveEntry vals) (siblingsFrom discountCurves "DiscountCurve")
    test.discountCurveShifts
  pure { test with discountCurveShifts := m }

/-- Lines 61-78: the index curve section of a test case. -/
def loadIndexCurves (vals : Values R P) (testCase : XMLNode) (test : StressTestData R P) :
    Except String (StressTestData R P) := do
  let indexCurves ← requireNode (getChildNode testCase "IndexCurves")
    "IndexCurves node not found"
  let test := { test with indexCurveShifts := [] }
  let m ← entryLoop (indexCurveEntry vals) (siblingsFrom indexCurves "IndexCurve")
    test.indexCurveShifts
  pure { test with indexCurveShifts := m }

/-- Lines 80-97: the yield curve section of a test case. -/
def loadYieldCurves (vals : Values R P) (testCase : XMLNode) (test : StressTestData R P) :
    Except String (StressTestData R P) := do
  let yieldCurves ← requireNode (getChildNode testCase "YieldCurves")
    "YieldCurves node not found"
  let test := { test with yieldCurveShifts := [] }
  let m ← entryLoop (yieldCurveEntry vals) (siblingsFrom yieldCurves "YieldCurve")
    test.yieldCurveShifts
  pure { test with yieldCurveShifts := m }

/-- Lines 99-111: the FX spot section of a test case. -/
def loadFxSpots (vals : Values R P) (testCase : XMLNode) (test : StressTestData R P) :
    Except String (StressTestData R P) := do
  let fxSpots ← requireNode (getChildNode testCase "FxSpots") "FxSpots node not found"
  let test := { test with fxShifts := [] }
  let m ← entryLoop (fxSpotEntry vals) (siblingsFrom fxSpots "FxSpot") test.fxShifts
  pure { test with fxShifts := m }

/-- Lines 113-126: the FX volatility section of a test case. -/
def loadFxVols (vals : Values R P) (testCase : XMLNode) (test : StressTestData R P) :
    Except String (StressTestData R P) := do
  let fxVols ← requireNode (getChildNode testCase "FxVolatilities") "FxVols node not found"
  let test := { test with fxVolShifts := [] }
  let m ← entryLoop (fxVolEntry vals) (siblingsFrom fxVols "FxVolatility") test.fxVolShifts
  pure { test with fxVolShifts := m }

/-- Lines 128-158: the swaption volatility section of a test case. -/
def loadSwaptionVols (vals : Values R P) (testCase : XMLNode) (test : StressTestData R P) :
    Except String (StressTestData R P) := do
  let swaptionVols ← requireNode (getChildNode testCase "SwaptionVolatilities")
    "SwaptionVols node not found"
  let test := { test with swaptionVolShifts := [] }
  let m ← entryLoop (swaptionVolEntry vals) (siblingsFrom swaptionVols "SwaptionVolatility")
    test.swaptionVolShifts
  pure { test with swaptionVolShifts := m }

/-- Lines 160-171: the cap/floor volatility section of a test case; the mapping
is not cleared first. -/
def loadCapFloorVols (vals : Values R P) (testCase : XMLNode) (test : StressTestData R P) :
    Except String (StressTestData R P) := do
  let capVols ← requireNode (getChildNode testCase "CapFloorVolatilities")
    "CapVols node not found"
  let m ← entryLoop (capFloorVolEntry vals) (siblingsFrom capVols "CapFloorVolatility")
    test.capVolShifts
  pure { test with capVolShifts := m }

/-- Lines 37-171: the body of the test case loop up to `data_.push_back(test)`:
a fresh `StressTestData test`, its label, and the seven sections in order. -/
def loadTestCase (vals : Values R P) (testCase : XMLNode) :
    Except String (StressTestData R P) := do
  let test : StressTestData R P := {}
  let test := { test with label := getAttribute testCase "id" }
  let test ← loadDiscountCurves vals testCase test
  let test ← loadIndexCurves vals testCase test
  let test ← loadYieldCurves vals testCase test
  let test ← loadFxSpots vals testCase test
  let test ← loadFxVols vals testCase test
  let test ← loadSwaptionVols vals testCase test
  let test ← loadCapFloorVols vals testCase test
  pure test

/-- The test case loop (lines 34-176) run over the nodes it visits: each record
is appended to `data_` as soon as it is complete; a test case that throws ends
the call and leaves `data_` as it is at that moment. -/
def testCaseLoop (vals : Values R P) :
    List XMLNode → List (StressTestData R P) → Except String Unit × List (StressTestData R P)
  | [], data_ => (pure (), data_)
  | testCase :: rest, data_ =>
    match loadTestCase vals testCase with
    | .error e => (.error e, data_)
    | .ok test => testCaseLoop vals rest (data_ ++ [test])

/-- The call `v.clear()` on a `std::vector`. -/
def vectorClear {α : Type} (_v : List α) : List α :=
  []

/-- The member function `StressTestScenarioData::fromXML` (lines 28-179): from
the member `data_` before the call and the document root, to the outcome (return
or error thrown) and the member `data_` after the call. -/
def fromXML (vals : Values R P) (data_ : List (StressTestData R P)) (root : XMLNode) :
    Except String Unit × List (StressTestData R P) :=
  let data_ := vectorClear data_
  match locateNode root "StressTesting" with
  | .error e => (.error e, data_)
  | .ok node =>
    match checkNode node "StressTesting" with
    | .error e => (.error e, data_)
    | .ok _ => testCaseLoop vals (siblingsFrom node "StressTest") data_

end StressTestScenarioData

/-! ## Vocabulary of the properties -/

deriving instance DecidableEq for Except

namespace StressTestScenarioData

open XMLUtils

variable {R P : Type} [DecidableEq P]

/-- The assignments `m[k] = v` of a list of entries, in order. -/
def assignAll {K V : Type} [DecidableEq K] (m : StdMap K V) (kds : List (K × V)) : StdMap K V :=
  kds.foldl (fun m kd => m.assign kd.1 kd.2) m

/-- The test cases of a document: the nodes that the test case loop of `fromXML`
visits (none when the document has no `StressTesting` section). -/
def testCases (root : XMLNode) : List XMLNode :=
  match locateNode root "StressTesting" with
  | .ok node => siblingsFrom node "StressTest"
  | .error _ => []

/-- The entries of a subsection of a test case: the nodes that the loop over the
section visits (none when the section node is absent). -/
def sectionEntries (testCase : XMLNode) (sectionName entryName : String) : List XMLNode :=
  match getChildNode testCase sectionName with
  | some s => siblingsFrom s entryName
  | none => []

/-- The entries of the three curve sections of a test case. -/
def curveEntryNodes (testCase : XMLNode) : List XMLNode :=
  sectionEntries testCase "DiscountCurves" "DiscountCurve" ++
    sectionEntries testCase "IndexCurves" "IndexCurve" ++
    sectionEntries testCase "YieldCurves" "YieldCurve"

/-- The entries stored in the three curve mappings of a record. -/
def curveShifts (test : StressTestData R P) : List (String × CurveShiftData R P) :=
  test.discountCurveShifts ++ test.indexCurveShifts ++ test.yieldCurveShifts

/-- The stored curve entry `e` reproduces the entry node `child`: its key is the
identifier attribute, its `shifts` and `shiftTenors` are the parsed `Shifts` and
`ShiftTenors` lists of the node. -/
def reproduces (vals : Values R P) (keyAttr : String) (child : XMLNode)
    (e : String × CurveShiftData R P) : Prop :=
  getAttribute child keyAttr = e.1 ∧
    getChildrenValuesAsDoublesCompact vals child "Shifts" true = Except.ok e.2.shifts ∧
    getChildrenValuesAsPeriods vals child "ShiftTenors" true = Except.ok e.2.shiftTenors

/-- The seven subsections of a test case with the name of their entries. -/
def sections : List (String × String) :=
  [("DiscountCurves", "DiscountCurve"), ("IndexCurves", "IndexCurve"),
   ("YieldCurves", "YieldCurve"), ("FxSpots", "FxSpot"), ("FxVolatilities", "FxVolatility"),
   ("SwaptionVolatilities", "SwaptionVolatility"),
   ("CapFloorVolatilities", "CapFloorVolatility")]

/-- The section node is present in the test case and holds no entry. -/
def emptySection (testCase : XMLNode) (p : String × String) : Prop :=
  ∃ s, getChildNode testCase p.1 = some s ∧ ∀ c ∈ s.children, c.name ≠ p.2

/-- The record of a test case whose sections hold no entry: the label, and seven
empty mappings. -/
def emptyRecord (R P : Type) (testCase : XMLNode) : StressTestData R P :=
  { label := getAttribute testCase "id", discountCurveShifts := [], indexCurveShifts := [],
    yieldCurveShifts := [], fxShifts := [], fxVolShifts := [], capVolShifts := [],
    swaptionVolShifts := [] }

/-- The `Shift` cells of a swaption volatility entry: the nodes that the cell
loop visits (none when the entry has no `Shifts` child). -/
def shiftCells (entry : XMLNode) : List XMLNode :=
  sectionEntries entry "Shifts" "Shift"

/-- A cell that carries neither an `expiry` nor a `term` attribute. -/
def isParallelCell (cell : XMLNode) : Bool :=
  getAttribute cell "expiry" == "" && getAttribute cell "term" == ""

/-- A cell that carries both attributes. -/
def isCoordinateCell (cell : XMLNode) : Bool :=
  getAttribute cell "expiry" != "" && getAttribute cell "term" != ""

/-- A cell that carries exactly one of the two attributes. -/
def isHalfCell (cell : XMLNode) : Bool :=
  (getAttribute cell "expiry" == "") != (getAttribute cell "term" == "")

/-- The coordinate pair `(parsePeriod(expiry), parsePeriod(term))` of a cell, when
both attributes parse. -/
def cellKey (vals : Values R P) (cell : XMLNode) : Option (P × P) :=
  match vals.parsePeriod (getAttribute cell "expiry"), vals.parsePeriod (getAttribute cell "term") with
  | .ok e, .ok t => some (e, t)
  | _, _ => none

/-- The cells without attributes among `cells`, in document order. -/
def parallelCells (cells : List XMLNode) : List XMLNode :=
  cells.filter isParallelCell

/-- The cells with both attributes and coordinate pair `key` among `cells`, in
document order. -/
def cellsAt (vals : Values R P) (key : P × P) (cells : List XMLNode) : List XMLNode :=
  cells.filter (fun c => isCoordinateCell c && decide (cellKey vals c = some key))

/-- The value `x` is the parallel shift that `cells` prescribe: the value of the
last cell without attributes, and `0.0` when there is no such cell. -/
def parallelShiftOf (vals : Values R P) (cells : List XMLNode) (x : R) : Prop :=
  (∀ c, (parallelCells cells).getLast? = some c →
      vals.parseReal (getNodeValue c) = Except.ok x) ∧
    (parallelCells cells = [] → x = vals.zero)

/-- The mapping `shifts` is the sparse grid that `cells` prescribe: its keys are
the coordinate pairs of the cells with both attributes, each key once, and the
value at a key is that of the last cell with that coordinate pair. -/
def gridOf (vals : Values R P) (cells : List XMLNode) (shifts : StdMap (P × P) R) : Prop :=
  (∀ key, key ∈ shifts.keys ↔
      ∃ c ∈ cells, isCoordinateCell c = true ∧ cellKey vals c = some key) ∧
    (∀ key c, (cellsAt vals key cells).getLast? = some c →
      ∃ v, vals.parseReal (getNodeValue c) = Except.ok v ∧ shifts.find key = some v) ∧
    shifts.keys.Nodup

/-- The first `k` sections of a test case loaded in the order of the source
(discount, index and yield curves, FX spots, FX volatilities, swaption
volatilities, cap/floor volatilities), starting from the fresh labelled record:
"everything earlier in the test case is valid" means that this succeeds. -/
def loadSections (vals : Values R P) (testCase : XMLNode) (k : Nat) :
    Except String (StressTestData R P) :=
  (List.take k [loadDiscountCurves vals, loadIndexCurves vals, loadYieldCurves vals,
      loadFxSpots vals, loadFxVols vals, loadSwaptionVols vals, loadCapFloorVols vals]).foldlM
    (fun test load => load testCase test) { label := getAttribute testCase "id" }

end StressTestScenarioData

/-! ## A concrete value model and example documents -/

/-- The time units of a period. -/
inductive TimeUnit where
  | Days | Weeks | Months | Years
deriving DecidableEq

/-- A period such as `1Y` or `6M`: a length and a unit. -/
structure Period where
  length : Nat
  units : TimeUnit
deriving DecidableEq

/-- A decimal number `mantissa / 10 ^ scale`, written without trailing zeros
after the point. -/
structure Decimal where
  mantissa : Nat
  scale : Nat
deriving DecidableEq

/-- Value of a decimal digit. -/
def digitValue (c : Char) : Option Nat :=
  if c.isDigit then some (c.toNat - 48) else none

/-- Read a sequence of decimal digits, most significant first, onto `acc`. -/
def parseDigits : List Char → Nat → Option Nat
  | [], acc => some acc
  | c :: cs, acc =>
    match digitValue c with
    | some d => parseDigits cs (10 * acc + d)
    | none => none

/-- The unit letter of a period. -/
def unitOf (c : Char) : Option TimeUnit :=
  if c == 'D' then some .Days
  else if c == 'W' then some .Weeks
  else if c == 'M' then some .Months
  else if c == 'Y' then some .Years
  else none

/-- A period parser for texts of the form digits + unit letter. -/
def examplePeriod (s : String) : Except String Period :=
  match s.toList.reverse with
  | [] => throw "empty period"
  | u :: ds =>
    match unitOf u, ds with
    | some un, _ :: _ =>
      match parseDigits ds.reverse 0 with
      | some n => pure ⟨n, un⟩
      | none => throw ("bad period " ++ s)
    | _, _ => throw ("bad period " ++ s)

/-- A number parser for unsigned decimals such as `0.005` or `12`. -/
def exampleReal (s : String) : Except String Decimal :=
  let cs := s.toList
  let ip := cs.takeWhile (fun c => c != '.')
  let fp := (((cs.dropWhile (fun c => c != '.')).drop 1).reverse.dropWhile
    (fun c => c == '0')).reverse
  if ip.isEmpty then throw ("bad number " ++ s)
  else
    match parseDigits (ip ++ fp) 0 with
    | some m => pure ⟨m, fp.length⟩
    | none => throw ("bad number " ++ s)

/-- The example value model: decimals and simple periods. -/
def exampleValues : Values Decimal Period :=
  ⟨exampleReal, examplePeriod, ⟨0, 0⟩⟩

/-- An element with text and no attributes or children. -/
def leaf (name value : String) : XMLNode :=
  .mk name [] value []

/-- An element without text. -/
def element (name : String) (attributes : List (String × String)) (children : List XMLNode) :
    XMLNode :=
  .mk name attributes "" children

/-- A curve entry (`DiscountCurve`, `IndexCurve`, `YieldCurve`). -/
def curveNode (name key id shiftType tenors shifts : String) : XMLNode :=
  element name [(key, id)]
    [leaf "ShiftType" shiftType, leaf "Shifts" shifts, leaf "ShiftTenors" tenors]

/-- A `StressTest` element with the seven sections holding the given entries. -/
def stressTest (id : String) (discount index yield fxSpots fxVols swaptionVols capVols :
    List XMLNode) : XMLNode :=
  element "StressTest" [("id", id)]
    [element "DiscountCurves" [] discount, element "IndexCurves" [] index,
     element "YieldCurves" [] yield, element "FxSpots" [] fxSpots,
     element "FxVolatilities" [] fxVols, element "SwaptionVolatilities" [] swaptionVols,
     element "CapFloorVolatilities" [] capVols]

/-- A `StressTest` element whose seven sections are all present and empty. -/
def emptyTest (id : String) : XMLNode :=
  stressTest id [] [] [] [] [] [] []

/-- The `StressTesting` document with the given test cases. -/
def stressTesting (tests : List XMLNode) : XMLNode :=
  element "StressTesting" [] tests

/-- One test with a discount curve for USD, absolute shifts 0.01 and 0.02 at
tenors 1Y and 2Y. -/
def usdDocument : XMLNode :=
  stressTesting
    [stressTest "Scenario1" [curveNode "DiscountCurve" "ccy" "USD" "Absolute" "1Y,2Y" "0.01,0.02"]
      [] [] [] [] [] []]

/-- The records that `usdDocument` loads to. -/
def usdRecords : List (StressTestData Decimal Period) :=
  [{ label := "Scenario1",
     discountCurveShifts :=
       [("USD", { shiftType := "Absolute", shiftTenors := [⟨1, .Years⟩, ⟨2, .Years⟩],
                  shifts := [⟨1, 2⟩, ⟨2, 2⟩] })] }]

/-- One test with a discount, an index and a yield curve. -/
def curvesDocument : XMLNode :=
  stressTesting
    [stressTest "Curves"
      [curveNode "DiscountCurve" "ccy" "EUR" "Absolute" "6M,1Y,5Y" "0.001,0.002,0.003"]
      [curveNode "IndexCurve" "index" "EUR-EURIBOR-6M" "Absolute" "1Y,2Y" "0.01,0.02"]
      [curveNode "YieldCurve" "name" "BENCHMARK_EUR" "Relative" "10Y" "0.5"]
      [] [] [] []]

/-- A `StressTest` element that has every section node but `IndexCurves`. -/
def missingIndexTest : XMLNode :=
  element "StressTest" [("id", "Scenario2")]
    [element "DiscountCurves" [] [], element "YieldCurves" [] [], element "FxSpots" [] [],
     element "FxVolatilities" [] [], element "SwaptionVolatilities" [] [],
     element "CapFloorVolatilities" [] []]

/-- A valid test case followed by one without the `IndexCurves` node. -/
def missingIndexDocument : XMLNode :=
  stressTesting [emptyTest "Scenario1", missingIndexTest]

/-- A `Shift` cell. -/
def shiftNode (attributes : List (String × String)) (value : String) : XMLNode :=
  .mk "Shift" attributes value []

/-- A `SwaptionVolatility` entry. -/
def swaptionNode (ccy shiftType terms expiries : String) (cells : List XMLNode) : XMLNode :=
  element "SwaptionVolatility" [("ccy", ccy)]
    [leaf "ShiftType" shiftType, leaf "ShiftTerms" terms, leaf "ShiftExpiries" expiries,
     element "Shifts" [] cells]

/-- A swaption entry with one cell without attributes, of value 0.005. -/
def parallelOnlyEntry : XMLNode :=
  swaptionNode "EUR" "Absolute" "5Y,10Y" "1Y,2Y" [shiftNode [] "0.005"]

/-- One test whose swaption section holds `parallelOnlyEntry`. -/
def parallelOnlyDocument : XMLNode :=
  stressTesting [stressTest "Parallel" [] [] [] [] [] [parallelOnlyEntry] []]

/-- The records that `parallelOnlyDocument` loads to. -/
def parallelOnlyRecords : List (StressTestData Decimal Period) :=
  [{ label := "Parallel",
     swaptionVolShifts :=
       [("EUR", { shiftType := "Absolute", shiftExpiries := [⟨1, .Years⟩, ⟨2, .Years⟩],
                  shiftTerms := [⟨5, .Years⟩, ⟨10, .Years⟩], shifts := [],
                  parallelShiftSize := ⟨5, 3⟩ })] }]

/-- A swaption entry with two cells without attributes and three cells with
coordinates, two of them at the same coordinates. -/
def gridEntry : XMLNode :=
  swaptionNode "EUR" "Absolute" "5Y,10Y" "1Y,2Y"
    [shiftNode [] "0.005",
     shiftNode [("expiry", "1Y"), ("term", "5Y")] "0.01",
     shiftNode [] "0.007",
     shiftNode [("expiry", "1Y"), ("term", "5Y")] "0.02",
     shiftNode [("expiry", "2Y"), ("term", "5Y")] "0.03"]

/-- One test whose swaption section holds `gridEntry`. -/
def gridDocument : XMLNode :=
  stressTesting [stressTest "Grid" [] [] [] [] [] [gridEntry] []]

/-- The records that `gridDocument` loads to. -/
def gridRecords : List (StressTestData Decimal Period) :=
  [{ label := "Grid",
     swaptionVolShifts :=
       [("EUR", { shiftType := "Absolute", shiftExpiries := [⟨1, .Years⟩, ⟨2, .Years⟩],
                  shiftTerms := [⟨5, .Years⟩, ⟨10, .Years⟩],
                  shifts := [((⟨1, .Years⟩, ⟨5, .Years⟩), ⟨2, 2⟩),
                             ((⟨2, .Years⟩, ⟨5, .Years⟩), ⟨3, 2⟩)],
                  parallelShiftSize := ⟨7, 3⟩ })] }]

/-- A cell with `expiry="1Y"` and no `term` attribute. -/
def halfCell : XMLNode :=
  shiftNode [("expiry", "1Y")] "0.01"

/-- A swaption entry whose only cell is `halfCell`. -/
def halfCellEntry : XMLNode :=
  swaptionNode "EUR" "Absolute" "5Y,10Y" "1Y,2Y" [halfCell]

/-- One test whose swaption section holds `halfCellEntry`. -/
def halfCellTest : XMLNode :=
  stressTest "Half" [] [] [] [] [] [halfCellEntry] []

/-- The document with the test `halfCellTest`. -/
def halfCellDocument : XMLNode :=
  stressTesting [halfCellTest]

/-- Two test cases, labelled "Scenario1" and "Scenario2", with empty sections. -/
def twoScenarios : XMLNode :=
  stressTesting [emptyTest "Scenario1", emptyTest "Scenario2"]

/-- Two test cases with the same label. -/
def sameLabelTwice : XMLNode :=
  stressTesting [emptyTest "Scenario1", emptyTest "Scenario1"]

/-- A `StressTest` whose discount curve has one shift for two tenors. -/
def mismatchTest : XMLNode :=
  stressTest "Scenario2" [curveNode "DiscountCurve" "ccy" "EUR" "Absolute" "1Y,2Y" "0.01"]
    [] [] [] [] [] []

/-- The valid USD test case "Scenario1" followed by the invalid "Scenario2". -/
def validThenInvalid : XMLNode :=
  stressTesting
    [stressTest "Scenario1" [curveNode "DiscountCurve" "ccy" "USD" "Absolute" "1Y,2Y" "0.01,0.02"]
      [] [] [] [] [] [],
     mismatchTest]

/-- The records that `curvesDocument` loads to. -/
def curvesRecords : List (StressTestData Decimal Period) :=
  [{ label := "Curves",
     discountCurveShifts :=
       [("EUR", { shiftType := "Absolute",
                  shiftTenors := [⟨6, .Months⟩, ⟨1, .Years⟩, ⟨5, .Years⟩],
                  shifts := [⟨1, 3⟩, ⟨2, 3⟩, ⟨3, 3⟩] })],
     indexCurveShifts :=
       [("EUR-EURIBOR-6M", { shiftType := "Absolute", shiftTenors := [⟨1, .Years⟩, ⟨2, .Years⟩],
                             shifts := [⟨1, 2⟩, ⟨2, 2⟩] })],
     yieldCurveShifts :=
       [("BENCHMARK_EUR", { shiftType := "Relative", shiftTenors := [⟨10, .Years⟩],
                            shifts := [⟨5, 1⟩] })] }]


/-! ## The export `StressTestScenarioData::toXML` -/

/-- Modelled from the spec: the class `XMLDocument` of `ored/utilities/xmlutils.hpp`
is not among the sources.  An output document: the nodes attached to its tree, and
the nodes allocated from its memory, attached or not. -/
structure XMLDocument where
  tree : List XMLNode
  allocated : List XMLNode

/-- Modelled from the spec: `XMLDocument::allocNode` is not among the sources.  It
allocates a new element with the given name from the memory of the document and
yields it; the element is not attached to the tree. -/
def XMLDocument.allocNode (doc : XMLDocument) (nodeName : String) : XMLNode × XMLDocument :=
  (XMLNode.mk nodeName [] "" [],
    { doc with allocated := doc.allocated ++ [XMLNode.mk nodeName [] "" []] })

/-- The macro `QL_FAIL(message)`: throws `message`. -/
def QL_FAIL {α : Type} (message : String) : Except String α :=
  throw message

namespace StressTestScenarioData

/-- The member function `StressTestScenarioData::toXML` (lines 181-185): from the
member `data_` and the output document, to the outcome (node returned or error
thrown) and the document after the call. -/
def toXML {R P : Type} (_data_ : List (StressTestData R P)) (doc : XMLDocument) :
    Except String XMLNode × XMLDocument :=
  let (node, doc) := doc.allocNode "StressTesting"
  match (QL_FAIL "toXML not implemented for stress testing data" : Except String Unit) with
  | .error e => (.error e, doc)
  | .ok _ => (.ok node, doc)

end StressTestScenarioData

/-! ## Vocabulary of the properties of the mappings -/

namespace StressTestScenarioData

open XMLUtils

variable {R P : Type} [DecidableEq P]

/-- The entries with identifier `k` (the value of the attribute `attr`) among
`nodes`, in document order. -/
def entriesAt (attr k : String) (nodes : List XMLNode) : List XMLNode :=
  nodes.filter (fun n => getAttribute n attr == k)

/-- The mapping `m` holds one entry per identifier, and for every identifier the
data read from the last entry node, in document order, that carries it. -/
def lastEntryWins {V : Type} (attr : String) (entry : XMLNode → Except String (String × V))
    (nodes : List XMLNode) (m : StdMap String V) : Prop :=
  m.keys.Nodup ∧
    ∀ k c, (entriesAt attr k nodes).getLast? = some c →
      ∃ d, entry c = Except.ok (k, d) ∧ m.find k = some d

/-- The keys of the mapping `m` are exactly the identifiers that occur on
`nodes`. -/
def keysExactly {V : Type} (attr : String) (nodes : List XMLNode) (m : StdMap String V) : Prop :=
  ∀ k, k ∈ m.keys ↔ ∃ c ∈ nodes, getAttribute c attr = k

/-- The seven section nodes of the test case are present and every entry of every
section is valid on its own: the body of its loop reads it without an error. -/
def entriesValid (vals : Values R P) (tc : XMLNode) : Bool :=
  sections.all (fun p => (getChildNode tc p.1).isSome) &&
    (sectionEntries tc "DiscountCurves" "DiscountCurve").all
      (fun c => (discountCurveEntry vals c).toBool) &&
    (sectionEntries tc "IndexCurves" "IndexCurve").all
      (fun c => (indexCurveEntry vals c).toBool) &&
    (sectionEntries tc "YieldCurves" "YieldCurve").all
      (fun c => (yieldCurveEntry vals c).toBool) &&
    (sectionEntries tc "FxSpots" "FxSpot").all (fun c => (fxSpotEntry vals c).toBool) &&
    (sectionEntries tc "FxVolatilities" "FxVolatility").all
      (fun c => (fxVolEntry vals c).toBool) &&
    (sectionEntries tc "SwaptionVolatilities" "SwaptionVolatility").all
      (fun c => (swaptionVolEntry vals c).toBool) &&
    (sectionEntries tc "CapFloorVolatilities" "CapFloorVolatility").all
      (fun c => (capFloorVolEntry vals c).toBool)

/-- The load of `root` throws whenever an entry of the given section of one of its
test cases has no child called `childName`. -/
def failsOnEntryWithout (vals : Values R P) (data0 : List (StressTestData R P)) (root : XMLNode)
    (sectionName entryName childName : String) : Prop :=
  ∀ tc ∈ testCases root, ∀ child ∈ sectionEntries tc sectionName entryName,
    getChildNode child childName = none → ∃ e, (fromXML vals data0 root).1 = Except.error e

end StressTestScenarioData

/-! ## Further example documents -/

/-- An `FxSpot` entry. -/
def fxSpotNode (ccypair shiftType shiftSize : String) : XMLNode :=
  element "FxSpot" [("ccypair", ccypair)]
    [leaf "ShiftType" shiftType, leaf "ShiftSize" shiftSize]

/-- One test with the FX spot EURUSD, relative shift 0.01. -/
def fxSpotDocument : XMLNode :=
  stressTesting [stressTest "Fx" [] [] [] [fxSpotNode "EURUSD" "Relative" "0.01"] [] [] []]

/-- The records that `fxSpotDocument` loads to. -/
def fxSpotRecords : List (StressTestData Decimal Period) :=
  [{ label := "Fx", fxShifts := [("EURUSD", { shiftType := "Relative", shiftSize := ⟨1, 2⟩ })] }]

/-- An `FxSpot` entry without a `ShiftSize` child. -/
def fxSpotNoSize : XMLNode :=
  element "FxSpot" [("ccypair", "EURUSD")] [leaf "ShiftType" "Relative"]

/-- A test whose FX spot section holds `fxSpotNoSize`. -/
def fxSpotNoSizeTest : XMLNode :=
  stressTest "Fx" [] [] [] [fxSpotNoSize] [] [] []

/-- The document with the test `fxSpotNoSizeTest`. -/
def fxSpotNoSizeDocument : XMLNode :=
  stressTesting [fxSpotNoSizeTest]

/-- An `FxVolatility` entry without a `ShiftType` child. -/
def fxVolNoType : XMLNode :=
  element "FxVolatility" [("ccypair", "EURUSD")]
    [leaf "Shifts" "0.1,0.2", leaf "ShiftExpiries" "1Y,2Y"]

/-- One test whose FX volatility section holds `fxVolNoType`. -/
def fxVolNoTypeDocument : XMLNode :=
  stressTesting [stressTest "FxVol" [] [] [] [] [fxVolNoType] [] []]

/-- The records that `fxVolNoTypeDocument` loads to. -/
def fxVolNoTypeRecords : List (StressTestData Decimal Period) :=
  [{ label := "FxVol",
     fxVolShifts :=
       [("EURUSD", { shiftType := "", shiftExpiries := [⟨1, .Years⟩, ⟨2, .Years⟩],
                     shifts := [⟨1, 1⟩, ⟨2, 1⟩] })] }]

/-- A `CapFloorVolatility` entry without a `ShiftType` child. -/
def capNoType : XMLNode :=
  element "CapFloorVolatility" [("ccy", "EUR")]
    [leaf "ShiftExpiries" "1Y,2Y", leaf "Shifts" "0.1,0.2"]

/-- A test whose cap/floor volatility section holds `capNoType`. -/
def capNoTypeTest : XMLNode :=
  stressTest "Cap" [] [] [] [] [] [] [capNoType]

/-- The document with the test `capNoTypeTest`. -/
def capNoTypeDocument : XMLNode :=
  stressTesting [capNoTypeTest]

/-- The shift type stored with every entry of the mapping `m` is the text of the
`ShiftType` child of an entry node among `nodes` with that identifier. -/
def shiftTypeRead {V : Type} (shiftTypeOf : V → String) (attr : String) (nodes : List XMLNode)
    (m : StdMap String V) : Prop :=
  ∀ e ∈ m, ∃ child ∈ nodes, XMLUtils.getAttribute child attr = e.1 ∧
    XMLUtils.getChildValue child "ShiftType" true = Except.ok (shiftTypeOf e.2)

/-- An FX volatility with two shifts for one expiry, and a cap/floor volatility
with an empty `Shifts` list for two expiries. -/
def volMismatchDocument : XMLNode :=
  stressTesting
    [stressTest "Vols" [] [] [] []
      [element "FxVolatility" [("ccypair", "EURUSD")]
        [leaf "ShiftType" "Absolute", leaf "Shifts" "0.1,0.2", leaf "ShiftExpiries" "1Y"]]
      []
      [element "CapFloorVolatility" [("ccy", "EUR")]
        [leaf "ShiftType" "Absolute", leaf "ShiftExpiries" "1Y,2Y", leaf "Shifts" ""]]]

/-- The records that `volMismatchDocument` loads to. -/
def volMismatchRecords : List (StressTestData Decimal Period) :=
  [{ label := "Vols",
     fxVolShifts :=
       [("EURUSD", { shiftType := "Absolute", shiftExpiries := [⟨1, .Years⟩],
                     shifts := [⟨1, 1⟩, ⟨2, 1⟩] })],
     capVolShifts :=
       [("EUR", { shiftType := "Absolute", shiftExpiries := [⟨1, .Years⟩, ⟨2, .Years⟩],
                  shifts := [] })] }]

/-- One test with a discount curve whose shift type is "Sideways". -/
def sidewaysDocument : XMLNode :=
  stressTesting
    [stressTest "Odd" [curveNode "DiscountCurve" "ccy" "USD" "Sideways" "1Y,2Y" "0.01,0.02"]
      [] [] [] [] [] []]

/-- The records that `sidewaysDocument` loads to. -/
def sidewaysRecords : List (StressTestData Decimal Period) :=
  [{ label := "Odd",
     discountCurveShifts :=
       [("USD", { shiftType := "Sideways", shiftTenors := [⟨1, .Years⟩, ⟨2, .Years⟩],
                  shifts := [⟨1, 2⟩, ⟨2, 2⟩] })] }]

/-- A discount curve entry for USD with one shift for two tenors. -/
def usdMismatchEntry : XMLNode :=
  curveNode "DiscountCurve" "ccy" "USD" "Absolute" "1Y,2Y" "0.01"

/-- One test whose discount curve section holds `usdMismatchEntry`. -/
def usdMismatchDocument : XMLNode :=
  stressTesting [stressTest "Scenario1" [usdMismatchEntry] [] [] [] [] [] []]

/-- A `CapFloorVolatility` entry. -/
def capNode (ccy shiftType expiries shifts : String) : XMLNode :=
  element "CapFloorVolatility" [("ccy", ccy)]
    [leaf "ShiftType" shiftType, leaf "ShiftExpiries" expiries, leaf "Shifts" shifts]

/-- Two test cases: the first with a cap/floor volatility and a swaption volatility
for EUR, the second with a cap/floor volatility for USD and swaption volatilities
for USD and GBP. -/
def twoCasesDocument : XMLNode :=
  stressTesting
    [stressTest "First" [] [] [] [] []
      [swaptionNode "EUR" "Absolute" "5Y" "1Y"
        [shiftNode [("expiry", "1Y"), ("term", "5Y")] "0.01"]]
      [capNode "EUR" "Absolute" "1Y,2Y" "0.1,0.2"],
     stressTest "Second" [] [] [] [] []
      [swaptionNode "USD" "Absolute" "10Y" "2Y"
        [shiftNode [("expiry", "2Y"), ("term", "10Y")] "0.02"],
       swaptionNode "GBP" "Absolute" "10Y" "2Y" [shiftNode [] "0.03"]]
      [capNode "USD" "Relative" "5Y" "0.3"]]

/-- The records that `twoCasesDocument` loads to. -/
def twoCasesRecords : List (StressTestData Decimal Period) :=
  [{ label := "First",
     capVolShifts :=
       [("EUR", { shiftType := "Absolute", shiftExpiries := [⟨1, .Years⟩, ⟨2, .Years⟩],
                  shifts := [⟨1, 1⟩, ⟨2, 1⟩] })],
     swaptionVolShifts :=
       [("EUR", { shiftType := "Absolute", shiftExpiries := [⟨1, .Years⟩],
                  shiftTerms := [⟨5, .Years⟩],
                  shifts := [((⟨1, .Years⟩, ⟨5, .Years⟩), ⟨1, 2⟩)],
                  parallelShiftSize := ⟨0, 0⟩ })] },
   { label := "Second",
     capVolShifts :=
       [("USD", { shiftType := "Relative", shiftExpiries := [⟨5, .Years⟩],
                  shifts := [⟨3, 1⟩] })],
     swaptionVolShifts :=
       [("USD", { shiftType := "Absolute", shiftExpiries := [⟨2, .Years⟩],
                  shiftTerms := [⟨10, .Years⟩],
                  shifts := [((⟨2, .Years⟩, ⟨10, .Years⟩), ⟨2, 2⟩)],
                  parallelShiftSize := ⟨0, 0⟩ }),
        ("GBP", { shiftType := "Absolute", shiftExpiries := [⟨2, .Years⟩],
                  shiftTerms := [⟨10, .Years⟩], shifts := [],
                  parallelShiftSize := ⟨3, 2⟩ })] }]

/-- A swaption volatility with the axes `ShiftTerms = 5Y`, `ShiftExpiries = 1Y` and
two cells, at (3Y, 7Y) and (4Y, 7Y). -/
def offAxisDocument : XMLNode :=
  stressTesting
    [stressTest "OffAxis" [] [] [] [] []
      [swaptionNode "EUR" "Absolute" "5Y" "1Y"
        [shiftNode [("expiry", "3Y"), ("term", "7Y")] "0.01",
         shiftNode [("expiry", "4Y"), ("term", "7Y")] "0.02"]]
      []]

/-- The records that `offAxisDocument` loads to. -/
def offAxisRecords : List (StressTestData Decimal Period) :=
  [{ label := "OffAxis",
     swaptionVolShifts :=
       [("EUR", { shiftType := "Absolute", shiftExpiries := [⟨1, .Years⟩],
                  shiftTerms := [⟨5, .Years⟩],
                  shifts := [((⟨3, .Years⟩, ⟨7, .Years⟩), ⟨1, 2⟩),
                             ((⟨4, .Years⟩, ⟨7, .Years⟩), ⟨2, 2⟩)],
                  parallelShiftSize := ⟨0, 0⟩ })] }]

/-! ## Vocabulary of the data of an entry -/

namespace StressTestScenarioData

open XMLUtils

variable {R P : Type}

/-- The curve record `d` holds the data of the entry node `c` (§3, CurveShift):
its shift type is the text of the `ShiftType` child, its shifts are the parsed
`Shifts` list and its tenors the parsed `ShiftTenors` list. -/
def curveDataOf (vals : Values R P) (c : XMLNode) (d : CurveShiftData R P) : Prop :=
  getChildValue c "ShiftType" true = Except.ok d.shiftType ∧
    getChildrenValuesAsDoublesCompact vals c "Shifts" true = Except.ok d.shifts ∧
    getChildrenValuesAsPeriods vals c "ShiftTenors" true = Except.ok d.shiftTenors

/-- The FX spot record `d` holds the data of the entry node `c` (§3, ScalarShift):
the text of `ShiftType` and the parsed `ShiftSize`. -/
def fxSpotDataOf (vals : Values R P) (c : XMLNode) (d : FxShiftData R) : Prop :=
  getChildValue c "ShiftType" true = Except.ok d.shiftType ∧
    getChildValueAsDouble vals c "ShiftSize" true = Except.ok d.shiftSize

/-- The FX volatility record `d` holds the data of the entry node `c` (§3,
VolShift1D): the text of the optional `ShiftType` (empty when the child is
absent), the parsed `Shifts` list and the parsed `ShiftExpiries` list. -/
def fxVolDataOf (vals : Values R P) (c : XMLNode) (d : FxVolShiftData R P) : Prop :=
  getChildValue c "ShiftType" false = Except.ok d.shiftType ∧
    getChildrenValuesAsDoublesCompact vals c "Shifts" true = Except.ok d.shifts ∧
    getChildrenValuesAsPeriods vals c "ShiftExpiries" true = Except.ok d.shiftExpiries

/-- The swaption volatility record `d` holds the data of the entry node `c` (§3,
SwaptionVolShift): the text of `ShiftType`, the parsed `ShiftTerms` and
`ShiftExpiries` lists, the parallel shift and the sparse grid that the cells of
the node prescribe. -/
def swaptionDataOf [DecidableEq P] (vals : Values R P) (c : XMLNode)
    (d : SwaptionVolShiftData R P) : Prop :=
  getChildValue c "ShiftType" true = Except.ok d.shiftType ∧
    getChildrenValuesAsPeriods vals c "ShiftTerms" true = Except.ok d.shiftTerms ∧
    getChildrenValuesAsPeriods vals c "ShiftExpiries" true = Except.ok d.shiftExpiries ∧
    parallelShiftOf vals (shiftCells c) d.parallelShiftSize ∧
    gridOf vals (shiftCells c) d.shifts

/-- The cap/floor volatility record `d` holds the data of the entry node `c` (§3,
VolShift1D): the text of `ShiftType`, the parsed `ShiftExpiries` list and the
parsed `Shifts` list. -/
def capFloorDataOf (vals : Values R P) (c : XMLNode) (d : CapFloorVolShiftData R P) : Prop :=
  getChildValue c "ShiftType" true = Except.ok d.shiftType ∧
    getChildrenValuesAsPeriods vals c "ShiftExpiries" true = Except.ok d.shiftExpiries ∧
    getChildrenValuesAsDoublesCompact vals c "Shifts" true = Except.ok d.shifts

/-- The mapping `m` holds a single entry per identifier, and at every identifier
that occurs on `nodes` the record that holds the data (`dataOf`) of the last
node, in document order, that carries the identifier. -/
def lastEntryHolds {V : Type} (attr : String) (dataOf : XMLNode → V → Prop)
    (nodes : List XMLNode) (m : StdMap String V) : Prop :=
  m.keys.Nodup ∧
    ∀ k c, (entriesAt attr k nodes).getLast? = some c →
      ∃ d, m.find k = some d ∧ dataOf c d

/-- A curve entry that is valid on its own (§3, §4.1): it has a `ShiftType` child,
its `Shifts` and `ShiftTenors` lists parse, and the two lists are of equal length
and not empty. -/
def validCurveEntry (vals : Values R P) (c : XMLNode) : Bool :=
  (getChildNode c "ShiftType").isSome &&
    match getChildrenValuesAsDoublesCompact vals c "Shifts" true,
      getChildrenValuesAsPeriods vals c "ShiftTenors" true with
    | .ok shifts, .ok tenors => shifts.length == tenors.length && decide (0 < shifts.length)
    | _, _ => false

/-- An FX spot entry that is valid on its own (§4.2): it has a `ShiftType` child
and a `ShiftSize` child whose text parses. -/
def validFxSpotEntry (vals : Values R P) (c : XMLNode) : Bool :=
  (getChildNode c "ShiftType").isSome &&
    (getChildValueAsDouble vals c "ShiftSize" true).toBool

/-- An FX volatility entry that is valid on its own: its `Shifts` and
`ShiftExpiries` lists parse (`ShiftType` is optional, §6). -/
def validFxVolEntry (vals : Values R P) (c : XMLNode) : Bool :=
  (getChildrenValuesAsDoublesCompact vals c "Shifts" true).toBool &&
    (getChildrenValuesAsPeriods vals c "ShiftExpiries" true).toBool

/-- A `Shift` cell that is valid on its own (§4.3): it carries neither attribute
and its value parses, or it carries both, both parse as periods and its value
parses. -/
def validCell (vals : Values R P) (cell : XMLNode) : Bool :=
  (isParallelCell cell && (vals.parseReal (getNodeValue cell)).toBool) ||
    (isCoordinateCell cell && (cellKey vals cell).isSome &&
      (vals.parseReal (getNodeValue cell)).toBool)

/-- A swaption volatility entry that is valid on its own (§4.3): it has a
`ShiftType` child, its `ShiftTerms` and `ShiftExpiries` lists parse, it has a
`Shifts` child, and every cell is valid. -/
def validSwaptionEntry (vals : Values R P) (c : XMLNode) : Bool :=
  (getChildNode c "ShiftType").isSome &&
    (getChildrenValuesAsPeriods vals c "ShiftTerms" true).toBool &&
    (getChildrenValuesAsPeriods vals c "ShiftExpiries" true).toBool &&
    (getChildNode c "Shifts").isSome &&
    (shiftCells c).all (validCell vals)

/-- A cap/floor volatility entry that is valid on its own: it has a `ShiftType`
child and its `ShiftExpiries` and `Shifts` lists parse. -/
def validCapFloorEntry (vals : Values R P) (c : XMLNode) : Bool :=
  (getChildNode c "ShiftType").isSome &&
    (getChildrenValuesAsPeriods vals c "ShiftExpiries" true).toBool &&
    (getChildrenValuesAsDoublesCompact vals c "Shifts" true).toBool

/-- A test case all of whose entries are valid on their own: the seven section
nodes are present (§4.4) and every entry of every section is valid. -/
def validTestCase (vals : Values R P) (tc : XMLNode) : Bool :=
  sections.all (fun p => (getChildNode tc p.1).isSome) &&
    (sectionEntries tc "DiscountCurves" "DiscountCurve").all (validCurveEntry vals) &&
    (sectionEntries tc "IndexCurves" "IndexCurve").all (validCurveEntry vals) &&
    (sectionEntries tc "YieldCurves" "YieldCurve").all (validCurveEntry vals) &&
    (sectionEntries tc "FxSpots" "FxSpot").all (validFxSpotEntry vals) &&
    (sectionEntries tc "FxVolatilities" "FxVolatility").all (validFxVolEntry vals) &&
    (sectionEntries tc "SwaptionVolatilities" "SwaptionVolatility").all
      (validSwaptionEntry vals) &&
    (sectionEntries tc "CapFloorVolatilities" "CapFloorVolatility").all
      (validCapFloorEntry vals)

end StressTestScenarioData

/-- An `FxVolatility` entry. -/
def fxVolNode (ccypair shiftType shifts expiries : String) : XMLNode :=
  element "FxVolatility" [("ccypair", ccypair)]
    [leaf "ShiftType" shiftType, leaf "Shifts" shifts, leaf "ShiftExpiries" expiries]

/-- One test in which every section gives an identifier twice, with different
data: the discount curve USD (with EUR in between), the index curve
EUR-EURIBOR-6M, the yield curve BENCHMARK, the FX spot EURUSD, the FX volatility
EURUSD, the swaption volatility EUR and the cap/floor volatility EUR. -/
def duplicatesDocument : XMLNode :=
  stressTesting
    [stressTest "Dup"
      [curveNode "DiscountCurve" "ccy" "USD" "Absolute" "1Y,2Y" "0.01,0.02",
       curveNode "DiscountCurve" "ccy" "EUR" "Absolute" "1Y" "0.05",
       curveNode "DiscountCurve" "ccy" "USD" "Relative" "5Y" "0.3"]
      [curveNode "IndexCurve" "index" "EUR-EURIBOR-6M" "Absolute" "1Y" "0.1",
       curveNode "IndexCurve" "index" "EUR-EURIBOR-6M" "Relative" "2Y" "0.2"]
      [curveNode "YieldCurve" "name" "BENCHMARK" "Absolute" "1Y" "0.1",
       curveNode "YieldCurve" "name" "BENCHMARK" "Relative" "3Y" "0.3"]
      [fxSpotNode "EURUSD" "Relative" "0.01", fxSpotNode "EURUSD" "Absolute" "0.02"]
      [fxVolNode "EURUSD" "Absolute" "0.1" "1Y", fxVolNode "EURUSD" "Relative" "0.2,0.3" "2Y,3Y"]
      [swaptionNode "EUR" "Absolute" "5Y" "1Y" [shiftNode [] "0.005"],
       swaptionNode "EUR" "Relative" "10Y" "2Y"
         [shiftNode [("expiry", "2Y"), ("term", "10Y")] "0.1"]]
      [capNode "EUR" "Absolute" "1Y" "0.1", capNode "EUR" "Relative" "2Y,5Y" "0.2,0.5"]]

/-- The records that `duplicatesDocument` loads to: one entry per identifier, with
the data of the last entry that carries it. -/
def duplicatesRecords : List (StressTestData Decimal Period) :=
  [{ label := "Dup",
     discountCurveShifts :=
       [("USD", { shiftType := "Relative", shiftTenors := [⟨5, .Years⟩], shifts := [⟨3, 1⟩] }),
        ("EUR", { shiftType := "Absolute", shiftTenors := [⟨1, .Years⟩], shifts := [⟨5, 2⟩] })],
     indexCurveShifts :=
       [("EUR-EURIBOR-6M",
          { shiftType := "Relative", shiftTenors := [⟨2, .Years⟩], shifts := [⟨2, 1⟩] })],
     yieldCurveShifts :=
       [("BENCHMARK",
          { shiftType := "Relative", shiftTenors := [⟨3, .Years⟩], shifts := [⟨3, 1⟩] })],
     fxShifts := [("EURUSD", { shiftType := "Absolute", shiftSize := ⟨2, 2⟩ })],
     fxVolShifts :=
       [("EURUSD", { shiftType := "Relative", shiftExpiries := [⟨2, .Years⟩, ⟨3, .Years⟩],
                     shifts := [⟨2, 1⟩, ⟨3, 1⟩] })],
     swaptionVolShifts :=
       [("EUR", { shiftType := "Relative", shiftExpiries := [⟨2, .Years⟩],
                  shiftTerms := [⟨10, .Years⟩],
                  shifts := [((⟨2, .Years⟩, ⟨10, .Years⟩), ⟨1, 1⟩)],
                  parallelShiftSize := ⟨0, 0⟩ })],
     capVolShifts :=
       [("EUR", { shiftType := "Relative", shiftExpiries := [⟨2, .Years⟩, ⟨5, .Years⟩],
                  shifts := [⟨2, 1⟩, ⟨5, 1⟩] })] }]

/-! ## Rewriting the shift types of a document -/

namespace XMLNode

/-- The node with every child replaced by its image under `f`. -/
def mapChildren (f : XMLNode → XMLNode) : XMLNode → XMLNode
  | mk n a v c => mk n a v (c.map f)

/-- The node with its text `v` replaced by `g v`. -/
def mapValue (g : String → String) : XMLNode → XMLNode
  | mk n a v c => mk n a (g v) c

end XMLNode

namespace StressTestScenarioData

/-- The outcome of a computation: that it returns, or the error it throws. -/
def outcome {α : Type} (x : Except String α) : Except String Unit :=
  match x with
  | .ok _ => .ok ()
  | .error e => .error e

/-- A child of an entry, with its text `s` replaced by `g s` when it is called
`ShiftType`. -/
def retagChild (g : String → String) (c : XMLNode) : XMLNode :=
  if c.name == "ShiftType" then c.mapValue g else c

/-- An entry node with the text of its `ShiftType` children rewritten by `g`. -/
def retagEntry (g : String → String) (entry : XMLNode) : XMLNode :=
  entry.mapChildren (retagChild g)

/-- A section node with the shift types of its entries rewritten by `g`. -/
def retagSection (g : String → String) (s : XMLNode) : XMLNode :=
  s.mapChildren (retagEntry g)

/-- A test case with the shift types of the entries of its sections rewritten by
`g`. -/
def retagTestCase (g : String → String) (testCase : XMLNode) : XMLNode :=
  testCase.mapChildren (retagSection g)

/-- A `StressTesting` node with the shift types of the entries of its test cases
rewritten by `g`. -/
def retagTesting (g : String → String) (node : XMLNode) : XMLNode :=
  node.mapChildren (retagTestCase g)

/-- A child of the document root, rewritten when it is a `StressTesting` node. -/
def retagTop (g : String → String) (c : XMLNode) : XMLNode :=
  if c.name == "StressTesting" then retagTesting g c else c

/-- The document with the text `s` of the `ShiftType` child of every entry of every
section of every test case replaced by `g s`, and nothing else changed. -/
def retagDocument (g : String → String) (root : XMLNode) : XMLNode :=
  if root.name == "StressTesting" then retagTesting g root else root.mapChildren (retagTop g)

end StressTestScenarioData

/-- One test with one entry in each of the seven sections, each with the shift
type `ty`. -/
def allSectionsDocument (ty : String) : XMLNode :=
  stressTesting
    [stressTest "All"
      [curveNode "DiscountCurve" "ccy" "USD" ty "1Y,2Y" "0.01,0.02"]
      [curveNode "IndexCurve" "index" "EUR-EURIBOR-6M" ty "1Y" "0.1"]
      [curveNode "YieldCurve" "name" "BENCHMARK" ty "3Y" "0.3"]
      [fxSpotNode "EURUSD" ty "0.02"]
      [fxVolNode "EURUSD" ty "0.2,0.3" "2Y,3Y"]
      [swaptionNode "EUR" ty "10Y" "2Y" [shiftNode [("expiry", "2Y"), ("term", "10Y")] "0.1"]]
      [capNode "EUR" ty "2Y,5Y" "0.2,0.5"]]

/-- The records that `allSectionsDocument ty` loads to. -/
def allSectionsRecords (ty : String) : List (StressTestData Decimal Period) :=
  [{ label := "All",
     discountCurveShifts :=
       [("USD", { shiftType := ty, shiftTenors := [⟨1, .Years⟩, ⟨2, .Years⟩],
                  shifts := [⟨1, 2⟩, ⟨2, 2⟩] })],
     indexCurveShifts :=
       [("EUR-EURIBOR-6M", { shiftType := ty, shiftTenors := [⟨1, .Years⟩], shifts := [⟨1, 1⟩] })],
     yieldCurveShifts :=
       [("BENCHMARK", { shiftType := ty, shiftTenors := [⟨3, .Years⟩], shifts := [⟨3, 1⟩] })],
     fxShifts := [("EURUSD", { shiftType := ty, shiftSize := ⟨2, 2⟩ })],
     fxVolShifts :=
       [("EURUSD", { shiftType := ty, shiftExpiries := [⟨2, .Years⟩, ⟨3, .Years⟩],
                     shifts := [⟨2, 1⟩, ⟨3, 1⟩] })],
     swaptionVolShifts :=
       [("EUR", { shiftType := ty, shiftExpiries := [⟨2, .Years⟩],
                  shiftTerms := [⟨10, .Years⟩],
                  shifts := [((⟨2, .Years⟩, ⟨10, .Years⟩), ⟨1, 1⟩)],
                  parallelShiftSize := ⟨0, 0⟩ })],
     capVolShifts :=
       [("EUR", { shiftType := ty, shiftExpiries := [⟨2, .Years⟩, ⟨5, .Years⟩],
                  shifts := [⟨2, 1⟩, ⟨5, 1⟩] })] }]

/-! ## Auxiliary lemmas -/

namespace StressTestScenarioData

open XMLUtils

variable {R P : Type}

@[simp]
theorem except_bind_ok {α β : Type} (a : α) (f : α → Except String β) :
    (Except.ok a >>= f) = f a := rfl

@[simp]
theorem except_bind_error {α β : Type} (e : String) (f : α → Except String β) :
    (Except.error e >>= f) = Except.error e := rfl

@[simp]
theorem except_pure_eq {α : Type} (a : α) : (pure a : Except String α) = Except.ok a := rfl

@[simp]
theorem except_throw_eq {α : Type} (e : String) :
    (throw e : Except String α) = Except.error e := rfl

theorem except_bind_eq_ok {α β : Type} (x : Except String α) (f : α → Except String β) (b : β) :
    (x >>= f) = Except.ok b ↔ ∃ a, x = Except.ok a ∧ f a = Except.ok b := by
  cases x <;> simp

theorem requireNode_eq_ok (node : Option XMLNode) (msg : String) (n : XMLNode) :
    requireNode node msg = Except.ok n ↔ node = some n := by
  cases node <;> simp [requireNode]

theorem QL_REQUIRE_eq_ok (c : Bool) (msg : String) (u : Unit) :
    QL_REQUIRE c msg = Except.ok u ↔ c = true := by
  cases c <;> simp [QL_REQUIRE]

/-- The entries of a mapping after an assignment are the new entry or old ones. -/
theorem mem_assign {K V : Type} [DecidableEq K] (m : StdMap K V) (k : K) (v : V) (e : K × V)
    (h : e ∈ m.assign k v) : e = (k, v) ∨ e ∈ m := by
  induction m with
  | nil => simpa [StdMap.assign] using h
  | cons hd tl ih =>
    obtain ⟨k', v'⟩ := hd
    by_cases hk : k' = k
    · simp only [StdMap.assign, hk, if_true, List.mem_cons] at h
      rcases h with h | h
      · exact Or.inl h
      · exact Or.inr (List.mem_cons_of_mem _ h)
    · simp only [StdMap.assign, hk, if_false, List.mem_cons] at h
      rcases h with h | h
      · exact Or.inr (h ▸ List.mem_cons_self _ _)
      · rcases ih h with h' | h'
        · exact Or.inl h'
        · exact Or.inr (List.mem_cons_of_mem _ h')

theorem mem_assignAll {K V : Type} [DecidableEq K] (kds : List (K × V)) (m : StdMap K V)
    (e : K × V) (h : e ∈ assignAll m kds) : e ∈ m ∨ e ∈ kds := by
  induction kds generalizing m with
  | nil => exact Or.inl h
  | cons kd rest ih =>
    rcases ih (m.assign kd.1 kd.2) h with h' | h'
    · rcases mem_assign m kd.1 kd.2 e h' with h'' | h''
      · exact Or.inr (h'' ▸ List.mem_cons_self _ _)
      · exact Or.inl h''
    · exact Or.inr (List.mem_cons_of_mem _ h')

/-- An entry loop returns exactly when every visited entry is read without an
error, and then the mapping is the result of assigning the entries in order. -/
theorem entryLoop_eq_ok {K V : Type} [DecidableEq K] (entry : XMLNode → Except String (K × V))
    (nodes : List XMLNode) (m r : StdMap K V) :
    entryLoop entry nodes m = Except.ok r ↔
      ∃ kds, List.Forall₂ (fun c kd => entry c = Except.ok kd) nodes kds ∧ r = assignAll m kds := by
  induction nodes generalizing m with
  | nil =>
    simp only [entryLoop, except_pure_eq, Except.ok.injEq, List.forall₂_nil_left_iff,
      exists_eq_left, assignAll, List.foldl_nil]
    exact eq_comm
  | cons c rest ih =>
    simp only [entryLoop, except_bind_eq_ok, ih, List.forall₂_cons_left_iff]
    constructor
    · rintro ⟨kd, hkd, kds, hrest, rfl⟩
      exact ⟨kd :: kds, ⟨kd, kds, hkd, hrest, rfl⟩, rfl⟩
    · rintro ⟨_, ⟨kd, kds, hkd, hrest, rfl⟩, rfl⟩
      exact ⟨kd, hkd, kds, hrest, rfl⟩

/-- The node that `locateNode` finds carries the name asked for. -/
theorem locateNode_name (root node : XMLNode) (name : String)
    (h : locateNode root name = Except.ok node) : node.name = name := by
  unfold locateNode at h
  by_cases hn : (root.name == name) = true
  · simp only [hn, if_true, except_pure_eq, Except.ok.injEq] at h
    subst h
    simpa using hn
  · simp only [hn] at h
    cases hc : getChildNode root name with
    | none => simp [hc] at h
    | some c =>
      simp only [hc, except_pure_eq, Bool.false_eq_true, if_false, Except.ok.injEq] at h
      subst h
      have := List.find?_some hc
      simpa using this

/-- Once the section is located, `fromXML` is the test case loop started on an
empty `data_`. -/
theorem fromXML_of_locate [DecidableEq P] (vals : Values R P) (data0 : List (StressTestData R P))
    (root node : XMLNode) (h : locateNode root "StressTesting" = Except.ok node) :
    fromXML vals data0 root = testCaseLoop vals (testCases root) [] := by
  have hn := locateNode_name root node _ h
  simp [fromXML, testCases, h, checkNode, QL_REQUIRE, hn, vectorClear]

/-- A call of `fromXML` that returns has located the section. -/
theorem locate_of_fromXML_ok [DecidableEq P] (vals : Values R P) (data0 data : List (StressTestData R P))
    (root : XMLNode) (h : fromXML vals data0 root = (Except.ok (), data)) :
    ∃ node, locateNode root "StressTesting" = Except.ok node := by
  cases hl : locateNode root "StressTesting" with
  | ok node => exact ⟨node, rfl⟩
  | error e => simp [fromXML, hl] at h

/-- The test case loop returns exactly when every test case loads, and then it
has appended their records in order. -/
theorem testCaseLoop_eq_ok [DecidableEq P] (vals : Values R P) (nodes : List XMLNode)
    (d d' : List (StressTestData R P)) :
    testCaseLoop vals nodes d = (Except.ok (), d') ↔
      ∃ tests, List.Forall₂ (fun tc t => loadTestCase vals tc = Except.ok t) nodes tests ∧
        d' = d ++ tests := by
  induction nodes generalizing d with
  | nil => simp [testCaseLoop, eq_comm]
  | cons tc rest ih =>
    cases hl : loadTestCase vals tc with
    | error e => simp [testCaseLoop, hl, List.forall₂_cons_left_iff]
    | ok t =>
      simp only [testCaseLoop, hl, ih, List.forall₂_cons_left_iff, Except.ok.injEq]
      constructor
      · rintro ⟨tests, hrest, rfl⟩
        exact ⟨t :: tests, ⟨t, tests, rfl, hrest, rfl⟩, by simp⟩
      · rintro ⟨_, ⟨t', tests, rfl, hrest, rfl⟩, rfl⟩
        exact ⟨tests, hrest, by simp⟩

/-- The test case loop stops at the first test case that throws, with the records
of the test cases before it appended. -/
theorem testCaseLoop_error [DecidableEq P] (vals : Values R P) (pre post : List XMLNode) (tc : XMLNode)
    (tests d : List (StressTestData R P)) (e : String)
    (hpre : List.Forall₂ (fun tc t => loadTestCase vals tc = Except.ok t) pre tests)
    (htc : loadTestCase vals tc = Except.error e) :
    testCaseLoop vals (pre ++ tc :: post) d = (Except.error e, d ++ tests) := by
  induction hpre generalizing d with
  | nil => simp [testCaseLoop, htc]
  | cons h _ ih => simp [testCaseLoop, h, ih]

/-- A call of `fromXML` returns exactly when the section is located and every
test case loads; `data_` is then the list of their records. -/
theorem fromXML_eq_ok [DecidableEq P] (vals : Values R P) (data0 data : List (StressTestData R P))
    (root : XMLNode) :
    fromXML vals data0 root = (Except.ok (), data) ↔
      (∃ node, locateNode root "StressTesting" = Except.ok node) ∧
        List.Forall₂ (fun tc t => loadTestCase vals tc = Except.ok t) (testCases root) data := by
  constructor
  · intro h
    obtain ⟨node, hn⟩ := locate_of_fromXML_ok vals data0 data root h
    rw [fromXML_of_locate vals data0 root node hn, testCaseLoop_eq_ok] at h
    obtain ⟨tests, ht, rfl⟩ := h
    exact ⟨⟨node, hn⟩, by simpa using ht⟩
  · rintro ⟨⟨node, hn⟩, ht⟩
    rw [fromXML_of_locate vals data0 root node hn, testCaseLoop_eq_ok]
    exact ⟨data, ht, by simp⟩

theorem loadDiscountCurves_eq_ok (vals : Values R P) (tc : XMLNode) (t t' : StressTestData R P) :
    loadDiscountCurves vals tc t = Except.ok t' ↔
      (getChildNode tc "DiscountCurves").isSome = true ∧
        ∃ m, entryLoop (discountCurveEntry vals) (sectionEntries tc "DiscountCurves" "DiscountCurve") [] = Except.ok m ∧
          t' = { t with discountCurveShifts := m } := by
  cases h : getChildNode tc "DiscountCurves" with
  | none => simp [loadDiscountCurves, sectionEntries, h, requireNode]
  | some s =>
    simp only [loadDiscountCurves, sectionEntries, h, requireNode, except_pure_eq, except_bind_ok,
      except_bind_eq_ok, Except.ok.injEq, Option.isSome_some, true_and]
    constructor
    · rintro ⟨m, hm, rfl⟩
      exact ⟨m, hm, rfl⟩
    · rintro ⟨m, hm, rfl⟩
      exact ⟨m, hm, rfl⟩

theorem loadIndexCurves_eq_ok (vals : Values R P) (tc : XMLNode) (t t' : StressTestData R P) :
    loadIndexCurves vals tc t = Except.ok t' ↔
      (getChildNode tc "IndexCurves").isSome = true ∧
        ∃ m, entryLoop (indexCurveEntry vals) (sectionEntries tc "IndexCurves" "IndexCurve") [] = Except.ok m ∧
          t' = { t with indexCurveShifts := m } := by
  cases h : getChildNode tc "IndexCurves" with
  | none => simp [loadIndexCurves, sectionEntries, h, requireNode]
  | some s =>
    simp only [loadIndexCurves, sectionEntries, h, requireNode, except_pure_eq, except_bind_ok,
      except_bind_eq_ok, Except.ok.injEq, Option.isSome_some, true_and]
    constructor
    · rintro ⟨m, hm, rfl⟩
      exact ⟨m, hm, rfl⟩
    · rintro ⟨m, hm, rfl⟩
      exact ⟨m, hm, rfl⟩

theorem loadYieldCurves_eq_ok (vals : Values R P) (tc : XMLNode) (t t' : StressTestData R P) :
    loadYieldCurves vals tc t = Except.ok t' ↔
      (getChildNode tc "YieldCurves").isSome = true ∧
        ∃ m, entryLoop (yieldCurveEntry vals) (sectionEntries tc "YieldCurves" "YieldCurve") [] = Except.ok m ∧
          t' = { t with yieldCurveShifts := m } := by
  cases h : getChildNode tc "YieldCurves" with
  | none => simp [loadYieldCurves, sectionEntries, h, requireNode]
  | some s =>
    simp only [loadYieldCurves, sectionEntries, h, requireNode, except_pure_eq, except_bind_ok,
      except_bind_eq_ok, Except.ok.injEq, Option.isSome_some, true_and]
    constructor
    · rintro ⟨m, hm, rfl⟩
      exact ⟨m, hm, rfl⟩
    · rintro ⟨m, hm, rfl⟩
      exact ⟨m, hm, rfl⟩

theorem loadFxSpots_eq_ok (vals : Values R P) (tc : XMLNode) (t t' : StressTestData R P) :
    loadFxSpots vals tc t = Except.ok t' ↔
      (getChildNode tc "FxSpots").isSome = true ∧
        ∃ m, entryLoop (fxSpotEntry vals) (sectionEntries tc "FxSpots" "FxSpot") [] = Except.ok m ∧
          t' = { t with fxShifts := m } := by
  cases h : getChildNode tc "FxSpots" with
  | none => simp [loadFxSpots, sectionEntries, h, requireNode]
  | some s =>
    simp only [loadFxSpots, sectionEntries, h, requireNode, except_pure_eq, except_bind_ok,
      except_bind_eq_ok, Except.ok.injEq, Option.isSome_some, true_and]
    constructor
    · rintro ⟨m, hm, rfl⟩
      exact ⟨m, hm, rfl⟩
    · rintro ⟨m, hm, rfl⟩
      exact ⟨m, hm, rfl⟩

theorem loadFxVols_eq_ok (vals : Values R P) (tc : XMLNode) (t t' : StressTestData R P) :
    loadFxVols vals tc t = Except.ok t' ↔
      (getChildNode tc "FxVolatilities").isSome = true ∧
        ∃ m, entryLoop (fxVolEntry vals) (sectionEntries tc "FxVolatilities" "FxVolatility") [] = Except.ok m ∧
          t' = { t with fxVolShifts := m } := by
  cases h : getChildNode tc "FxVolatilities" with
  | none => simp [loadFxVols, sectionEntries, h, requireNode]
  | some s =>
    simp only [loadFxVols, sectionEntries, h, requireNode, except_pure_eq, except_bind_ok,
      except_bind_eq_ok, Except.ok.injEq, Option.isSome_some, true_and]
    constructor
    · rintro ⟨m, hm, rfl⟩
      exact ⟨m, hm, rfl⟩
    · rintro ⟨m, hm, rfl⟩
      exact ⟨m, hm, rfl⟩

theorem loadSwaptionVols_eq_ok [DecidableEq P] (vals : Values R P) (tc : XMLNode) (t t' : StressTestData R P) :
    loadSwaptionVols vals tc t = Except.ok t' ↔
      (getChildNode tc "SwaptionVolatilities").isSome = true ∧
        ∃ m, entryLoop (swaptionVolEntry vals) (sectionEntries tc "SwaptionVolatilities" "SwaptionVolatility") [] = Except.ok m ∧
          t' = { t with swaptionVolShifts := m } := by
  cases h : getChildNode tc "SwaptionVolatilities" with
  | none => simp [loadSwaptionVols, sectionEntries, h, requireNode]
  | some s =>
    simp only [loadSwaptionVols, sectionEntries, h, requireNode, except_pure_eq, except_bind_ok,
      except_bind_eq_ok, Except.ok.injEq, Option.isSome_some, true_and]
    constructor
    · rintro ⟨m, hm, rfl⟩
      exact ⟨m, hm, rfl⟩
    · rintro ⟨m, hm, rfl⟩
      exact ⟨m, hm, rfl⟩

theorem loadCapFloorVols_eq_ok (vals : Values R P) (tc : XMLNode) (t t' : StressTestData R P) :
    loadCapFloorVols vals tc t = Except.ok t' ↔
      (getChildNode tc "CapFloorVolatilities").isSome = true ∧
        ∃ m, entryLoop (capFloorVolEntry vals)
            (sectionEntries tc "CapFloorVolatilities" "CapFloorVolatility") t.capVolShifts =
              Except.ok m ∧
          t' = { t with capVolShifts := m } := by
  cases h : getChildNode tc "CapFloorVolatilities" with
  | none => simp [loadCapFloorVols, sectionEntries, h, requireNode]
  | some s =>
    simp only [loadCapFloorVols, sectionEntries, h, requireNode, except_pure_eq, except_bind_ok,
      except_bind_eq_ok, Except.ok.injEq, Option.isSome_some, true_and]
    constructor
    · rintro ⟨m, hm, rfl⟩
      exact ⟨m, hm, rfl⟩
    · rintro ⟨m, hm, rfl⟩
      exact ⟨m, hm, rfl⟩

/-- A test case loads exactly when its seven section nodes are present and the
seven entry loops return; the record holds the label and the seven mappings the
loops produce, each started from the empty mapping. -/
theorem loadTestCase_eq_ok [DecidableEq P] (vals : Values R P) (tc : XMLNode) (test : StressTestData R P) :
    loadTestCase vals tc = Except.ok test ↔
      ((getChildNode tc "DiscountCurves").isSome = true ∧
        (getChildNode tc "IndexCurves").isSome = true ∧
        (getChildNode tc "YieldCurves").isSome = true ∧
        (getChildNode tc "FxSpots").isSome = true ∧
        (getChildNode tc "FxVolatilities").isSome = true ∧
        (getChildNode tc "SwaptionVolatilities").isSome = true ∧
        (getChildNode tc "CapFloorVolatilities").isSome = true) ∧
      entryLoop (discountCurveEntry vals) (sectionEntries tc "DiscountCurves" "DiscountCurve") [] =
        Except.ok test.discountCurveShifts ∧
      entryLoop (indexCurveEntry vals) (sectionEntries tc "IndexCurves" "IndexCurve") [] =
        Except.ok test.indexCurveShifts ∧
      entryLoop (yieldCurveEntry vals) (sectionEntries tc "YieldCurves" "YieldCurve") [] =
        Except.ok test.yieldCurveShifts ∧
      entryLoop (fxSpotEntry vals) (sectionEntries tc "FxSpots" "FxSpot") [] =
        Except.ok test.fxShifts ∧
      entryLoop (fxVolEntry vals) (sectionEntries tc "FxVolatilities" "FxVolatility") [] =
        Except.ok test.fxVolShifts ∧
      entryLoop (swaptionVolEntry vals)
          (sectionEntries tc "SwaptionVolatilities" "SwaptionVolatility") [] =
        Except.ok test.swaptionVolShifts ∧
      entryLoop (capFloorVolEntry vals)
          (sectionEntries tc "CapFloorVolatilities" "CapFloorVolatility") [] =
        Except.ok test.capVolShifts ∧
      test.label = getAttribute tc "id" := by
  simp only [loadTestCase, except_bind_eq_ok, loadDiscountCurves_eq_ok, loadIndexCurves_eq_ok,
    loadYieldCurves_eq_ok, loadFxSpots_eq_ok, loadFxVols_eq_ok, loadSwaptionVols_eq_ok,
    loadCapFloorVols_eq_ok, except_pure_eq, Except.ok.injEq]
  constructor
  · rintro ⟨t1, ⟨h1, m1, e1, rfl⟩, t2, ⟨h2, m2, e2, rfl⟩, t3, ⟨h3, m3, e3, rfl⟩,
      t4, ⟨h4, m4, e4, rfl⟩, t5, ⟨h5, m5, e5, rfl⟩, t6, ⟨h6, m6, e6, rfl⟩,
      t7, ⟨h7, m7, e7, rfl⟩, rfl⟩
    exact ⟨⟨h1, h2, h3, h4, h5, h6, h7⟩, e1, e2, e3, e4, e5, e6, e7, rfl⟩
  · rintro ⟨⟨h1, h2, h3, h4, h5, h6, h7⟩, e1, e2, e3, e4, e5, e6, e7, hl⟩
    refine ⟨_, ⟨h1, _, e1, rfl⟩, _, ⟨h2, _, e2, rfl⟩, _, ⟨h3, _, e3, rfl⟩, _, ⟨h4, _, e4, rfl⟩,
      _, ⟨h5, _, e5, rfl⟩, _, ⟨h6, _, e6, rfl⟩, _, ⟨h7, _, e7, rfl⟩, ?_⟩
    cases test
    simp only at hl
    simp [hl]

theorem forall₂_exists_left {α β : Type} {r : α → β → Prop} {l₁ : List α} {l₂ : List β}
    (h : List.Forall₂ r l₁ l₂) {b : β} (hb : b ∈ l₂) : ∃ a ∈ l₁, r a b := by
  induction h with
  | nil => cases hb
  | cons hab _ ih =>
    rcases List.mem_cons.1 hb with rfl | hb'
    · exact ⟨_, List.mem_cons_self _ _, hab⟩
    · obtain ⟨a, ha, hr⟩ := ih hb'
      exact ⟨a, List.mem_cons_of_mem _ ha, hr⟩

theorem forall₂_exists_right {α β : Type} {r : α → β → Prop} {l₁ : List α} {l₂ : List β}
    (h : List.Forall₂ r l₁ l₂) {a : α} (ha : a ∈ l₁) : ∃ b ∈ l₂, r a b := by
  induction h with
  | nil => cases ha
  | cons hab _ ih =>
    rcases List.mem_cons.1 ha with rfl | ha'
    · exact ⟨_, List.mem_cons_self _ _, hab⟩
    · obtain ⟨b, hb, hr⟩ := ih ha'
      exact ⟨b, List.mem_cons_of_mem _ hb, hr⟩

/-- Every entry of a mapping filled by an entry loop from the empty mapping was
read from a visited node. -/
theorem entryLoop_mem {K V : Type} [DecidableEq K] (entry : XMLNode → Except String (K × V))
    (nodes : List XMLNode) (m : StdMap K V) (h : entryLoop entry nodes [] = Except.ok m)
    (e : K × V) (he : e ∈ m) : ∃ c ∈ nodes, entry c = Except.ok e := by
  obtain ⟨kds, hall, rfl⟩ := (entryLoop_eq_ok entry nodes [] m).1 h
  rcases mem_assignAll kds [] e he with h' | h'
  · cases h'
  · exact forall₂_exists_left hall h'

/-- An entry loop that returns has read every visited node without an error. -/
theorem entryLoop_all {K V : Type} [DecidableEq K] (entry : XMLNode → Except String (K × V))
    (nodes : List XMLNode) (m0 m : StdMap K V) (h : entryLoop entry nodes m0 = Except.ok m)
    (c : XMLNode) (hc : c ∈ nodes) : ∃ kd, entry c = Except.ok kd := by
  obtain ⟨kds, hall, _⟩ := (entryLoop_eq_ok entry nodes m0 m).1 h
  obtain ⟨kd, _, hkd⟩ := forall₂_exists_right hall hc
  exact ⟨kd, hkd⟩

theorem discountCurveEntry_eq_ok (vals : Values R P) (child : XMLNode) (kd : String × CurveShiftData R P) :
    discountCurveEntry vals child = Except.ok kd ↔
      getChildValue child "ShiftType" true = Except.ok kd.2.shiftType ∧
        reproduces vals "ccy" child kd ∧
        kd.2.shifts.length = kd.2.shiftTenors.length ∧ 0 < kd.2.shifts.length := by
  obtain ⟨k, ⟨ty, tenors, shifts⟩⟩ := kd
  simp only [discountCurveEntry, reproduces, except_bind_eq_ok, QL_REQUIRE_eq_ok, except_pure_eq,
    Except.ok.injEq, Prod.mk.injEq, CurveShiftData.mk.injEq, beq_iff_eq, decide_eq_true_eq]
  constructor
  · rintro ⟨ty', hty, sh, hsh, te, hte, _, hlen, _, hpos, hk, rfl, rfl, rfl⟩
    exact ⟨hty, ⟨hk, hsh, hte⟩, hlen, hpos⟩
  · rintro ⟨hty, ⟨hk, hsh, hte⟩, hlen, hpos⟩
    exact ⟨ty, hty, shifts, hsh, tenors, hte, (), hlen, (), hpos, hk, rfl, rfl, rfl⟩

theorem indexCurveEntry_eq_ok (vals : Values R P) (child : XMLNode) (kd : String × CurveShiftData R P) :
    indexCurveEntry vals child = Except.ok kd ↔
      getChildValue child "ShiftType" true = Except.ok kd.2.shiftType ∧
        reproduces vals "index" child kd ∧
        kd.2.shifts.length = kd.2.shiftTenors.length ∧ 0 < kd.2.shifts.length := by
  obtain ⟨k, ⟨ty, tenors, shifts⟩⟩ := kd
  simp only [indexCurveEntry, reproduces, except_bind_eq_ok, QL_REQUIRE_eq_ok, except_pure_eq,
    Except.ok.injEq, Prod.mk.injEq, CurveShiftData.mk.injEq, beq_iff_eq, decide_eq_true_eq]
  constructor
  · rintro ⟨ty', hty, sh, hsh, te, hte, _, hlen, _, hpos, hk, rfl, rfl, rfl⟩
    exact ⟨hty, ⟨hk, hsh, hte⟩, hlen, hpos⟩
  · rintro ⟨hty, ⟨hk, hsh, hte⟩, hlen, hpos⟩
    exact ⟨ty, hty, shifts, hsh, tenors, hte, (), hlen, (), hpos, hk, rfl, rfl, rfl⟩

theorem yieldCurveEntry_eq_ok (vals : Values R P) (child : XMLNode) (kd : String × CurveShiftData R P) :
    yieldCurveEntry vals child = Except.ok kd ↔
      getChildValue child "ShiftType" true = Except.ok kd.2.shiftType ∧
        reproduces vals "name" child kd ∧
        kd.2.shifts.length = kd.2.shiftTenors.length ∧ 0 < kd.2.shifts.length := by
  obtain ⟨k, ⟨ty, tenors, shifts⟩⟩ := kd
  simp only [yieldCurveEntry, reproduces, except_bind_eq_ok, QL_REQUIRE_eq_ok, except_pure_eq,
    Except.ok.injEq, Prod.mk.injEq, CurveShiftData.mk.injEq, beq_iff_eq, decide_eq_true_eq]
  constructor
  · rintro ⟨ty', hty, sh, hsh, te, hte, _, hlen, _, hpos, hk, rfl, rfl, rfl⟩
    exact ⟨hty, ⟨hk, hsh, hte⟩, hlen, hpos⟩
  · rintro ⟨hty, ⟨hk, hsh, hte⟩, hlen, hpos⟩
    exact ⟨ty, hty, shifts, hsh, tenors, hte, (), hlen, (), hpos, hk, rfl, rfl, rfl⟩

/-- What a loaded test case says about its stored curve entries: each one was
read from an entry node of its section, with the length checks passed. -/
theorem curve_entries_of_load [DecidableEq P] (vals : Values R P) (tc : XMLNode)
    (test : StressTestData R P) (h : loadTestCase vals tc = Except.ok test) :
    (∀ e ∈ test.discountCurveShifts,
        ∃ c ∈ sectionEntries tc "DiscountCurves" "DiscountCurve",
          discountCurveEntry vals c = Except.ok e) ∧
      (∀ e ∈ test.indexCurveShifts,
        ∃ c ∈ sectionEntries tc "IndexCurves" "IndexCurve",
          indexCurveEntry vals c = Except.ok e) ∧
      (∀ e ∈ test.yieldCurveShifts,
        ∃ c ∈ sectionEntries tc "YieldCurves" "YieldCurve",
          yieldCurveEntry vals c = Except.ok e) := by
  obtain ⟨_, h1, h2, h3, _⟩ := (loadTestCase_eq_ok vals tc test).1 h
  exact ⟨entryLoop_mem _ _ _ h1, entryLoop_mem _ _ _ h2, entryLoop_mem _ _ _ h3⟩

/-! ## The claims -/

/-- C1. When `fromXML` returns, every entry stored in `discountCurveShifts`,
`indexCurveShifts` and `yieldCurveShifts` of every record has as many shifts as
tenors and at least one shift; and every `DiscountCurve`, `IndexCurve` and
`YieldCurve` entry node of the document has `Shifts` and `ShiftTenors` lists that
parse to sequences of equal, non-zero length (so an entry whose lists differ in
length, or whose `Shifts` list is empty, makes the load fail). -/
theorem fromXML_curve_shifts_aligned [DecidableEq P] (vals : Values R P)
    (data0 data : List (StressTestData R P)) (root : XMLNode)
    (h : fromXML vals data0 root = (Except.ok (), data)) :
    (∀ test ∈ data, ∀ e ∈ curveShifts test,
        e.2.shifts.length = e.2.shiftTenors.length ∧ 0 < e.2.shifts.length) ∧
      (∀ tc ∈ testCases root, ∀ child ∈ curveEntryNodes tc,
        ∃ shifts tenors,
          getChildrenValuesAsDoublesCompact vals child "Shifts" true = Except.ok shifts ∧
            getChildrenValuesAsPeriods vals child "ShiftTenors" true = Except.ok tenors ∧
            shifts.length = tenors.length ∧ 0 < shifts.length) := by
  obtain ⟨_, hall⟩ := (fromXML_eq_ok vals data0 data root).1 h
  constructor
  · intro test htest e he
    obtain ⟨tc, _, hload⟩ := forall₂_exists_left hall htest
    obtain ⟨hd, hi, hy⟩ := curve_entries_of_load vals tc test hload
    simp only [curveShifts, List.mem_append] at he
    rcases he with (he | he) | he
    · obtain ⟨c, _, hc⟩ := hd e he
      exact ((discountCurveEntry_eq_ok vals c e).1 hc).2.2
    · obtain ⟨c, _, hc⟩ := hi e he
      exact ((indexCurveEntry_eq_ok vals c e).1 hc).2.2
    · obtain ⟨c, _, hc⟩ := hy e he
      exact ((yieldCurveEntry_eq_ok vals c e).1 hc).2.2
  · intro tc htc child hchild
    obtain ⟨test, _, hload⟩ := forall₂_exists_right hall htc
    obtain ⟨_, h1, h2, h3, _⟩ := (loadTestCase_eq_ok vals tc test).1 hload
    simp only [curveEntryNodes, List.mem_append] at hchild
    rcases hchild with (hc | hc) | hc
    · obtain ⟨kd, hkd⟩ := entryLoop_all _ _ _ _ h1 child hc
      obtain ⟨_, ⟨_, hs, ht⟩, hlen, hpos⟩ := (discountCurveEntry_eq_ok vals child kd).1 hkd
      exact ⟨_, _, hs, ht, hlen, hpos⟩
    · obtain ⟨kd, hkd⟩ := entryLoop_all _ _ _ _ h2 child hc
      obtain ⟨_, ⟨_, hs, ht⟩, hlen, hpos⟩ := (indexCurveEntry_eq_ok vals child kd).1 hkd
      exact ⟨_, _, hs, ht, hlen, hpos⟩
    · obtain ⟨kd, hkd⟩ := entryLoop_all _ _ _ _ h3 child hc
      obtain ⟨_, ⟨_, hs, ht⟩, hlen, hpos⟩ := (yieldCurveEntry_eq_ok vals child kd).1 hkd
      exact ⟨_, _, hs, ht, hlen, hpos⟩

/-- C1, witness: the document with a discount, an index and a yield curve loads,
and the theorem applies to it. -/
theorem fromXML_curve_shifts_aligned_witness :
    fromXML exampleValues [] curvesDocument = (Except.ok (), curvesRecords) ∧
      ((∀ test ∈ curvesRecords, ∀ e ∈ curveShifts test,
          e.2.shifts.length = e.2.shiftTenors.length ∧ 0 < e.2.shifts.length) ∧
        (∀ tc ∈ testCases curvesDocument, ∀ child ∈ curveEntryNodes tc,
          ∃ shifts tenors,
            getChildrenValuesAsDoublesCompact exampleValues child "Shifts" true =
                Except.ok shifts ∧
              getChildrenValuesAsPeriods exampleValues child "ShiftTenors" true =
                Except.ok tenors ∧
              shifts.length = tenors.length ∧ 0 < shifts.length)) :=
  ⟨by decide, fromXML_curve_shifts_aligned exampleValues [] curvesRecords curvesDocument
    (by decide)⟩

/-- C2. When `fromXML` returns, record by record and test case by test case, every
stored discount, index and yield curve entry reproduces an entry node of the
corresponding section: the key is the node's identifier and the stored `shifts`
and `shiftTenors` are the parsed `Shifts` and `ShiftTenors` lists of that node,
as whole sequences (hence position by position, in the same order). -/
theorem fromXML_curve_shifts_reproduce_source [DecidableEq P] (vals : Values R P)
    (data0 data : List (StressTestData R P)) (root : XMLNode)
    (h : fromXML vals data0 root = (Except.ok (), data)) :
    List.Forall₂
      (fun tc test =>
        (∀ e ∈ test.discountCurveShifts,
            ∃ child ∈ sectionEntries tc "DiscountCurves" "DiscountCurve",
              reproduces vals "ccy" child e) ∧
          (∀ e ∈ test.indexCurveShifts,
            ∃ child ∈ sectionEntries tc "IndexCurves" "IndexCurve",
              reproduces vals "index" child e) ∧
          (∀ e ∈ test.yieldCurveShifts,
            ∃ child ∈ sectionEntries tc "YieldCurves" "YieldCurve",
              reproduces vals "name" child e))
      (testCases root) data := by
  obtain ⟨_, hall⟩ := (fromXML_eq_ok vals data0 data root).1 h
  refine hall.imp ?_
  intro tc test hload
  obtain ⟨hd, hi, hy⟩ := curve_entries_of_load vals tc test hload
  refine ⟨fun e he => ?_, fun e he => ?_, fun e he => ?_⟩
  · obtain ⟨c, hc, hce⟩ := hd e he
    exact ⟨c, hc, ((discountCurveEntry_eq_ok vals c e).1 hce).2.1⟩
  · obtain ⟨c, hc, hce⟩ := hi e he
    exact ⟨c, hc, ((indexCurveEntry_eq_ok vals c e).1 hce).2.1⟩
  · obtain ⟨c, hc, hce⟩ := hy e he
    exact ⟨c, hc, ((yieldCurveEntry_eq_ok vals c e).1 hce).2.1⟩

/-- C2, witness: the test with `DiscountCurve ccy="USD"`, shift type `Absolute`,
tenors `1Y,2Y` and shifts `0.01,0.02` loads, `discountCurveShifts["USD"].shifts`
is `[0.01, 0.02]`, with tenors `[1Y, 2Y]`, and the theorem applies to it. -/
theorem fromXML_curve_shifts_reproduce_source_witness :
    fromXML exampleValues [] usdDocument = (Except.ok (), usdRecords) ∧
      usdRecords.map (fun test => (test.discountCurveShifts.find "USD").map (fun d => d.shifts)) =
        [some [⟨1, 2⟩, ⟨2, 2⟩]] ∧
      usdRecords.map
          (fun test => (test.discountCurveShifts.find "USD").map (fun d => d.shiftTenors)) =
        [some [⟨1, .Years⟩, ⟨2, .Years⟩]] ∧
      List.Forall₂
        (fun tc test =>
          (∀ e ∈ test.discountCurveShifts,
              ∃ child ∈ sectionEntries tc "DiscountCurves" "DiscountCurve",
                reproduces exampleValues "ccy" child e) ∧
            (∀ e ∈ test.indexCurveShifts,
              ∃ child ∈ sectionEntries tc "IndexCurves" "IndexCurve",
                reproduces exampleValues "index" child e) ∧
            (∀ e ∈ test.yieldCurveShifts,
              ∃ child ∈ sectionEntries tc "YieldCurves" "YieldCurve",
                reproduces exampleValues "name" child e))
        (testCases usdDocument) usdRecords :=
  ⟨by decide, by decide, by decide,
    fromXML_curve_shifts_reproduce_source exampleValues [] usdRecords usdDocument (by decide)⟩

theorem forall₂_of_forall_exists {α β : Type} {r : α → β → Prop} {l : List α}
    (h : ∀ a ∈ l, ∃ b, r a b) : ∃ l', List.Forall₂ r l l' := by
  induction l with
  | nil => exact ⟨[], List.Forall₂.nil⟩
  | cons a rest ih =>
    obtain ⟨b, hb⟩ := h a (List.mem_cons_self _ _)
    obtain ⟨l', hl'⟩ := ih (fun a' ha' => h a' (List.mem_cons_of_mem _ ha'))
    exact ⟨b :: l', List.Forall₂.cons hb hl'⟩

/-- A test case whose first `k` sections load and whose next section node is
absent throws the message of that section. -/
theorem loadTestCase_missing [DecidableEq P] (vals : Values R P) (tc : XMLNode) :
    ((∃ t, loadSections vals tc 0 = Except.ok t) → getChildNode tc "DiscountCurves" = none →
        loadTestCase vals tc = Except.error "DiscountCurves node not found") ∧
    ((∃ t, loadSections vals tc 1 = Except.ok t) → getChildNode tc "IndexCurves" = none →
        loadTestCase vals tc = Except.error "IndexCurves node not found") ∧
    ((∃ t, loadSections vals tc 2 = Except.ok t) → getChildNode tc "YieldCurves" = none →
        loadTestCase vals tc = Except.error "YieldCurves node not found") ∧
    ((∃ t, loadSections vals tc 3 = Except.ok t) → getChildNode tc "FxSpots" = none →
        loadTestCase vals tc = Except.error "FxSpots node not found") ∧
    ((∃ t, loadSections vals tc 4 = Except.ok t) → getChildNode tc "FxVolatilities" = none →
        loadTestCase vals tc = Except.error "FxVols node not found") ∧
    ((∃ t, loadSections vals tc 5 = Except.ok t) → getChildNode tc "SwaptionVolatilities" = none →
        loadTestCase vals tc = Except.error "SwaptionVols node not found") ∧
    ((∃ t, loadSections vals tc 6 = Except.ok t) → getChildNode tc "CapFloorVolatilities" = none →
        loadTestCase vals tc = Except.error "CapVols node not found") := by
  refine ⟨?_, ?_, ?_, ?_, ?_, ?_, ?_⟩ <;> rintro ⟨t, ht⟩ hnone <;>
    simp only [loadSections, List.take, List.foldlM, except_bind_eq_ok, except_pure_eq,
      Except.ok.injEq] at ht
  · simp [loadTestCase, loadDiscountCurves, hnone, requireNode]
  · obtain ⟨t1, h1, rfl⟩ := ht
    simp [loadTestCase, h1, loadIndexCurves, hnone, requireNode]
  · obtain ⟨t1, h1, t2, h2, rfl⟩ := ht
    simp [loadTestCase, h1, h2, loadYieldCurves, hnone, requireNode]
  · obtain ⟨t1, h1, t2, h2, t3, h3, rfl⟩ := ht
    simp [loadTestCase, h1, h2, h3, loadFxSpots, hnone, requireNode]
  · obtain ⟨t1, h1, t2, h2, t3, h3, t4, h4, rfl⟩ := ht
    simp [loadTestCase, h1, h2, h3, h4, loadFxVols, hnone, requireNode]
  · obtain ⟨t1, h1, t2, h2, t3, h3, t4, h4, t5, h5, rfl⟩ := ht
    simp [loadTestCase, h1, h2, h3, h4, h5, loadSwaptionVols, hnone, requireNode]
  · obtain ⟨t1, h1, t2, h2, t3, h3, t4, h4, t5, h5, t6, h6, rfl⟩ := ht
    simp [loadTestCase, h1, h2, h3, h4, h5, h6, loadCapFloorVols, hnone, requireNode]

/-- C3. Let a test case of the document lack one of the seven section nodes while
the test cases before it load and the sections before the missing one (in the
order discount, index and yield curves, FX spots, FX volatilities, swaption
volatilities, cap/floor volatilities) load.  Then `fromXML` throws the message of
the missing section.  The seven messages are pairwise different, and the message
for `IndexCurves` contains the text "IndexCurves". -/
theorem fromXML_missing_section [DecidableEq P] (vals : Values R P)
    (data0 : List (StressTestData R P)) (root tc : XMLNode) (pre post : List XMLNode)
    (hcases : testCases root = pre ++ tc :: post)
    (hpre : ∀ t ∈ pre, ∃ r, loadTestCase vals t = Except.ok r) :
    ((∃ t, loadSections vals tc 0 = Except.ok t) → getChildNode tc "DiscountCurves" = none →
        (fromXML vals data0 root).1 = Except.error "DiscountCurves node not found") ∧
    ((∃ t, loadSections vals tc 1 = Except.ok t) → getChildNode tc "IndexCurves" = none →
        (fromXML vals data0 root).1 = Except.error "IndexCurves node not found") ∧
    ((∃ t, loadSections vals tc 2 = Except.ok t) → getChildNode tc "YieldCurves" = none →
        (fromXML vals data0 root).1 = Except.error "YieldCurves node not found") ∧
    ((∃ t, loadSections vals tc 3 = Except.ok t) → getChildNode tc "FxSpots" = none →
        (fromXML vals data0 root).1 = Except.error "FxSpots node not found") ∧
    ((∃ t, loadSections vals tc 4 = Except.ok t) → getChildNode tc "FxVolatilities" = none →
        (fromXML vals data0 root).1 = Except.error "FxVols node not found") ∧
    ((∃ t, loadSections vals tc 5 = Except.ok t) → getChildNode tc "SwaptionVolatilities" = none →
        (fromXML vals data0 root).1 = Except.error "SwaptionVols node not found") ∧
    ((∃ t, loadSections vals tc 6 = Except.ok t) → getChildNode tc "CapFloorVolatilities" = none →
        (fromXML vals data0 root).1 = Except.error "CapVols node not found") ∧
    ["DiscountCurves node not found", "IndexCurves node not found",
      "YieldCurves node not found", "FxSpots node not found", "FxVols node not found",
      "SwaptionVols node not found", "CapVols node not found"].Nodup ∧
    "IndexCurves".toList <:+: "IndexCurves node not found".toList := by
  have hloc : ∃ node, locateNode root "StressTesting" = Except.ok node := by
    cases hl : locateNode root "StressTesting" with
    | ok node => exact ⟨node, rfl⟩
    | error e => simp [testCases, hl] at hcases
  obtain ⟨node, hn⟩ := hloc
  obtain ⟨tests, htests⟩ := forall₂_of_forall_exists hpre
  have key : ∀ e, loadTestCase vals tc = Except.error e →
      (fromXML vals data0 root).1 = Except.error e := by
    intro e he
    rw [fromXML_of_locate vals data0 root node hn, hcases,
      testCaseLoop_error vals pre post tc tests [] e htests he]
  obtain ⟨m0, m1, m2, m3, m4, m5, m6⟩ := loadTestCase_missing vals tc
  exact ⟨fun a b => key _ (m0 a b), fun a b => key _ (m1 a b), fun a b => key _ (m2 a b),
    fun a b => key _ (m3 a b), fun a b => key _ (m4 a b), fun a b => key _ (m5 a b),
    fun a b => key _ (m6 a b), by decide, ⟨[], " node not found".toList, rfl⟩⟩

/-- C3, witness: a valid test case followed by one without the `IndexCurves` node;
the load throws "IndexCurves node not found". -/
theorem fromXML_missing_section_witness :
    testCases missingIndexDocument = [emptyTest "Scenario1"] ++ missingIndexTest :: [] ∧
      (∀ t ∈ [emptyTest "Scenario1"], ∃ r, loadTestCase exampleValues t = Except.ok r) ∧
      (∃ t, loadSections exampleValues missingIndexTest 1 = Except.ok t) ∧
      getChildNode missingIndexTest "IndexCurves" = none ∧
      (fromXML exampleValues [] missingIndexDocument).1 =
        Except.error "IndexCurves node not found" :=
  have hpre : ∀ t ∈ [emptyTest "Scenario1"], ∃ r, loadTestCase exampleValues t = Except.ok r :=
    fun t ht => by
      rw [List.mem_singleton.1 ht]
      exact ⟨{ label := "Scenario1" }, by decide⟩
  have hsec : ∃ t, loadSections exampleValues missingIndexTest 1 = Except.ok t :=
    ⟨{ label := "Scenario2" }, by decide⟩
  ⟨rfl, hpre, hsec, rfl,
    (fromXML_missing_section exampleValues [] missingIndexDocument missingIndexTest
      [emptyTest "Scenario1"] [] rfl hpre).2.1 hsec rfl⟩

theorem siblingsFrom_eq_nil (s : XMLNode) (name : String)
    (h : ∀ c ∈ s.children, c.name ≠ name) : siblingsFrom s name = [] := by
  unfold siblingsFrom
  rw [List.dropWhile_eq_nil_iff]
  intro c hc
  simpa using h c hc

theorem siblingsFrom_eq_children (s : XMLNode) (name : String)
    (h : ∀ c ∈ s.children, c.name = name) : siblingsFrom s name = s.children := by
  unfold siblingsFrom
  cases hch : s.children with
  | nil => rfl
  | cons c rest =>
    have hc : c.name = name := h c (by simp [hch])
    simp [List.dropWhile, hc]

theorem sectionEntries_of_emptySection (tc : XMLNode) (p : String × String)
    (h : emptySection tc p) :
    (getChildNode tc p.1).isSome = true ∧ sectionEntries tc p.1 p.2 = [] := by
  obtain ⟨s, hs, hc⟩ := h
  simp [sectionEntries, hs, siblingsFrom_eq_nil s p.2 hc]

/-- A test case whose seven sections are present and hold no entry loads to the
record with its label and seven empty mappings. -/
theorem loadTestCase_of_empty [DecidableEq P] (vals : Values R P) (tc : XMLNode)
    (h : ∀ p ∈ sections, emptySection tc p) :
    loadTestCase vals tc = Except.ok (emptyRecord R P tc) := by
  have h1 := sectionEntries_of_emptySection tc _ (h ("DiscountCurves", "DiscountCurve")
    (by simp [sections]))
  have h2 := sectionEntries_of_emptySection tc _ (h ("IndexCurves", "IndexCurve")
    (by simp [sections]))
  have h3 := sectionEntries_of_emptySection tc _ (h ("YieldCurves", "YieldCurve")
    (by simp [sections]))
  have h4 := sectionEntries_of_emptySection tc _ (h ("FxSpots", "FxSpot")
    (by simp [sections]))
  have h5 := sectionEntries_of_emptySection tc _ (h ("FxVolatilities", "FxVolatility")
    (by simp [sections]))
  have h6 := sectionEntries_of_emptySection tc _
    (h ("SwaptionVolatilities", "SwaptionVolatility") (by simp [sections]))
  have h7 := sectionEntries_of_emptySection tc _
    (h ("CapFloorVolatilities", "CapFloorVolatility") (by simp [sections]))
  simp only at h1 h2 h3 h4 h5 h6 h7
  rw [loadTestCase_eq_ok]
  simp [h1, h2, h3, h4, h5, h6, h7, entryLoop, emptyRecord]

/-- C4. For a document with a `StressTesting` section in which every test case has
the seven section nodes, none of them holding an entry, `fromXML` returns, and
`data_` holds one record per test case, in order, each with the label of its test
case and seven empty mappings. -/
theorem fromXML_empty_sections [DecidableEq P] (vals : Values R P)
    (data0 : List (StressTestData R P)) (root node : XMLNode)
    (hloc : locateNode root "StressTesting" = Except.ok node)
    (hempty : ∀ tc ∈ testCases root, ∀ p ∈ sections, emptySection tc p) :
    fromXML vals data0 root = (Except.ok (), (testCases root).map (emptyRecord R P)) := by
  rw [fromXML_eq_ok]
  refine ⟨⟨node, hloc⟩, ?_⟩
  rw [List.forall₂_map_right_iff, List.forall₂_same]
  intro tc htc
  exact loadTestCase_of_empty vals tc (hempty tc htc)

/-- C4, witness: two test cases with seven empty sections each load to two records
with empty mappings. -/
theorem fromXML_empty_sections_witness :
    locateNode twoScenarios "StressTesting" = Except.ok twoScenarios ∧
      (∀ tc ∈ testCases twoScenarios, ∀ p ∈ sections, emptySection tc p) ∧
      fromXML exampleValues [] twoScenarios =
        (Except.ok (), (testCases twoScenarios).map (emptyRecord Decimal Period)) ∧
      (testCases twoScenarios).map (emptyRecord Decimal Period) =
        [{ label := "Scenario1" }, { label := "Scenario2" }] :=
  have hempty : ∀ tc ∈ testCases twoScenarios, ∀ p ∈ sections, emptySection tc p := by
    intro tc htc p hp
    have htc' : tc = emptyTest "Scenario1" ∨ tc = emptyTest "Scenario2" := by
      simpa [testCases, twoScenarios, stressTesting, element, siblingsFrom, locateNode,
        XMLNode.name, XMLNode.children, List.dropWhile, emptyTest, stressTest] using htc
    simp only [sections, List.mem_cons, List.mem_singleton, List.not_mem_nil, or_false] at hp
    rcases htc' with rfl | rfl <;> rcases hp with rfl | rfl | rfl | rfl | rfl | rfl | rfl <;>
      exact ⟨element _ [] [], rfl, by simp [element, XMLNode.children]⟩
  ⟨rfl, hempty, fromXML_empty_sections exampleValues [] twoScenarios twoScenarios rfl hempty,
    rfl⟩

theorem loadTestCase_label [DecidableEq P] (vals : Values R P) (tc : XMLNode)
    (test : StressTestData R P) (h : loadTestCase vals tc = Except.ok test) :
    test.label = getAttribute tc "id" :=
  ((loadTestCase_eq_ok vals tc test).1 h).2.2.2.2.2.2.2.2

theorem labels_of_forall₂ [DecidableEq P] (vals : Values R P) (nodes : List XMLNode)
    (data : List (StressTestData R P))
    (h : List.Forall₂ (fun tc t => loadTestCase vals tc = Except.ok t) nodes data) :
    data.map (fun test => test.label) = nodes.map (fun tc => getAttribute tc "id") := by
  induction h with
  | nil => rfl
  | cons hab _ ih => simp [loadTestCase_label vals _ _ hab, ih]

/-- C8. When `fromXML` returns, `data_` has exactly one record per test case and
the labels of the records are the `id` attributes of the test cases, in document
order; nothing is removed or rejected for carrying a label that occurs before.
The test cases are the nodes that the test case loop visits; when all children of
the `StressTesting` node are `StressTest` elements these are all its children. -/
theorem fromXML_one_record_per_test_case [DecidableEq P] (vals : Values R P)
    (data0 data : List (StressTestData R P)) (root : XMLNode)
    (h : fromXML vals data0 root = (Except.ok (), data)) :
    data.length = (testCases root).length ∧
      data.map (fun test => test.label) =
        (testCases root).map (fun tc => getAttribute tc "id") ∧
      ∀ node, locateNode root "StressTesting" = Except.ok node →
        (∀ c ∈ node.children, c.name = "StressTest") →
          data.map (fun test => test.label) =
            node.children.map (fun tc => getAttribute tc "id") := by
  obtain ⟨_, hall⟩ := (fromXML_eq_ok vals data0 data root).1 h
  have hlab := labels_of_forall₂ vals _ _ hall
  refine ⟨hall.length_eq.symm, hlab, ?_⟩
  intro node hnode hch
  rw [hlab]
  simp [testCases, hnode, siblingsFrom_eq_children node "StressTest" hch]

/-- C8, witness: two entries labelled "Scenario1" and "Scenario2" give a sequence
of length 2 with the labels in that order; two entries with the same label are
both kept. -/
theorem fromXML_one_record_per_test_case_witness :
    fromXML exampleValues [] twoScenarios =
        (Except.ok (), [{ label := "Scenario1" }, { label := "Scenario2" }]) ∧
      (fromXML exampleValues [] twoScenarios).2.length = 2 ∧
      (fromXML exampleValues [] twoScenarios).2.map (fun test => test.label) =
        ["Scenario1", "Scenario2"] ∧
      (fromXML exampleValues [] sameLabelTwice).2.map (fun test => test.label) =
        ["Scenario1", "Scenario1"] ∧
      [({ label := "Scenario1" } : StressTestData Decimal Period),
          { label := "Scenario2" }].length = (testCases twoScenarios).length :=
  ⟨by decide, by decide, by decide, by decide,
    (fromXML_one_record_per_test_case exampleValues [] _ twoScenarios (by decide)).1⟩

/-- C9. When `fromXML` returns on a loader that holds `data0`, the new `data_` is
what the same document loads to on a fresh loader (and on a loader with any other
contents): it is the list of the records of the test cases of the new document,
and holds nothing else. -/
theorem fromXML_replaces_contents [DecidableEq P] (vals : Values R P)
    (data0 data : List (StressTestData R P)) (root : XMLNode)
    (h : fromXML vals data0 root = (Except.ok (), data)) :
    fromXML vals [] root = (Except.ok (), data) ∧
      (∀ data1, fromXML vals data1 root = (Except.ok (), data)) ∧
      List.Forall₂ (fun tc t => loadTestCase vals tc = Except.ok t) (testCases root) data := by
  obtain ⟨hloc, hall⟩ := (fromXML_eq_ok vals data0 data root).1 h
  exact ⟨(fromXML_eq_ok vals [] data root).2 ⟨hloc, hall⟩,
    fun data1 => (fromXML_eq_ok vals data1 data root).2 ⟨hloc, hall⟩, hall⟩

/-- C9, witness: a loader that holds the USD records and loads the document with
the two empty scenarios ends with the two records of that document only. -/
theorem fromXML_replaces_contents_witness :
    fromXML exampleValues usdRecords twoScenarios =
        (Except.ok (), [{ label := "Scenario1" }, { label := "Scenario2" }]) ∧
      fromXML exampleValues [] twoScenarios =
        (Except.ok (), [{ label := "Scenario1" }, { label := "Scenario2" }]) :=
  ⟨by decide,
    (fromXML_replaces_contents exampleValues usdRecords _ twoScenarios (by decide)).1⟩

/-- C10, counterexample: the valid test case "Scenario1" followed by "Scenario2",
whose discount curve has one shift for two tenors.  `fromXML` throws, and after the
failure `data_` holds the record of "Scenario1". -/
theorem fromXML_keeps_earlier_records_counterexample :
    fromXML exampleValues [] validThenInvalid =
        (Except.error "number of tenors and shifts does not match in discount curve stress data",
          usdRecords) ∧
      usdRecords.map (fun test => test.label) = ["Scenario1"] ∧
      ¬ (fromXML exampleValues [] validThenInvalid).2 = [] := by
  decide

/-- C10, amended. When the test cases before some test case load and that test
case throws, `fromXML` throws the same error; the earlier contents of the loader
are gone, and `data_` holds exactly the records of the test cases before the
failing one, in document order. -/
theorem fromXML_fails_at_first_invalid [DecidableEq P] (vals : Values R P)
    (data0 tests : List (StressTestData R P)) (root tc : XMLNode) (pre post : List XMLNode)
    (e : String) (hcases : testCases root = pre ++ tc :: post)
    (hpre : List.Forall₂ (fun t r => loadTestCase vals t = Except.ok r) pre tests)
    (htc : loadTestCase vals tc = Except.error e) :
    fromXML vals data0 root = (Except.error e, tests) := by
  have hloc : ∃ node, locateNode root "StressTesting" = Except.ok node := by
    cases hl : locateNode root "StressTesting" with
    | ok node => exact ⟨node, rfl⟩
    | error e => simp [testCases, hl] at hcases
  obtain ⟨node, hn⟩ := hloc
  rw [fromXML_of_locate vals data0 root node hn, hcases,
    testCaseLoop_error vals pre post tc tests [] e hpre htc]
  simp

/-- C10 amended, witness: a loader holding two records loads the document with the
valid "Scenario1" and the invalid "Scenario2"; the call throws and `data_` is the
record of "Scenario1". -/
theorem fromXML_fails_at_first_invalid_witness :
    fromXML exampleValues [{ label := "Old1" }, { label := "Old2" }] validThenInvalid =
      (Except.error "number of tenors and shifts does not match in discount curve stress data",
        usdRecords) :=
  fromXML_fails_at_first_invalid exampleValues _ usdRecords validThenInvalid mismatchTest
    [stressTest "Scenario1"
      [curveNode "DiscountCurve" "ccy" "USD" "Absolute" "1Y,2Y" "0.01,0.02"] [] [] [] [] [] []]
    [] _ rfl (List.Forall₂.cons (by decide) List.Forall₂.nil) (by decide)


theorem find_assign {K V : Type} [DecidableEq K] (m : StdMap K V) (k k' : K) (v : V) :
    (m.assign k v).find k' = if k' = k then some v else m.find k' := by
  induction m with
  | nil =>
    by_cases h : k = k'
    · simp [StdMap.assign, StdMap.find, h]
    · have h' : ¬ k' = k := fun e => h e.symm
      simp [StdMap.assign, StdMap.find, h, h']
  | cons hd tl ih =>
    obtain ⟨k0, v0⟩ := hd
    by_cases h0 : k0 = k
    · subst h0
      by_cases h : k0 = k'
      · simp [StdMap.assign, StdMap.find, h]
      · have h' : ¬ k' = k0 := fun e => h e.symm
        simp [StdMap.assign, StdMap.find, h, h']
    · by_cases h : k0 = k'
      · subst h
        simp [StdMap.assign, StdMap.find, h0]
      · simp only [StdMap.assign, h0, if_false]
        simp only [StdMap.find] at ih ⊢
        simp [List.find?, h, ih]

theorem mem_keys_iff_find {K V : Type} [DecidableEq K] (m : StdMap K V) (k : K) :
    k ∈ m.keys ↔ ∃ v, m.find k = some v := by
  induction m with
  | nil => simp [StdMap.keys, StdMap.find]
  | cons hd tl ih =>
    obtain ⟨k0, v0⟩ := hd
    by_cases h : k0 = k
    · simp [StdMap.keys, StdMap.find, h]
    · have h' : ¬ k = k0 := fun e => h e.symm
      simp only [StdMap.keys, StdMap.find] at ih ⊢
      simp [List.find?, h, h', ih]

theorem shiftCell_eq_ok [DecidableEq P] (vals : Values R P) (d r : SwaptionVolShiftData R P)
    (c : XMLNode) :
    shiftCell vals d c = Except.ok r ↔
      (isParallelCell c = true ∧ ∃ v, vals.parseReal (getNodeValue c) = Except.ok v ∧
          r = { d with parallelShiftSize := v }) ∨
        (isCoordinateCell c = true ∧ ∃ key v, cellKey vals c = some key ∧
          vals.parseReal (getNodeValue c) = Except.ok v ∧
          r = { d with shifts := d.shifts.assign key v }) := by
  by_cases he : getAttribute c "expiry" = "" <;> by_cases ht : getAttribute c "term" = ""
  · have hs : shiftCell vals d c = (vals.parseReal (getNodeValue c) >>= fun v =>
        Except.ok { d with parallelShiftSize := v }) := by
      simp [shiftCell, he, ht]
    have hp : isParallelCell c = true := by simp [isParallelCell, he, ht]
    have hc : isCoordinateCell c = false := by simp [isCoordinateCell, he]
    rw [hs, except_bind_eq_ok]
    simp only [hp, hc, true_and, Bool.false_eq_true, false_and, or_false, Except.ok.injEq]
    constructor
    · rintro ⟨v, hv, rfl⟩
      exact ⟨v, hv, rfl⟩
    · rintro ⟨v, hv, rfl⟩
      exact ⟨v, hv, rfl⟩
  · simp [shiftCell, isParallelCell, isCoordinateCell, he, ht, QL_REQUIRE]
  · simp [shiftCell, isParallelCell, isCoordinateCell, he, ht, QL_REQUIRE]
  · have hp : isParallelCell c = false := by simp [isParallelCell, he]
    have hc : isCoordinateCell c = true := by simp [isCoordinateCell, he, ht]
    have hs : shiftCell vals d c = (vals.parsePeriod (getAttribute c "expiry") >>= fun e =>
        vals.parsePeriod (getAttribute c "term") >>= fun t =>
        vals.parseReal (getNodeValue c) >>= fun v =>
        Except.ok { d with shifts := d.shifts.assign (e, t) v }) := by
      simp [shiftCell, he, ht, QL_REQUIRE]
    rw [hs]
    simp only [hp, hc, true_and, Bool.false_eq_true, false_and, false_or, cellKey]
    cases hpe : vals.parsePeriod (getAttribute c "expiry") with
    | error e1 => simp
    | ok e =>
      cases hpt : vals.parsePeriod (getAttribute c "term") with
      | error e2 => simp
      | ok t =>
        simp only [except_bind_ok, except_bind_eq_ok, Except.ok.injEq, Option.some.injEq]
        constructor
        · rintro ⟨v, hv, rfl⟩
          exact ⟨(e, t), v, rfl, hv, rfl⟩
        · rintro ⟨key, v, rfl, hv, rfl⟩
          exact ⟨v, hv, rfl⟩

theorem shiftCellLoop_append [DecidableEq P] (vals : Values R P) (l₁ l₂ : List XMLNode)
    (d : SwaptionVolShiftData R P) :
    shiftCellLoop vals (l₁ ++ l₂) d = (shiftCellLoop vals l₁ d >>= shiftCellLoop vals l₂) := by
  induction l₁ generalizing d with
  | nil => simp [shiftCellLoop]
  | cons c rest ih =>
    cases hc : shiftCell vals d c with
    | error e => simp [shiftCellLoop, hc]
    | ok d1 => simp [shiftCellLoop, hc, ih]

theorem some_or_eq {α : Type} (a : α) (o : Option α) : (some a).or o = some a := rfl

theorem parallel_not_coordinate (c : XMLNode) (h : isParallelCell c = true) :
    isCoordinateCell c = false := by
  simp only [isParallelCell, Bool.and_eq_true, beq_iff_eq] at h
  simp [isCoordinateCell, h.1]

theorem coordinate_not_parallel (c : XMLNode) (h : isCoordinateCell c = true) :
    isParallelCell c = false := by
  cases hp : isParallelCell c with
  | false => rfl
  | true => rw [parallel_not_coordinate c hp] at h; cases h

theorem not_half_of_parallel_or_coordinate (c : XMLNode)
    (h : isParallelCell c = true ∨ isCoordinateCell c = true) : isHalfCell c = false := by
  rcases h with h | h
  · simp only [isParallelCell, Bool.and_eq_true, beq_iff_eq] at h
    simp [isHalfCell, h.1, h.2]
  · simp only [isCoordinateCell, Bool.and_eq_true, bne_iff_ne, ne_eq] at h
    simp [isHalfCell, h.1, h.2]

/-- What the cell loop leaves in the record: the fields read before the loop are
untouched; `parallelShiftSize` is the value of the last cell without attributes,
and as before when there is none; the value stored at a coordinate pair is that of
the last cell with both attributes and that pair, and as before when there is
none; and no visited cell carries exactly one attribute. -/
theorem shiftCellLoop_spec [DecidableEq P] (vals : Values R P) (cells : List XMLNode)
    (d r : SwaptionVolShiftData R P) (h : shiftCellLoop vals cells d = Except.ok r) :
    (r.shiftType = d.shiftType ∧ r.shiftExpiries = d.shiftExpiries ∧
        r.shiftTerms = d.shiftTerms) ∧
      (∀ c, (parallelCells cells).getLast? = some c →
        vals.parseReal (getNodeValue c) = Except.ok r.parallelShiftSize) ∧
      (parallelCells cells = [] → r.parallelShiftSize = d.parallelShiftSize) ∧
      (∀ key c, (cellsAt vals key cells).getLast? = some c →
        ∃ v, vals.parseReal (getNodeValue c) = Except.ok v ∧ r.shifts.find key = some v) ∧
      (∀ key, cellsAt vals key cells = [] → r.shifts.find key = d.shifts.find key) ∧
      (∀ c ∈ cells, isHalfCell c = false) := by
  induction cells using List.reverseRecOn generalizing r with
  | nil =>
    simp only [shiftCellLoop, except_pure_eq, Except.ok.injEq] at h
    subst h
    simp [parallelCells, cellsAt]
  | append_singleton init c ih =>
    rw [shiftCellLoop_append, except_bind_eq_ok] at h
    obtain ⟨d', hd', hc⟩ := h
    simp only [shiftCellLoop, except_bind_eq_ok, except_pure_eq, Except.ok.injEq,
      exists_eq_right] at hc
    obtain ⟨⟨i1, i2, i3⟩, ipar, inopar, ikey, inokey, ihalf⟩ := ih d' hd'
    rcases (shiftCell_eq_ok vals d' r c).1 hc with ⟨hp, v, hv, rfl⟩ | ⟨hco, key0, v, hk, hv, rfl⟩
    · have hco := parallel_not_coordinate c hp
      refine ⟨⟨i1, i2, i3⟩, ?_, ?_, ?_, ?_, ?_⟩
      · intro c' hc'
        simp only [parallelCells, List.filter_append, List.filter_cons, hp, if_true,
          List.filter_nil, List.getLast?_append, List.getLast?_singleton, some_or_eq,
          Option.some.injEq] at hc'
        subst hc'
        exact hv
      · intro hnil
        simp [parallelCells, List.filter_append, hp] at hnil
      · intro key c' hc'
        simp only [cellsAt, List.filter_append, List.filter_cons, hco, Bool.false_and,
          Bool.false_eq_true, if_false, List.filter_nil, List.append_nil] at hc'
        exact ikey key c' hc'
      · intro key hnil
        simp only [cellsAt, List.filter_append, List.filter_cons, hco, Bool.false_and,
          Bool.false_eq_true, if_false, List.filter_nil, List.append_nil] at hnil
        exact inokey key hnil
      · intro c' hc'
        rcases List.mem_append.1 hc' with h1 | h1
        · exact ihalf c' h1
        · rw [List.mem_singleton.1 h1]
          exact not_half_of_parallel_or_coordinate c (Or.inl hp)
    · have hp := coordinate_not_parallel c hco
      refine ⟨⟨i1, i2, i3⟩, ?_, ?_, ?_, ?_, ?_⟩
      · intro c' hc'
        simp only [parallelCells, List.filter_append, List.filter_cons, hp,
          Bool.false_eq_true, if_false, List.filter_nil, List.append_nil] at hc'
        exact ipar c' hc'
      · intro hnil
        simp only [parallelCells, List.filter_append, List.filter_cons, hp,
          Bool.false_eq_true, if_false, List.filter_nil, List.append_nil] at hnil
        exact inopar hnil
      · intro key c' hc'
        by_cases hkey : key = key0
        · subst hkey
          simp only [cellsAt, List.filter_append, List.filter_cons, hco, hk, decide_True,
            Bool.and_self, if_true, List.filter_nil, List.getLast?_append,
            List.getLast?_singleton, some_or_eq, Option.some.injEq] at hc'
          subst hc'
          exact ⟨v, hv, by simp [find_assign]⟩
        · have hne : ¬ key0 = key := fun e => hkey e.symm
          simp only [cellsAt, List.filter_append, List.filter_cons, hco, hk, Option.some.injEq,
            hne, decide_False, Bool.and_false, Bool.false_eq_true, if_false, List.filter_nil,
            List.append_nil] at hc'
          obtain ⟨v', hv', hf⟩ := ikey key c' hc'
          exact ⟨v', hv', by simp [find_assign, hkey, hf]⟩
      · intro key hnil
        by_cases hkey : key = key0
        · subst hkey
          simp [cellsAt, List.filter_append, hco, hk] at hnil
        · have hne : ¬ key0 = key := fun e => hkey e.symm
          simp only [cellsAt, List.filter_append, List.filter_cons, hco, hk, Option.some.injEq,
            hne, decide_False, Bool.and_false, Bool.false_eq_true, if_false, List.filter_nil,
            List.append_nil] at hnil
          simp [find_assign, hkey, inokey key hnil]
      · intro c' hc'
        rcases List.mem_append.1 hc' with h1 | h1
        · exact ihalf c' h1
        · rw [List.mem_singleton.1 h1]
          exact not_half_of_parallel_or_coordinate c (Or.inr hco)

theorem mem_keys_assign {K V : Type} [DecidableEq K] (m : StdMap K V) (k k' : K) (v : V) :
    k' ∈ (m.assign k v).keys ↔ k' = k ∨ k' ∈ m.keys := by
  rw [mem_keys_iff_find, mem_keys_iff_find, find_assign]
  by_cases h : k' = k <;> simp [h]

theorem nodup_keys_assign {K V : Type} [DecidableEq K] (m : StdMap K V) (k : K) (v : V)
    (h : m.keys.Nodup) : (m.assign k v).keys.Nodup := by
  induction m with
  | nil => simp [StdMap.assign, StdMap.keys]
  | cons hd tl ih =>
    obtain ⟨k0, v0⟩ := hd
    have h' : k0 ∉ StdMap.keys tl ∧ (StdMap.keys tl).Nodup := by
      simpa [StdMap.keys] using h
    by_cases h0 : k0 = k
    · subst h0
      simpa [StdMap.assign, StdMap.keys] using h
    · have hmem : k0 ∉ (StdMap.assign tl k v).keys := by
        rw [mem_keys_assign]
        rintro (e | e)
        · exact h0 e
        · exact h'.1 e
      have hnd := ih h'.2
      simp only [StdMap.assign, h0, if_false]
      simp only [StdMap.keys, List.map_cons, List.nodup_cons] at hmem hnd ⊢
      exact ⟨hmem, hnd⟩

theorem shiftCellLoop_nodup [DecidableEq P] (vals : Values R P) (cells : List XMLNode)
    (d r : SwaptionVolShiftData R P) (h : shiftCellLoop vals cells d = Except.ok r)
    (hd : d.shifts.keys.Nodup) : r.shifts.keys.Nodup := by
  induction cells generalizing d with
  | nil =>
    simp only [shiftCellLoop, except_pure_eq, Except.ok.injEq] at h
    subst h
    exact hd
  | cons c rest ih =>
    simp only [shiftCellLoop, except_bind_eq_ok] at h
    obtain ⟨d1, hc, hrest⟩ := h
    refine ih d1 hrest ?_
    rcases (shiftCell_eq_ok vals d d1 c).1 hc with ⟨_, v, _, rfl⟩ | ⟨_, key0, v, _, _, rfl⟩
    · exact hd
    · exact nodup_keys_assign _ _ _ hd

/-- A swaption entry that is read without an error: the key is the `ccy` attribute
and the record holds the parallel shift and the grid that its cells prescribe; no
visited cell carries exactly one attribute. -/
theorem swaptionVolEntry_spec [DecidableEq P] (vals : Values R P) (child : XMLNode)
    (kd : String × SwaptionVolShiftData R P) (h : swaptionVolEntry vals child = Except.ok kd) :
    getAttribute child "ccy" = kd.1 ∧
      parallelShiftOf vals (shiftCells child) kd.2.parallelShiftSize ∧
      gridOf vals (shiftCells child) kd.2.shifts ∧
      (∀ c ∈ shiftCells child, isHalfCell c = false) := by
  obtain ⟨k, d⟩ := kd
  simp only [swaptionVolEntry, except_bind_eq_ok, requireNode_eq_ok, except_pure_eq,
    Except.ok.injEq, Prod.mk.injEq] at h
  obtain ⟨ty, _, terms, _, exps, _, shiftSizes, hs, r, hloop, hk, rfl⟩ := h
  have hcells : shiftCells child = siblingsFrom shiftSizes "Shift" := by
    simp [shiftCells, sectionEntries, hs]
  rw [← hcells] at hloop
  obtain ⟨_, hpar, hnopar, hkey, hnokey, hhalf⟩ := shiftCellLoop_spec vals _ _ _ hloop
  have hnd := shiftCellLoop_nodup vals _ _ _ hloop (by simp [StdMap.keys])
  refine ⟨hk, ⟨hpar, hnopar⟩, ⟨?_, hkey, hnd⟩, hhalf⟩
  intro key
  rw [mem_keys_iff_find]
  constructor
  · rintro ⟨v, hv⟩
    cases hl : cellsAt vals key (shiftCells child) with
    | nil =>
      rw [hnokey key hl] at hv
      simp [StdMap.find] at hv
    | cons c0 rest =>
      have hc0 : c0 ∈ cellsAt vals key (shiftCells child) := by simp [hl]
      simp only [cellsAt, List.mem_filter, Bool.and_eq_true, decide_eq_true_eq] at hc0
      exact ⟨c0, hc0.1, hc0.2.1, hc0.2.2⟩
  · rintro ⟨c, hc, hco, hk'⟩
    have hmem : c ∈ cellsAt vals key (shiftCells child) := by
      simp [cellsAt, hc, hco, hk']
    cases hl : (cellsAt vals key (shiftCells child)).getLast? with
    | none =>
      rw [List.getLast?_eq_none_iff] at hl
      rw [hl] at hmem
      cases hmem
    | some c' =>
      obtain ⟨v, _, hf⟩ := hkey key c' hl
      exact ⟨v, hf⟩

theorem swaption_entries_of_load [DecidableEq P] (vals : Values R P) (tc : XMLNode)
    (test : StressTestData R P) (h : loadTestCase vals tc = Except.ok test) :
    (∀ e ∈ test.swaptionVolShifts,
        ∃ c ∈ sectionEntries tc "SwaptionVolatilities" "SwaptionVolatility",
          swaptionVolEntry vals c = Except.ok e) ∧
      (∀ c ∈ sectionEntries tc "SwaptionVolatilities" "SwaptionVolatility",
        ∃ kd, swaptionVolEntry vals c = Except.ok kd) := by
  obtain ⟨_, _, _, _, _, _, h6, _⟩ := (loadTestCase_eq_ok vals tc test).1 h
  exact ⟨entryLoop_mem _ _ _ h6, entryLoop_all _ _ _ _ h6⟩

/-- C5. A `Shift` cell that carries exactly one of the attributes `expiry` and
`term` makes the cell loop throw "expiry and term attributes required on shift
size nodes", whatever has been read so far; when such a cell occurs in a
`SwaptionVolatility` entry of a test case of the document, `fromXML` throws; and a
cell that the loop accepts carries both attributes or neither. -/
theorem fromXML_rejects_half_cell [DecidableEq P] (vals : Values R P)
    (data0 : List (StressTestData R P)) (root tc entry cell : XMLNode)
    (htc : tc ∈ testCases root)
    (hentry : entry ∈ sectionEntries tc "SwaptionVolatilities" "SwaptionVolatility")
    (hcell : cell ∈ shiftCells entry) (hhalf : isHalfCell cell = true) :
    (∀ data, shiftCell vals data cell =
        Except.error "expiry and term attributes required on shift size nodes") ∧
      (∃ e, (fromXML vals data0 root).1 = Except.error e) ∧
      (∀ c d d', shiftCell vals d c = Except.ok d' →
        isParallelCell c = true ∨ isCoordinateCell c = true) := by
  refine ⟨?_, ?_, ?_⟩
  · intro data
    by_cases he : getAttribute cell "expiry" = "" <;>
      by_cases ht : getAttribute cell "term" = "" <;>
      simp [isHalfCell, he, ht] at hhalf <;>
      simp [shiftCell, he, ht, QL_REQUIRE]
  · cases hres : fromXML vals data0 root with
    | mk out data =>
      cases out with
      | error e => exact ⟨e, rfl⟩
      | ok u =>
        exfalso
        obtain ⟨_, hall⟩ := (fromXML_eq_ok vals data0 data root).1 hres
        obtain ⟨test, _, hload⟩ := forall₂_exists_right hall htc
        obtain ⟨kd, hkd⟩ := (swaption_entries_of_load vals tc test hload).2 entry hentry
        have := (swaptionVolEntry_spec vals entry kd hkd).2.2.2 cell hcell
        rw [this] at hhalf
        cases hhalf
  · intro c d d' h
    rcases (shiftCell_eq_ok vals d d' c).1 h with h' | h'
    · exact Or.inl h'.1
    · exact Or.inr h'.1

/-- C5, witness: a cell with `expiry="1Y"` and no `term` attribute; the load
throws the validation error. -/
theorem fromXML_rejects_half_cell_witness :
    halfCellTest ∈ testCases halfCellDocument ∧
      halfCellEntry ∈ sectionEntries halfCellTest "SwaptionVolatilities" "SwaptionVolatility" ∧
      halfCell ∈ shiftCells halfCellEntry ∧
      isHalfCell halfCell = true ∧
      getAttribute halfCell "expiry" = "1Y" ∧ getAttribute halfCell "term" = "" ∧
      fromXML exampleValues [] halfCellDocument =
        (Except.error "expiry and term attributes required on shift size nodes", []) ∧
      ∃ e, (fromXML exampleValues [] halfCellDocument).1 = Except.error e :=
  have h1 : halfCellTest ∈ testCases halfCellDocument := List.mem_cons_self _ _
  have h2 : halfCellEntry ∈
      sectionEntries halfCellTest "SwaptionVolatilities" "SwaptionVolatility" :=
    List.mem_cons_self _ _
  have h3 : halfCell ∈ shiftCells halfCellEntry := List.mem_cons_self _ _
  ⟨h1, h2, h3, by decide, by decide, by decide, by decide,
    (fromXML_rejects_half_cell exampleValues [] halfCellDocument halfCellTest halfCellEntry
      halfCell h1 h2 h3 (by decide)).2.1⟩

/-- C6. When `fromXML` returns, record by record and test case by test case, every
stored swaption volatility entry was read from a `SwaptionVolatility` node of the
test case with that `ccy`, and its `parallelShiftSize` is the parsed value of the
last `Shift` cell of the node, in document order, that carries neither attribute,
and `0.0` when the node has no such cell. -/
theorem fromXML_parallel_shift_last_wins [DecidableEq P] (vals : Values R P)
    (data0 data : List (StressTestData R P)) (root : XMLNode)
    (h : fromXML vals data0 root = (Except.ok (), data)) :
    List.Forall₂
      (fun tc test =>
        ∀ e ∈ test.swaptionVolShifts,
          ∃ child ∈ sectionEntries tc "SwaptionVolatilities" "SwaptionVolatility",
            getAttribute child "ccy" = e.1 ∧
              parallelShiftOf vals (shiftCells child) e.2.parallelShiftSize)
      (testCases root) data := by
  obtain ⟨_, hall⟩ := (fromXML_eq_ok vals data0 data root).1 h
  refine hall.imp ?_
  intro tc test hload e he
  obtain ⟨c, hc, hce⟩ := (swaption_entries_of_load vals tc test hload).1 e he
  obtain ⟨hk, hp, _, _⟩ := swaptionVolEntry_spec vals c e hce
  exact ⟨c, hc, hk, hp⟩

/-- C6, witness: an entry with one cell without attributes, of value 0.005, and no
cell with coordinates loads to `parallelShiftSize = 0.005` and an empty cells
mapping; with cells without attributes of values 0.005 and 0.007, the later value
0.007 is stored, not the sum. -/
theorem fromXML_parallel_shift_last_wins_witness :
    fromXML exampleValues [] parallelOnlyDocument = (Except.ok (), parallelOnlyRecords) ∧
      parallelOnlyRecords.map
          (fun test => test.swaptionVolShifts.map (fun e => (e.2.parallelShiftSize, e.2.shifts))) =
        [[(⟨5, 3⟩, [])]] ∧
      (fromXML exampleValues [] gridDocument).2.map
          (fun test => test.swaptionVolShifts.map (fun e => e.2.parallelShiftSize)) =
        [[⟨7, 3⟩]] ∧
      List.Forall₂
        (fun tc test =>
          ∀ e ∈ test.swaptionVolShifts,
            ∃ child ∈ sectionEntries tc "SwaptionVolatilities" "SwaptionVolatility",
              getAttribute child "ccy" = e.1 ∧
                parallelShiftOf exampleValues (shiftCells child) e.2.parallelShiftSize)
        (testCases parallelOnlyDocument) parallelOnlyRecords :=
  ⟨by decide, by decide, by decide,
    fromXML_parallel_shift_last_wins exampleValues [] parallelOnlyRecords parallelOnlyDocument
      (by decide)⟩

/-- C7. When `fromXML` returns, record by record and test case by test case, every
stored swaption volatility entry was read from a `SwaptionVolatility` node of the
test case with that `ccy`, and its cells mapping is the sparse grid of the node:
the keys are exactly the pairs `(parsePeriod(expiry), parsePeriod(term))` of the
`Shift` cells that carry both attributes, each key once, and each key maps to the
parsed value of the last such cell with that pair.  Cells without attributes add
no key. -/
theorem fromXML_cells_sparse_exact [DecidableEq P] (vals : Values R P)
    (data0 data : List (StressTestData R P)) (root : XMLNode)
    (h : fromXML vals data0 root = (Except.ok (), data)) :
    List.Forall₂
      (fun tc test =>
        ∀ e ∈ test.swaptionVolShifts,
          ∃ child ∈ sectionEntries tc "SwaptionVolatilities" "SwaptionVolatility",
            getAttribute child "ccy" = e.1 ∧ gridOf vals (shiftCells child) e.2.shifts)
      (testCases root) data := by
  obtain ⟨_, hall⟩ := (fromXML_eq_ok vals data0 data root).1 h
  refine hall.imp ?_
  intro tc test hload e he
  obtain ⟨c, hc, hce⟩ := (swaption_entries_of_load vals tc test hload).1 e he
  obtain ⟨hk, _, hg, _⟩ := swaptionVolEntry_spec vals c e hce
  exact ⟨c, hc, hk, hg⟩

/-- C7, witness: an entry with cells (none) 0.005, (1Y,5Y) 0.01, (none) 0.007,
(1Y,5Y) 0.02 and (2Y,5Y) 0.03 loads to the mapping with the two keys (1Y,5Y) and
(2Y,5Y), holding 0.02 and 0.03. -/
theorem fromXML_cells_sparse_exact_witness :
    fromXML exampleValues [] gridDocument = (Except.ok (), gridRecords) ∧
      gridRecords.map (fun test => test.swaptionVolShifts.map (fun e => e.2.shifts)) =
        [[[((⟨1, .Years⟩, ⟨5, .Years⟩), ⟨2, 2⟩), ((⟨2, .Years⟩, ⟨5, .Years⟩), ⟨3, 2⟩)]]] ∧
      List.Forall₂
        (fun tc test =>
          ∀ e ∈ test.swaptionVolShifts,
            ∃ child ∈ sectionEntries tc "SwaptionVolatilities" "SwaptionVolatility",
              getAttribute child "ccy" = e.1 ∧ gridOf exampleValues (shiftCells child) e.2.shifts)
        (testCases gridDocument) gridRecords :=
  ⟨by decide, by decide,
    fromXML_cells_sparse_exact exampleValues [] gridRecords gridDocument (by decide)⟩

/-- C11. For every loader state and every output document, `toXML` throws the
error "toXML not implemented for stress testing data" (which contains the text
"not implemented"); it returns no node, the outcome being the error thrown to the
caller; and the tree of the output document is as before the call. -/
theorem toXML_not_implemented (data_ : List (StressTestData R P)) (doc : XMLDocument) :
    (toXML data_ doc).1 = Except.error "toXML not implemented for stress testing data" ∧
      (∀ node, (toXML data_ doc).1 ≠ Except.ok node) ∧
      (toXML data_ doc).2.tree = doc.tree ∧
      "not implemented".toList <:+: "toXML not implemented for stress testing data".toList := by
  refine ⟨rfl, ?_, rfl, ⟨"toXML ".toList, " for stress testing data".toList, rfl⟩⟩
  intro node h
  cases h

theorem entryLoop_append {K V : Type} [DecidableEq K] (entry : XMLNode → Except String (K × V))
    (l₁ l₂ : List XMLNode) (m : StdMap K V) :
    entryLoop entry (l₁ ++ l₂) m = (entryLoop entry l₁ m >>= entryLoop entry l₂) := by
  induction l₁ generalizing m with
  | nil => simp [entryLoop]
  | cons c rest ih =>
    cases hc : entry c with
    | error e => simp [entryLoop, hc]
    | ok kd => simp [entryLoop, hc, ih]

/-- What an entry loop leaves in the mapping, when the key of an entry is the
attribute `attr` of its node: the value at an identifier is the data of the last
visited entry that carries it, and as before when there is none; keys stay
pairwise different. -/
theorem entryLoop_spec {V : Type} (attr : String) (entry : XMLNode → Except String (String × V))
    (hkey : ∀ c kd, entry c = Except.ok kd → kd.1 = getAttribute c attr)
    (nodes : List XMLNode) (m0 m : StdMap String V)
    (h : entryLoop entry nodes m0 = Except.ok m) :
    (∀ k c, (entriesAt attr k nodes).getLast? = some c →
        ∃ d, entry c = Except.ok (k, d) ∧ m.find k = some d) ∧
      (∀ k, entriesAt attr k nodes = [] → m.find k = m0.find k) ∧
      (m0.keys.Nodup → m.keys.Nodup) := by
  induction nodes using List.reverseRecOn generalizing m with
  | nil =>
    simp only [entryLoop, except_pure_eq, Except.ok.injEq] at h
    subst h
    simp [entriesAt]
  | append_singleton init c ih =>
    rw [entryLoop_append, except_bind_eq_ok] at h
    obtain ⟨m', hm', hc⟩ := h
    simp only [entryLoop, except_bind_eq_ok, except_pure_eq, Except.ok.injEq] at hc
    obtain ⟨kd, hkd, rfl⟩ := hc
    obtain ⟨ilast, inone, ind⟩ := ih m' hm'
    have hk := hkey c kd hkd
    refine ⟨?_, ?_, fun h0 => nodup_keys_assign _ _ _ (ind h0)⟩
    · intro k c' hc'
      by_cases hkk : getAttribute c attr = k
      · have hb : (getAttribute c attr == k) = true := by simpa using hkk
        simp only [entriesAt, List.filter_append, List.filter_cons, hb, if_true,
          List.filter_nil, List.getLast?_append, List.getLast?_singleton, some_or_eq,
          Option.some.injEq] at hc'
        subst hc'
        refine ⟨kd.2, ?_, ?_⟩
        · rw [hkd, ← hkk, ← hk]
        · rw [find_assign, ← hkk, ← hk]
          simp
      · have hb : (getAttribute c attr == k) = false := by simpa using hkk
        simp only [entriesAt, List.filter_append, List.filter_cons, hb, Bool.false_eq_true,
          if_false, List.filter_nil, List.append_nil] at hc'
        obtain ⟨d, hd, hf⟩ := ilast k c' hc'
        refine ⟨d, hd, ?_⟩
        have hne : ¬ k = kd.1 := fun e => hkk (by rw [e, hk])
        rw [find_assign]
        simp [hne, hf]
    · intro k hnil
      by_cases hkk : getAttribute c attr = k
      · have hb : (getAttribute c attr == k) = true := by simpa using hkk
        simp [entriesAt, List.filter_append, hb] at hnil
      · have hb : (getAttribute c attr == k) = false := by simpa using hkk
        simp only [entriesAt, List.filter_append, List.filter_cons, hb, Bool.false_eq_true,
          if_false, List.filter_nil, List.append_nil] at hnil
        have hne : ¬ k = kd.1 := fun e => hkk (by rw [e, hk])
        rw [find_assign]
        simp [hne, inone k hnil]

/-- An entry loop started from the empty mapping: the last entry of each identifier
wins, and the keys are exactly the identifiers of the visited entries. -/
theorem entryLoop_lastEntryWins {V : Type} (attr : String)
    (entry : XMLNode → Except String (String × V))
    (hkey : ∀ c kd, entry c = Except.ok kd → kd.1 = getAttribute c attr)
    (nodes : List XMLNode) (m : StdMap String V) (h : entryLoop entry nodes [] = Except.ok m) :
    lastEntryWins attr entry nodes m ∧ keysExactly attr nodes m := by
  obtain ⟨hlast, hnone, hnd⟩ := entryLoop_spec attr entry hkey nodes [] m h
  refine ⟨⟨hnd (by simp [StdMap.keys]), hlast⟩, ?_⟩
  intro k
  rw [mem_keys_iff_find]
  constructor
  · rintro ⟨v, hv⟩
    cases hl : entriesAt attr k nodes with
    | nil =>
      rw [hnone k hl] at hv
      simp [StdMap.find] at hv
    | cons c0 rest =>
      have hc0 : c0 ∈ entriesAt attr k nodes := by simp [hl]
      simp only [entriesAt, List.mem_filter, beq_iff_eq] at hc0
      exact ⟨c0, hc0.1, hc0.2⟩
  · rintro ⟨c, hc, hck⟩
    have hmem : c ∈ entriesAt attr k nodes := by simp [entriesAt, hc, hck]
    cases hl : (entriesAt attr k nodes).getLast? with
    | none =>
      rw [List.getLast?_eq_none_iff] at hl
      rw [hl] at hmem
      cases hmem
    | some c' =>
      obtain ⟨d, _, hf⟩ := hlast k c' hl
      exact ⟨d, hf⟩

theorem getChildValue_mandatory_eq_ok (n : XMLNode) (name s : String) :
    getChildValue n name true = Except.ok s ↔
      ∃ c, getChildNode n name = some c ∧ getNodeValue c = s := by
  cases h : getChildNode n name <;> simp [getChildValue, h]

theorem getChildValue_optional_none (n : XMLNode) (name : String)
    (h : getChildNode n name = none) : getChildValue n name false = Except.ok "" := by
  simp [getChildValue, h]

theorem getChildValue_mandatory_none (n : XMLNode) (name : String)
    (h : getChildNode n name = none) :
    getChildValue n name true = Except.error ("Error: No XML Child Node " ++ name ++ " found.") := by
  simp [getChildValue, h]

theorem fxSpotEntry_eq_ok (vals : Values R P) (child : XMLNode) (kd : String × FxShiftData R) :
    fxSpotEntry vals child = Except.ok kd ↔
      getAttribute child "ccypair" = kd.1 ∧
        getChildValue child "ShiftType" true = Except.ok kd.2.shiftType ∧
        getChildValueAsDouble vals child "ShiftSize" true = Except.ok kd.2.shiftSize := by
  obtain ⟨k, ⟨ty, sz⟩⟩ := kd
  simp only [fxSpotEntry, except_bind_eq_ok, except_pure_eq, Except.ok.injEq, Prod.mk.injEq,
    FxShiftData.mk.injEq]
  constructor
  · rintro ⟨ty', hty, sz', hsz, hk, rfl, rfl⟩
    exact ⟨hk, hty, hsz⟩
  · rintro ⟨hk, hty, hsz⟩
    exact ⟨ty, hty, sz, hsz, hk, rfl, rfl⟩

theorem fxVolEntry_eq_ok (vals : Values R P) (child : XMLNode)
    (kd : String × FxVolShiftData R P) :
    fxVolEntry vals child = Except.ok kd ↔
      getAttribute child "ccypair" = kd.1 ∧
        getChildValue child "ShiftType" false = Except.ok kd.2.shiftType ∧
        getChildrenValuesAsDoublesCompact vals child "Shifts" true = Except.ok kd.2.shifts ∧
        getChildrenValuesAsPeriods vals child "ShiftExpiries" true =
          Except.ok kd.2.shiftExpiries := by
  obtain ⟨k, ⟨ty, exps, shifts⟩⟩ := kd
  simp only [fxVolEntry, except_bind_eq_ok, except_pure_eq, Except.ok.injEq, Prod.mk.injEq,
    FxVolShiftData.mk.injEq]
  constructor
  · rintro ⟨ty', hty, sh, hsh, ex, hex, hk, rfl, rfl, rfl⟩
    exact ⟨hk, hty, hsh, hex⟩
  · rintro ⟨hk, hty, hsh, hex⟩
    exact ⟨ty, hty, shifts, hsh, exps, hex, hk, rfl, rfl, rfl⟩

theorem capFloorVolEntry_eq_ok (vals : Values R P) (child : XMLNode)
    (kd : String × CapFloorVolShiftData R P) :
    capFloorVolEntry vals child = Except.ok kd ↔
      getAttribute child "ccy" = kd.1 ∧
        getChildValue child "ShiftType" true = Except.ok kd.2.shiftType ∧
        getChildrenValuesAsPeriods vals child "ShiftExpiries" true =
          Except.ok kd.2.shiftExpiries ∧
        getChildrenValuesAsDoublesCompact vals child "Shifts" true = Except.ok kd.2.shifts := by
  obtain ⟨k, ⟨ty, exps, shifts⟩⟩ := kd
  simp only [capFloorVolEntry, except_bind_eq_ok, except_pure_eq, Except.ok.injEq,
    Prod.mk.injEq, CapFloorVolShiftData.mk.injEq]
  constructor
  · rintro ⟨ty', hty, ex, hex, sh, hsh, hk, rfl, rfl, rfl⟩
    exact ⟨hk, hty, hex, hsh⟩
  · rintro ⟨hk, hty, hex, hsh⟩
    exact ⟨ty, hty, exps, hex, shifts, hsh, hk, rfl, rfl, rfl⟩

/-- A swaption entry that is read without an error has a `ShiftType` child, whose
text is the stored shift type, and the stored axes are the parsed `ShiftTerms` and
`ShiftExpiries` lists. -/
theorem swaptionVolEntry_fields [DecidableEq P] (vals : Values R P) (child : XMLNode)
    (kd : String × SwaptionVolShiftData R P) (h : swaptionVolEntry vals child = Except.ok kd) :
    getChildValue child "ShiftType" true = Except.ok kd.2.shiftType ∧
      getChildrenValuesAsPeriods vals child "ShiftTerms" true = Except.ok kd.2.shiftTerms ∧
      getChildrenValuesAsPeriods vals child "ShiftExpiries" true =
        Except.ok kd.2.shiftExpiries := by
  obtain ⟨k, d⟩ := kd
  simp only [swaptionVolEntry, except_bind_eq_ok, requireNode_eq_ok, except_pure_eq,
    Except.ok.injEq, Prod.mk.injEq] at h
  obtain ⟨ty, hty, terms, hterms, exps, hexps, shiftSizes, hs, r, hloop, hk, rfl⟩ := h
  obtain ⟨⟨h1, h2, h3⟩, _⟩ := shiftCellLoop_spec vals _ _ _ hloop
  simp only at h1 h2 h3
  rw [h1, h2, h3]
  exact ⟨hty, hterms, hexps⟩

/-- The key under which each loop stores an entry is the identifier attribute of
the entry node. -/
theorem entry_keys [DecidableEq P] (vals : Values R P) :
    (∀ c kd, discountCurveEntry vals c = Except.ok kd → kd.1 = getAttribute c "ccy") ∧
      (∀ c kd, indexCurveEntry vals c = Except.ok kd → kd.1 = getAttribute c "index") ∧
      (∀ c kd, yieldCurveEntry vals c = Except.ok kd → kd.1 = getAttribute c "name") ∧
      (∀ c kd, fxSpotEntry vals c = Except.ok kd → kd.1 = getAttribute c "ccypair") ∧
      (∀ c kd, fxVolEntry vals c = Except.ok kd → kd.1 = getAttribute c "ccypair") ∧
      (∀ c kd, swaptionVolEntry vals c = Except.ok kd → kd.1 = getAttribute c "ccy") ∧
      (∀ c kd, capFloorVolEntry vals c = Except.ok kd → kd.1 = getAttribute c "ccy") :=
  ⟨fun c kd h => ((discountCurveEntry_eq_ok vals c kd).1 h).2.1.1.symm,
    fun c kd h => ((indexCurveEntry_eq_ok vals c kd).1 h).2.1.1.symm,
    fun c kd h => ((yieldCurveEntry_eq_ok vals c kd).1 h).2.1.1.symm,
    fun c kd h => ((fxSpotEntry_eq_ok vals c kd).1 h).1.symm,
    fun c kd h => ((fxVolEntry_eq_ok vals c kd).1 h).1.symm,
    fun c kd h => (swaptionVolEntry_spec vals c kd h).1.symm,
    fun c kd h => ((capFloorVolEntry_eq_ok vals c kd).1 h).1.symm⟩

/-- The outcome of `fromXML` is an error, or the call returns. -/
theorem fromXML_error_or_ok [DecidableEq P] (vals : Values R P)
    (data0 : List (StressTestData R P)) (root : XMLNode) :
    (∃ e, (fromXML vals data0 root).1 = Except.error e) ∨
      ∃ data, fromXML vals data0 root = (Except.ok (), data) := by
  cases hres : fromXML vals data0 root with
  | mk out data =>
    cases out with
    | error e => exact Or.inl ⟨e, rfl⟩
    | ok u => exact Or.inr ⟨data, rfl⟩

/-- When `fromXML` returns, every entry node of every section of every test case
has been read without an error. -/
theorem entries_read_of_fromXML_ok [DecidableEq P] (vals : Values R P)
    (data0 data : List (StressTestData R P)) (root tc : XMLNode)
    (h : fromXML vals data0 root = (Except.ok (), data)) (htc : tc ∈ testCases root) :
    (∀ c ∈ sectionEntries tc "DiscountCurves" "DiscountCurve",
        ∃ kd, discountCurveEntry vals c = Except.ok kd) ∧
      (∀ c ∈ sectionEntries tc "IndexCurves" "IndexCurve",
        ∃ kd, indexCurveEntry vals c = Except.ok kd) ∧
      (∀ c ∈ sectionEntries tc "YieldCurves" "YieldCurve",
        ∃ kd, yieldCurveEntry vals c = Except.ok kd) ∧
      (∀ c ∈ sectionEntries tc "FxSpots" "FxSpot", ∃ kd, fxSpotEntry vals c = Except.ok kd) ∧
      (∀ c ∈ sectionEntries tc "FxVolatilities" "FxVolatility",
        ∃ kd, fxVolEntry vals c = Except.ok kd) ∧
      (∀ c ∈ sectionEntries tc "SwaptionVolatilities" "SwaptionVolatility",
        ∃ kd, swaptionVolEntry vals c = Except.ok kd) ∧
      (∀ c ∈ sectionEntries tc "CapFloorVolatilities" "CapFloorVolatility",
        ∃ kd, capFloorVolEntry vals c = Except.ok kd) := by
  obtain ⟨_, hall⟩ := (fromXML_eq_ok vals data0 data root).1 h
  obtain ⟨test, _, hload⟩ := forall₂_exists_right hall htc
  obtain ⟨_, h1, h2, h3, h4, h5, h6, h7, _⟩ := (loadTestCase_eq_ok vals tc test).1 hload
  exact ⟨entryLoop_all _ _ _ _ h1, entryLoop_all _ _ _ _ h2, entryLoop_all _ _ _ _ h3,
    entryLoop_all _ _ _ _ h4, entryLoop_all _ _ _ _ h5, entryLoop_all _ _ _ _ h6,
    entryLoop_all _ _ _ _ h7⟩

/-- Every mandatory read of the loops: when `fromXML` returns, each visited entry
has the children that its loop reads with `mandatory = true`. -/
theorem mandatory_children_of_fromXML_ok [DecidableEq P] (vals : Values R P)
    (data0 data : List (StressTestData R P)) (root tc : XMLNode)
    (h : fromXML vals data0 root = (Except.ok (), data)) (htc : tc ∈ testCases root) :
    (∀ c ∈ sectionEntries tc "DiscountCurves" "DiscountCurve",
        getChildNode c "ShiftType" ≠ none) ∧
      (∀ c ∈ sectionEntries tc "IndexCurves" "IndexCurve", getChildNode c "ShiftType" ≠ none) ∧
      (∀ c ∈ sectionEntries tc "YieldCurves" "YieldCurve", getChildNode c "ShiftType" ≠ none) ∧
      (∀ c ∈ sectionEntries tc "FxSpots" "FxSpot",
        getChildNode c "ShiftType" ≠ none ∧ getChildNode c "ShiftSize" ≠ none) ∧
      (∀ c ∈ sectionEntries tc "SwaptionVolatilities" "SwaptionVolatility",
        getChildNode c "ShiftType" ≠ none) ∧
      (∀ c ∈ sectionEntries tc "CapFloorVolatilities" "CapFloorVolatility",
        getChildNode c "ShiftType" ≠ none) := by
  obtain ⟨h1, h2, h3, h4, _, h6, h7⟩ := entries_read_of_fromXML_ok vals data0 data root tc h htc
  have key : ∀ (c : XMLNode) (name s : String),
      getChildValue c name true = Except.ok s → getChildNode c name ≠ none := by
    intro c name s hs hn
    rw [getChildValue_mandatory_none c name hn] at hs
    cases hs
  refine ⟨?_, ?_, ?_, ?_, ?_, ?_⟩
  · intro c hc
    obtain ⟨kd, hkd⟩ := h1 c hc
    exact key _ _ _ ((discountCurveEntry_eq_ok vals c kd).1 hkd).1
  · intro c hc
    obtain ⟨kd, hkd⟩ := h2 c hc
    exact key _ _ _ ((indexCurveEntry_eq_ok vals c kd).1 hkd).1
  · intro c hc
    obtain ⟨kd, hkd⟩ := h3 c hc
    exact key _ _ _ ((yieldCurveEntry_eq_ok vals c kd).1 hkd).1
  · intro c hc
    obtain ⟨kd, hkd⟩ := h4 c hc
    obtain ⟨_, hty, hsz⟩ := (fxSpotEntry_eq_ok vals c kd).1 hkd
    refine ⟨key _ _ _ hty, ?_⟩
    simp only [getChildValueAsDouble, except_bind_eq_ok] at hsz
    obtain ⟨s, hs, _⟩ := hsz
    exact key _ _ _ hs
  · intro c hc
    obtain ⟨kd, hkd⟩ := h6 c hc
    exact key _ _ _ (swaptionVolEntry_fields vals c kd hkd).1
  · intro c hc
    obtain ⟨kd, hkd⟩ := h7 c hc
    exact key _ _ _ ((capFloorVolEntry_eq_ok vals c kd).1 hkd).2.1

/-- The stored FX spot entries, test case by test case, when `fromXML` returns. -/
theorem fx_entries_of_load [DecidableEq P] (vals : Values R P) (tc : XMLNode)
    (test : StressTestData R P) (h : loadTestCase vals tc = Except.ok test) :
    lastEntryWins "ccypair" (fxSpotEntry vals) (sectionEntries tc "FxSpots" "FxSpot")
        test.fxShifts ∧
      lastEntryWins "ccypair" (fxVolEntry vals)
        (sectionEntries tc "FxVolatilities" "FxVolatility") test.fxVolShifts := by
  obtain ⟨_, _, _, _, h4, h5, _⟩ := (loadTestCase_eq_ok vals tc test).1 h
  obtain ⟨_, _, _, k4, k5, _, _⟩ := entry_keys vals
  exact ⟨(entryLoop_lastEntryWins _ _ k4 _ _ h4).1, (entryLoop_lastEntryWins _ _ k5 _ _ h5).1⟩

/-- C12. An `FxSpot` entry without a `ShiftType` child, or without a `ShiftSize`
child, makes `fromXML` throw.  The body of the FX spot loop succeeds exactly when
the two mandatory reads succeed (no list is read and no length is checked), and
then yields the `ccypair` attribute, the text of `ShiftType` and the parsed
`ShiftSize`.  When `fromXML` returns, `fxShifts[ccypair]` holds the shift type and
the parsed size of the last `FxSpot` entry with that `ccypair`. -/
theorem fromXML_fx_spot [DecidableEq P] (vals : Values R P)
    (data0 : List (StressTestData R P)) (root : XMLNode) :
    failsOnEntryWithout vals data0 root "FxSpots" "FxSpot" "ShiftType" ∧
      failsOnEntryWithout vals data0 root "FxSpots" "FxSpot" "ShiftSize" ∧
      (∀ child kd, fxSpotEntry vals child = Except.ok kd ↔
        getAttribute child "ccypair" = kd.1 ∧
          getChildValue child "ShiftType" true = Except.ok kd.2.shiftType ∧
          getChildValueAsDouble vals child "ShiftSize" true = Except.ok kd.2.shiftSize) ∧
      (∀ data, fromXML vals data0 root = (Except.ok (), data) →
        List.Forall₂
          (fun tc test =>
            ∀ k c, (entriesAt "ccypair" k (sectionEntries tc "FxSpots" "FxSpot")).getLast? =
                some c →
              ∃ d, test.fxShifts.find k = some d ∧
                getChildValue c "ShiftType" true = Except.ok d.shiftType ∧
                getChildValueAsDouble vals c "ShiftSize" true = Except.ok d.shiftSize)
          (testCases root) data) := by
  refine ⟨?_, ?_, fxSpotEntry_eq_ok vals, ?_⟩
  · intro tc htc child hchild hnone
    rcases fromXML_error_or_ok vals data0 root with he | ⟨data, hok⟩
    · exact he
    · exact absurd hnone
        ((mandatory_children_of_fromXML_ok vals data0 data root tc hok htc).2.2.2.1
          child hchild).1
  · intro tc htc child hchild hnone
    rcases fromXML_error_or_ok vals data0 root with he | ⟨data, hok⟩
    · exact he
    · exact absurd hnone
        ((mandatory_children_of_fromXML_ok vals data0 data root tc hok htc).2.2.2.1
          child hchild).2
  · intro data h
    obtain ⟨_, hall⟩ := (fromXML_eq_ok vals data0 data root).1 h
    refine hall.imp ?_
    intro tc test hload k c hc
    obtain ⟨d, hd, hf⟩ := (fx_entries_of_load vals tc test hload).1.2 k c hc
    obtain ⟨_, hty, hsz⟩ := (fxSpotEntry_eq_ok vals c (k, d)).1 hd
    exact ⟨d, hf, hty, hsz⟩

/-- C12, witness: the FX spot EURUSD with shift type "Relative" and size 0.01 loads
and is stored as such; an `FxSpot` entry without `ShiftSize` makes the load
throw. -/
theorem fromXML_fx_spot_witness :
    fromXML exampleValues [] fxSpotDocument = (Except.ok (), fxSpotRecords) ∧
      fxSpotRecords.map (fun test => test.fxShifts.find "EURUSD") =
        [some { shiftType := "Relative", shiftSize := ⟨1, 2⟩ }] ∧
      getChildNode fxSpotNoSize "ShiftSize" = none ∧
      fromXML exampleValues [] fxSpotNoSizeDocument =
        (Except.error "Error: No XML Child Node ShiftSize found.", []) ∧
      ∃ e, (fromXML exampleValues [] fxSpotNoSizeDocument).1 = Except.error e :=
  ⟨by decide, by decide, rfl, by decide,
    (fromXML_fx_spot exampleValues [] fxSpotNoSizeDocument).2.1 fxSpotNoSizeTest
      (List.mem_cons_self _ _) fxSpotNoSize (List.mem_cons_self _ _) rfl⟩

/-- C13. `ShiftType` is optional in the FX volatility section only.  An
`FxVolatility` entry without a `ShiftType` child whose `Shifts` and
`ShiftExpiries` lists parse is read without an error, with the empty string as
shift type, and when `fromXML` returns, the record stored for the last such entry
of a `ccypair` has the empty shift type.  In each of the six other sections an
entry without a `ShiftType` child makes `fromXML` throw. -/
theorem fromXML_shiftType_optional_in_fx_vol_only [DecidableEq P] (vals : Values R P)
    (data0 : List (StressTestData R P)) (root : XMLNode) :
    (∀ child shifts exps, getChildNode child "ShiftType" = none →
        getChildrenValuesAsDoublesCompact vals child "Shifts" true = Except.ok shifts →
        getChildrenValuesAsPeriods vals child "ShiftExpiries" true = Except.ok exps →
        fxVolEntry vals child =
          Except.ok (getAttribute child "ccypair",
            { shiftType := "", shiftExpiries := exps, shifts := shifts })) ∧
      (∀ data, fromXML vals data0 root = (Except.ok (), data) →
        List.Forall₂
          (fun tc test =>
            ∀ k c,
              (entriesAt "ccypair" k
                  (sectionEntries tc "FxVolatilities" "FxVolatility")).getLast? = some c →
              getChildNode c "ShiftType" = none →
              ∃ d, test.fxVolShifts.find k = some d ∧ d.shiftType = "")
          (testCases root) data) ∧
      failsOnEntryWithout vals data0 root "DiscountCurves" "DiscountCurve" "ShiftType" ∧
      failsOnEntryWithout vals data0 root "IndexCurves" "IndexCurve" "ShiftType" ∧
      failsOnEntryWithout vals data0 root "YieldCurves" "YieldCurve" "ShiftType" ∧
      failsOnEntryWithout vals data0 root "FxSpots" "FxSpot" "ShiftType" ∧
      failsOnEntryWithout vals data0 root "SwaptionVolatilities" "SwaptionVolatility"
        "ShiftType" ∧
      failsOnEntryWithout vals data0 root "CapFloorVolatilities" "CapFloorVolatility"
        "ShiftType" := by
  have key : ∀ tc ∈ testCases root, (∃ e, (fromXML vals data0 root).1 = Except.error e) ∨
      ((∀ c ∈ sectionEntries tc "DiscountCurves" "DiscountCurve",
          getChildNode c "ShiftType" ≠ none) ∧
        (∀ c ∈ sectionEntries tc "IndexCurves" "IndexCurve",
          getChildNode c "ShiftType" ≠ none) ∧
        (∀ c ∈ sectionEntries tc "YieldCurves" "YieldCurve",
          getChildNode c "ShiftType" ≠ none) ∧
        (∀ c ∈ sectionEntries tc "FxSpots" "FxSpot",
          getChildNode c "ShiftType" ≠ none ∧ getChildNode c "ShiftSize" ≠ none) ∧
        (∀ c ∈ sectionEntries tc "SwaptionVolatilities" "SwaptionVolatility",
          getChildNode c "ShiftType" ≠ none) ∧
        (∀ c ∈ sectionEntries tc "CapFloorVolatilities" "CapFloorVolatility",
          getChildNode c "ShiftType" ≠ none)) := by
    intro tc htc
    rcases fromXML_error_or_ok vals data0 root with he | ⟨data, hok⟩
    · exact Or.inl he
    · exact Or.inr (mandatory_children_of_fromXML_ok vals data0 data root tc hok htc)
  refine ⟨?_, ?_, ?_, ?_, ?_, ?_, ?_, ?_⟩
  · intro child shifts exps hnone hs he
    rw [fxVolEntry_eq_ok]
    exact ⟨rfl, getChildValue_optional_none child _ hnone, hs, he⟩
  · intro data h
    obtain ⟨_, hall⟩ := (fromXML_eq_ok vals data0 data root).1 h
    refine hall.imp ?_
    intro tc test hload k c hc hnone
    obtain ⟨d, hd, hf⟩ := (fx_entries_of_load vals tc test hload).2.2 k c hc
    obtain ⟨_, hty, _⟩ := (fxVolEntry_eq_ok vals c (k, d)).1 hd
    rw [getChildValue_optional_none c _ hnone] at hty
    exact ⟨d, hf, (Except.ok.inj hty).symm⟩
  · intro tc htc child hchild hnone
    rcases key tc htc with he | hk
    · exact he
    · exact absurd hnone (hk.1 child hchild)
  · intro tc htc child hchild hnone
    rcases key tc htc with he | hk
    · exact he
    · exact absurd hnone (hk.2.1 child hchild)
  · intro tc htc child hchild hnone
    rcases key tc htc with he | hk
    · exact he
    · exact absurd hnone (hk.2.2.1 child hchild)
  · intro tc htc child hchild hnone
    rcases key tc htc with he | hk
    · exact he
    · exact absurd hnone (hk.2.2.2.1 child hchild).1
  · intro tc htc child hchild hnone
    rcases key tc htc with he | hk
    · exact he
    · exact absurd hnone (hk.2.2.2.2.1 child hchild)
  · intro tc htc child hchild hnone
    rcases key tc htc with he | hk
    · exact he
    · exact absurd hnone (hk.2.2.2.2.2 child hchild)

/-- C13, witness: an `FxVolatility` entry without `ShiftType` loads with the empty
shift type; a `CapFloorVolatility` entry without `ShiftType` makes the load
throw. -/
theorem fromXML_shiftType_optional_in_fx_vol_only_witness :
    getChildNode fxVolNoType "ShiftType" = none ∧
      fromXML exampleValues [] fxVolNoTypeDocument = (Except.ok (), fxVolNoTypeRecords) ∧
      fxVolNoTypeRecords.map
          (fun test => (test.fxVolShifts.find "EURUSD").map (fun d => d.shiftType)) =
        [some ""] ∧
      getChildNode capNoType "ShiftType" = none ∧
      fromXML exampleValues [] capNoTypeDocument =
        (Except.error "Error: No XML Child Node ShiftType found.", []) ∧
      ∃ e, (fromXML exampleValues [] capNoTypeDocument).1 = Except.error e :=
  ⟨rfl, by decide, by decide, rfl, by decide,
    (fromXML_shiftType_optional_in_fx_vol_only exampleValues [] capNoTypeDocument).2.2.2.2.2.2.2
      capNoTypeTest (List.mem_cons_self _ _) capNoType (List.mem_cons_self _ _) rfl⟩

/-- C14, the code at the failing input: an `FxVolatility` entry with two shifts
for one expiry and a `CapFloorVolatility` entry with an empty `Shifts` list load
without an error, and are stored with `len(shifts) = 2 ≠ 1 = len(shiftExpiries)`
and with `len(shifts) = 0`. -/
theorem fromXML_vol_shifts_unchecked :
    fromXML exampleValues [] volMismatchDocument = (Except.ok (), volMismatchRecords) ∧
      volMismatchRecords.map
          (fun test => test.fxVolShifts.map
            (fun e => (e.2.shifts.length, e.2.shiftExpiries.length))) = [[(2, 1)]] ∧
      volMismatchRecords.map
          (fun test => test.capVolShifts.map
            (fun e => (e.2.shifts.length, e.2.shiftExpiries.length))) = [[(0, 2)]] := by
  decide

/-- C15, counterexample: a discount curve with `ShiftType` "Sideways" loads, and
the stored shift type is "Sideways", neither "Absolute" nor "Relative". -/
theorem fromXML_shiftType_unvalidated_counterexample :
    fromXML exampleValues [] sidewaysDocument = (Except.ok (), sidewaysRecords) ∧
      sidewaysRecords.map
          (fun test => (test.discountCurveShifts.find "USD").map (fun d => d.shiftType)) =
        [some "Sideways"] ∧
      "Sideways" ≠ "Absolute" ∧ "Sideways" ≠ "Relative" := by
  decide

@[simp]
theorem mapChildren_name (f : XMLNode → XMLNode) (n : XMLNode) :
    (n.mapChildren f).name = n.name := by
  cases n; rfl

@[simp]
theorem mapChildren_attributes (f : XMLNode → XMLNode) (n : XMLNode) :
    (n.mapChildren f).attributes = n.attributes := by
  cases n; rfl

@[simp]
theorem mapChildren_children (f : XMLNode → XMLNode) (n : XMLNode) :
    (n.mapChildren f).children = n.children.map f := by
  cases n; rfl

@[simp]
theorem mapValue_name (g : String → String) (n : XMLNode) : (n.mapValue g).name = n.name := by
  cases n; rfl

@[simp]
theorem mapValue_value (g : String → String) (n : XMLNode) :
    (n.mapValue g).value = g n.value := by
  cases n; rfl

@[simp]
theorem retagChild_name (g : String → String) (c : XMLNode) : (retagChild g c).name = c.name := by
  unfold retagChild
  split <;> simp

@[simp]
theorem retagEntry_name (g : String → String) (c : XMLNode) : (retagEntry g c).name = c.name := by
  simp [retagEntry]

@[simp]
theorem retagSection_name (g : String → String) (c : XMLNode) :
    (retagSection g c).name = c.name := by
  simp [retagSection]

@[simp]
theorem retagTestCase_name (g : String → String) (c : XMLNode) :
    (retagTestCase g c).name = c.name := by
  simp [retagTestCase]

@[simp]
theorem retagTesting_name (g : String → String) (c : XMLNode) :
    (retagTesting g c).name = c.name := by
  simp [retagTesting]

@[simp]
theorem retagTop_name (g : String → String) (c : XMLNode) : (retagTop g c).name = c.name := by
  unfold retagTop
  split <;> simp

theorem find?_map_name (f : XMLNode → XMLNode) (hf : ∀ c, (f c).name = c.name) (nm : String)
    (l : List XMLNode) :
    (l.map f).find? (fun c => c.name == nm) = (l.find? (fun c => c.name == nm)).map f := by
  induction l with
  | nil => rfl
  | cons c rest ih =>
    simp only [List.map_cons, List.find?_cons, hf]
    cases h : (c.name == nm)
    · simpa using ih
    · simp

theorem dropWhile_map_name (f : XMLNode → XMLNode) (hf : ∀ c, (f c).name = c.name) (nm : String)
    (l : List XMLNode) :
    (l.map f).dropWhile (fun c => c.name != nm) =
      (l.dropWhile (fun c => c.name != nm)).map f := by
  induction l with
  | nil => rfl
  | cons c rest ih =>
    simp only [List.map_cons, List.dropWhile_cons, hf]
    cases h : (c.name != nm)
    · simp
    · simpa using ih

theorem getChildNode_mapChildren (f : XMLNode → XMLNode) (hf : ∀ c, (f c).name = c.name)
    (n : XMLNode) (nm : String) :
    getChildNode (n.mapChildren f) nm = (getChildNode n nm).map f := by
  simp only [getChildNode, mapChildren_children]
  exact find?_map_name f hf nm _

theorem siblingsFrom_mapChildren (f : XMLNode → XMLNode) (hf : ∀ c, (f c).name = c.name)
    (n : XMLNode) (nm : String) :
    siblingsFrom (n.mapChildren f) nm = (siblingsFrom n nm).map f := by
  simp only [siblingsFrom, mapChildren_children]
  exact dropWhile_map_name f hf nm _

theorem getAttribute_mapChildren (f : XMLNode → XMLNode) (n : XMLNode) (a : String) :
    getAttribute (n.mapChildren f) a = getAttribute n a := by
  simp [getAttribute]

theorem getChildNode_name (n : XMLNode) (nm : String) (c : XMLNode)
    (h : getChildNode n nm = some c) : c.name = nm := by
  have := List.find?_some h
  simpa using this

theorem getChildNode_retagEntry_of_ne (g : String → String) (e : XMLNode) (nm : String)
    (hne : nm ≠ "ShiftType") : getChildNode (retagEntry g e) nm = getChildNode e nm := by
  rw [retagEntry, getChildNode_mapChildren _ (retagChild_name g)]
  cases h : getChildNode e nm with
  | none => rfl
  | some c =>
    have hn := getChildNode_name e nm c h
    simp [retagChild, hn, hne]

theorem getChildValue_retagEntry_of_ne (g : String → String) (e : XMLNode) (nm : String)
    (m : Bool) (hne : nm ≠ "ShiftType") :
    getChildValue (retagEntry g e) nm m = getChildValue e nm m := by
  simp [getChildValue, getChildNode_retagEntry_of_ne g e nm hne]

theorem getChildValue_retagEntry_shiftType (g : String → String) (e : XMLNode) (m : Bool) :
    outcome (getChildValue (retagEntry g e) "ShiftType" m) =
      outcome (getChildValue e "ShiftType" m) := by
  rw [getChildValue, getChildValue, retagEntry, getChildNode_mapChildren _ (retagChild_name g)]
  cases h : getChildNode e "ShiftType" with
  | none => rfl
  | some c => rfl

theorem outcome_bind {α α' β β' : Type} (x : Except String α) (x' : Except String α')
    (f : α → Except String β) (f' : α' → Except String β') (hx : outcome x = outcome x')
    (hf : ∀ a a', outcome (f a) = outcome (f' a')) :
    outcome (x >>= f) = outcome (x' >>= f') := by
  cases x with
  | error e =>
    cases x' with
    | error e' =>
      simp only [outcome, Except.error.injEq] at hx
      subst hx
      rfl
    | ok a' => simp [outcome] at hx
  | ok a =>
    cases x' with
    | error e' => simp [outcome] at hx
    | ok a' => exact hf a a'

theorem outcome_bind_same {α β β' : Type} (x : Except String α)
    (f : α → Except String β) (f' : α → Except String β')
    (hf : ∀ a, outcome (f a) = outcome (f' a)) :
    outcome (x >>= f) = outcome (x >>= f') := by
  cases x with
  | error e => rfl
  | ok a => exact hf a

theorem getAttribute_retagEntry (g : String → String) (e : XMLNode) (a : String) :
    getAttribute (retagEntry g e) a = getAttribute e a :=
  getAttribute_mapChildren _ e a

theorem doubles_retagEntry (vals : Values R P) (g : String → String) (e : XMLNode) (nm : String)
    (m : Bool) (hne : nm ≠ "ShiftType") :
    getChildrenValuesAsDoublesCompact vals (retagEntry g e) nm m =
      getChildrenValuesAsDoublesCompact vals e nm m := by
  simp only [getChildrenValuesAsDoublesCompact, getChildValue_retagEntry_of_ne g e nm m hne]

theorem periods_retagEntry (vals : Values R P) (g : String → String) (e : XMLNode) (nm : String)
    (m : Bool) (hne : nm ≠ "ShiftType") :
    getChildrenValuesAsPeriods vals (retagEntry g e) nm m =
      getChildrenValuesAsPeriods vals e nm m := by
  simp only [getChildrenValuesAsPeriods, getChildValue_retagEntry_of_ne g e nm m hne]

theorem double_retagEntry (vals : Values R P) (g : String → String) (e : XMLNode) (nm : String)
    (m : Bool) (hne : nm ≠ "ShiftType") :
    getChildValueAsDouble vals (retagEntry g e) nm m = getChildValueAsDouble vals e nm m := by
  simp only [getChildValueAsDouble, getChildValue_retagEntry_of_ne g e nm m hne]

theorem discountCurveEntry_retag (vals : Values R P) (g : String → String) (e : XMLNode) :
    outcome (discountCurveEntry vals (retagEntry g e)) = outcome (discountCurveEntry vals e) := by
  simp only [discountCurveEntry, getAttribute_retagEntry,
    doubles_retagEntry vals g e "Shifts" true (by decide),
    periods_retagEntry vals g e "ShiftTenors" true (by decide)]
  refine outcome_bind _ _ _ _ (getChildValue_retagEntry_shiftType g e true) (fun ty ty' => ?_)
  refine outcome_bind_same _ _ _ (fun shifts => ?_)
  refine outcome_bind_same _ _ _ (fun tenors => ?_)
  refine outcome_bind_same _ _ _ (fun _ => ?_)
  refine outcome_bind_same _ _ _ (fun _ => ?_)
  rfl

theorem indexCurveEntry_retag (vals : Values R P) (g : String → String) (e : XMLNode) :
    outcome (indexCurveEntry vals (retagEntry g e)) = outcome (indexCurveEntry vals e) := by
  simp only [indexCurveEntry, getAttribute_retagEntry,
    doubles_retagEntry vals g e "Shifts" true (by decide),
    periods_retagEntry vals g e "ShiftTenors" true (by decide)]
  refine outcome_bind _ _ _ _ (getChildValue_retagEntry_shiftType g e true) (fun ty ty' => ?_)
  refine outcome_bind_same _ _ _ (fun shifts => ?_)
  refine outcome_bind_same _ _ _ (fun tenors => ?_)
  refine outcome_bind_same _ _ _ (fun _ => ?_)
  refine outcome_bind_same _ _ _ (fun _ => ?_)
  rfl

theorem yieldCurveEntry_retag (vals : Values R P) (g : String → String) (e : XMLNode) :
    outcome (yieldCurveEntry vals (retagEntry g e)) = outcome (yieldCurveEntry vals e) := by
  simp only [yieldCurveEntry, getAttribute_retagEntry,
    doubles_retagEntry vals g e "Shifts" true (by decide),
    periods_retagEntry vals g e "ShiftTenors" true (by decide)]
  refine outcome_bind _ _ _ _ (getChildValue_retagEntry_shiftType g e true) (fun ty ty' => ?_)
  refine outcome_bind_same _ _ _ (fun shifts => ?_)
  refine outcome_bind_same _ _ _ (fun tenors => ?_)
  refine outcome_bind_same _ _ _ (fun _ => ?_)
  refine outcome_bind_same _ _ _ (fun _ => ?_)
  rfl

theorem fxSpotEntry_retag (vals : Values R P) (g : String → String) (e : XMLNode) :
    outcome (fxSpotEntry vals (retagEntry g e)) = outcome (fxSpotEntry vals e) := by
  simp only [fxSpotEntry, getAttribute_retagEntry,
    double_retagEntry vals g e "ShiftSize" true (by decide)]
  refine outcome_bind _ _ _ _ (getChildValue_retagEntry_shiftType g e true) (fun ty ty' => ?_)
  refine outcome_bind_same _ _ _ (fun size => ?_)
  rfl

theorem fxVolEntry_retag (vals : Values R P) (g : String → String) (e : XMLNode) :
    outcome (fxVolEntry vals (retagEntry g e)) = outcome (fxVolEntry vals e) := by
  simp only [fxVolEntry, getAttribute_retagEntry,
    doubles_retagEntry vals g e "Shifts" true (by decide),
    periods_retagEntry vals g e "ShiftExpiries" true (by decide)]
  refine outcome_bind _ _ _ _ (getChildValue_retagEntry_shiftType g e false) (fun ty ty' => ?_)
  refine outcome_bind_same _ _ _ (fun shifts => ?_)
  refine outcome_bind_same _ _ _ (fun exps => ?_)
  rfl

theorem capFloorVolEntry_retag (vals : Values R P) (g : String → String) (e : XMLNode) :
    outcome (capFloorVolEntry vals (retagEntry g e)) = outcome (capFloorVolEntry vals e) := by
  simp only [capFloorVolEntry, getAttribute_retagEntry,
    doubles_retagEntry vals g e "Shifts" true (by decide),
    periods_retagEntry vals g e "ShiftExpiries" true (by decide)]
  refine outcome_bind _ _ _ _ (getChildValue_retagEntry_shiftType g e true) (fun ty ty' => ?_)
  refine outcome_bind_same _ _ _ (fun exps => ?_)
  refine outcome_bind_same _ _ _ (fun shifts => ?_)
  rfl

/-- Whether the cell loop returns, and the error it throws, do not depend on the
record being filled. -/
theorem shiftCellLoop_outcome [DecidableEq P] (vals : Values R P) (cells : List XMLNode)
    (d d' : SwaptionVolShiftData R P) :
    outcome (shiftCellLoop vals cells d) = outcome (shiftCellLoop vals cells d') := by
  induction cells generalizing d d' with
  | nil => rfl
  | cons c rest ih =>
    simp only [shiftCellLoop]
    refine outcome_bind _ _ _ _ ?_ (fun r r' => ih r r')
    simp only [shiftCell]
    split
    · refine outcome_bind_same _ _ _ (fun v => ?_)
      rfl
    · refine outcome_bind_same _ _ _ (fun _ => ?_)
      refine outcome_bind_same _ _ _ (fun ex => ?_)
      refine outcome_bind_same _ _ _ (fun t => ?_)
      refine outcome_bind_same _ _ _ (fun v => ?_)
      rfl

theorem swaptionVolEntry_retag [DecidableEq P] (vals : Values R P) (g : String → String)
    (e : XMLNode) :
    outcome (swaptionVolEntry vals (retagEntry g e)) = outcome (swaptionVolEntry vals e) := by
  simp only [swaptionVolEntry, getAttribute_retagEntry,
    periods_retagEntry vals g e "ShiftTerms" true (by decide),
    periods_retagEntry vals g e "ShiftExpiries" true (by decide),
    getChildNode_retagEntry_of_ne g e "Shifts" (by decide)]
  refine outcome_bind _ _ _ _ (getChildValue_retagEntry_shiftType g e true) (fun ty ty' => ?_)
  refine outcome_bind_same _ _ _ (fun terms => ?_)
  refine outcome_bind_same _ _ _ (fun exps => ?_)
  refine outcome_bind_same _ _ _ (fun shiftSizes => ?_)
  refine outcome_bind _ _ _ _ (shiftCellLoop_outcome vals _ _ _) (fun r r' => ?_)
  rfl

/-- Whether an entry loop returns, and the error it throws, depend only on the
outcome of its body at each visited node. -/
theorem entryLoop_outcome {K V : Type} [DecidableEq K]
    (entry entry' : XMLNode → Except String (K × V)) (h : XMLNode → XMLNode)
    (nodes : List XMLNode) (hn : ∀ c, outcome (entry' (h c)) = outcome (entry c))
    (m m' : StdMap K V) :
    outcome (entryLoop entry' (nodes.map h) m') = outcome (entryLoop entry nodes m) := by
  induction nodes generalizing m m' with
  | nil => rfl
  | cons c rest ih =>
    simp only [List.map_cons, entryLoop]
    exact outcome_bind _ _ _ _ (hn c) (fun kd kd' => ih _ _)

theorem getChildNode_retagTestCase (g : String → String) (tc : XMLNode) (nm : String) :
    getChildNode (retagTestCase g tc) nm = (getChildNode tc nm).map (retagSection g) :=
  getChildNode_mapChildren _ (retagSection_name g) tc nm

theorem siblingsFrom_retagSection (g : String → String) (s : XMLNode) (nm : String) :
    siblingsFrom (retagSection g s) nm = (siblingsFrom s nm).map (retagEntry g) :=
  siblingsFrom_mapChildren _ (retagEntry_name g) s nm

theorem siblingsFrom_retagTesting (g : String → String) (n : XMLNode) (nm : String) :
    siblingsFrom (retagTesting g n) nm = (siblingsFrom n nm).map (retagTestCase g) :=
  siblingsFrom_mapChildren _ (retagTestCase_name g) n nm

/-- A section of the rewritten test case has the outcome of the section of the
test case, when the body of its loop has the same outcome on a rewritten entry. -/
theorem section_retag {K V T : Type} [DecidableEq K] (g : String → String) (tc : XMLNode)
    (entry : XMLNode → Except String (K × V))
    (hn : ∀ c, outcome (entry (retagEntry g c)) = outcome (entry c))
    (sectionName entryName message : String) (m m' : StdMap K V) (k k' : StdMap K V → T) :
    outcome (requireNode (getChildNode (retagTestCase g tc) sectionName) message >>=
        fun s => entryLoop entry (siblingsFrom s entryName) m' >>= fun r => pure (k' r)) =
      outcome (requireNode (getChildNode tc sectionName) message >>=
        fun s => entryLoop entry (siblingsFrom s entryName) m >>= fun r => pure (k r)) := by
  rw [getChildNode_retagTestCase]
  cases hs : getChildNode tc sectionName with
  | none => rfl
  | some s =>
    simp only [Option.map_some', requireNode, except_pure_eq, except_bind_ok,
      siblingsFrom_retagSection]
    exact outcome_bind _ _ _ _ (entryLoop_outcome entry entry (retagEntry g) _ hn m m')
      (fun _ _ => rfl)

theorem loadDiscountCurves_retag (vals : Values R P) (g : String → String) (tc : XMLNode)
    (t t' : StressTestData R P) :
    outcome (loadDiscountCurves vals (retagTestCase g tc) t') = outcome (loadDiscountCurves vals tc t) := by
  simp only [loadDiscountCurves]
  exact section_retag g tc _ (discountCurveEntry_retag vals g) _ _ _ _ _ _ _

theorem loadIndexCurves_retag (vals : Values R P) (g : String → String) (tc : XMLNode)
    (t t' : StressTestData R P) :
    outcome (loadIndexCurves vals (retagTestCase g tc) t') = outcome (loadIndexCurves vals tc t) := by
  simp only [loadIndexCurves]
  exact section_retag g tc _ (indexCurveEntry_retag vals g) _ _ _ _ _ _ _

theorem loadYieldCurves_retag (vals : Values R P) (g : String → String) (tc : XMLNode)
    (t t' : StressTestData R P) :
    outcome (loadYieldCurves vals (retagTestCase g tc) t') = outcome (loadYieldCurves vals tc t) := by
  simp only [loadYieldCurves]
  exact section_retag g tc _ (yieldCurveEntry_retag vals g) _ _ _ _ _ _ _

theorem loadFxSpots_retag (vals : Values R P) (g : String → String) (tc : XMLNode)
    (t t' : StressTestData R P) :
    outcome (loadFxSpots vals (retagTestCase g tc) t') = outcome (loadFxSpots vals tc t) := by
  simp only [loadFxSpots]
  exact section_retag g tc _ (fxSpotEntry_retag vals g) _ _ _ _ _ _ _

theorem loadFxVols_retag (vals : Values R P) (g : String → String) (tc : XMLNode)
    (t t' : StressTestData R P) :
    outcome (loadFxVols vals (retagTestCase g tc) t') = outcome (loadFxVols vals tc t) := by
  simp only [loadFxVols]
  exact section_retag g tc _ (fxVolEntry_retag vals g) _ _ _ _ _ _ _

theorem loadSwaptionVols_retag [DecidableEq P] (vals : Values R P) (g : String → String) (tc : XMLNode)
    (t t' : StressTestData R P) :
    outcome (loadSwaptionVols vals (retagTestCase g tc) t') = outcome (loadSwaptionVols vals tc t) := by
  simp only [loadSwaptionVols]
  exact section_retag g tc _ (swaptionVolEntry_retag vals g) _ _ _ _ _ _ _

theorem loadCapFloorVols_retag (vals : Values R P) (g : String → String) (tc : XMLNode)
    (t t' : StressTestData R P) :
    outcome (loadCapFloorVols vals (retagTestCase g tc) t') = outcome (loadCapFloorVols vals tc t) := by
  simp only [loadCapFloorVols]
  exact section_retag g tc _ (capFloorVolEntry_retag vals g) _ _ _ _ _ _ _

theorem loadTestCase_retag [DecidableEq P] (vals : Values R P) (g : String → String)
    (tc : XMLNode) :
    outcome (loadTestCase vals (retagTestCase g tc)) = outcome (loadTestCase vals tc) := by
  simp only [loadTestCase]
  refine outcome_bind _ _ _ _ (loadDiscountCurves_retag vals g tc _ _) (fun t t' => ?_)
  refine outcome_bind _ _ _ _ (loadIndexCurves_retag vals g tc _ _) (fun t t' => ?_)
  refine outcome_bind _ _ _ _ (loadYieldCurves_retag vals g tc _ _) (fun t t' => ?_)
  refine outcome_bind _ _ _ _ (loadFxSpots_retag vals g tc _ _) (fun t t' => ?_)
  refine outcome_bind _ _ _ _ (loadFxVols_retag vals g tc _ _) (fun t t' => ?_)
  refine outcome_bind _ _ _ _ (loadSwaptionVols_retag vals g tc _ _) (fun t t' => ?_)
  refine outcome_bind _ _ _ _ (loadCapFloorVols_retag vals g tc _ _) (fun t t' => ?_)
  rfl

theorem testCaseLoop_retag [DecidableEq P] (vals : Values R P) (g : String → String)
    (nodes : List XMLNode) (d d' : List (StressTestData R P)) :
    (testCaseLoop vals (nodes.map (retagTestCase g)) d').1 = (testCaseLoop vals nodes d).1 := by
  induction nodes generalizing d d' with
  | nil => rfl
  | cons tc rest ih =>
    have h := loadTestCase_retag vals g tc
    simp only [List.map_cons, testCaseLoop]
    cases h1 : loadTestCase vals tc with
    | error e =>
      cases h2 : loadTestCase vals (retagTestCase g tc) with
      | error e' =>
        simp only [h1, h2, outcome, Except.error.injEq] at h
        simp [h]
      | ok t' => simp [h1, h2, outcome] at h
    | ok t =>
      cases h2 : loadTestCase vals (retagTestCase g tc) with
      | error e' => simp [h1, h2, outcome] at h
      | ok t' => exact ih _ _

/-- The outcome of `fromXML` (that it returns, or the error it throws) is the same
on the document and on the document with its shift types rewritten. -/
theorem fromXML_retag [DecidableEq P] (vals : Values R P) (g : String → String)
    (data0 : List (StressTestData R P)) (root : XMLNode) :
    (fromXML vals data0 (retagDocument g root)).1 = (fromXML vals data0 root).1 := by
  unfold retagDocument
  by_cases hn : (root.name == "StressTesting") = true
  · simp only [hn, if_true, fromXML, locateNode, retagTesting_name, except_pure_eq, checkNode,
      QL_REQUIRE, siblingsFrom_retagTesting]
    exact testCaseLoop_retag vals g _ _ _
  · simp only [hn, Bool.false_eq_true, if_false, fromXML, locateNode, mapChildren_name,
      getChildNode_mapChildren _ (retagTop_name g)]
    cases hc : getChildNode root "StressTesting" with
    | none => rfl
    | some node =>
      have hname := getChildNode_name root "StressTesting" node hc
      have hb : (node.name == "StressTesting") = true := by simp [hname]
      simp only [Option.map_some', retagTop, hb, if_true, except_pure_eq, checkNode, QL_REQUIRE,
        retagTesting_name, siblingsFrom_retagTesting]
      exact testCaseLoop_retag vals g _ _ _

/-- C15, amended. The shift type is a tag that is not validated.  Replacing the
text of the `ShiftType` child of the entries of a document by any other text
(`retagDocument g`, for any `g`) leaves the outcome of `fromXML` as it is: the
call returns on the one document exactly when it returns on the other, and
otherwise throws the same error; so a `ShiftType` other than "Absolute" or
"Relative" does not make the load fail.  And when `fromXML` returns, record by
record and test case by test case, the shift type stored in every curve, FX spot,
swaption volatility and cap/floor volatility entry is the text of the
`ShiftType` child of an entry node of the section with that identifier, as it
stands. -/
theorem fromXML_shiftType_as_read [DecidableEq P] (vals : Values R P)
    (data0 data : List (StressTestData R P)) (root : XMLNode) (g : String → String) :
    (fromXML vals data0 (retagDocument g root)).1 = (fromXML vals data0 root).1 ∧
      (fromXML vals data0 root = (Except.ok (), data) →
        List.Forall₂
          (fun tc test =>
            shiftTypeRead (fun d => d.shiftType) "ccy"
                (sectionEntries tc "DiscountCurves" "DiscountCurve") test.discountCurveShifts ∧
            shiftTypeRead (fun d => d.shiftType) "index"
                (sectionEntries tc "IndexCurves" "IndexCurve") test.indexCurveShifts ∧
            shiftTypeRead (fun d => d.shiftType) "name"
                (sectionEntries tc "YieldCurves" "YieldCurve") test.yieldCurveShifts ∧
            shiftTypeRead (fun d => d.shiftType) "ccypair"
                (sectionEntries tc "FxSpots" "FxSpot") test.fxShifts ∧
            shiftTypeRead (fun d => d.shiftType) "ccy"
                (sectionEntries tc "SwaptionVolatilities" "SwaptionVolatility") test.swaptionVolShifts ∧
            shiftTypeRead (fun d => d.shiftType) "ccy"
                (sectionEntries tc "CapFloorVolatilities" "CapFloorVolatility") test.capVolShifts)
          (testCases root) data) := by
  refine ⟨fromXML_retag vals g data0 root, ?_⟩
  intro h
  obtain ⟨_, hall⟩ := (fromXML_eq_ok vals data0 data root).1 h
  refine hall.imp ?_
  intro tc test hload
  obtain ⟨_, h1, h2, h3, h4, _, h6, h7, _⟩ := (loadTestCase_eq_ok vals tc test).1 hload
  refine ⟨?_, ?_, ?_, ?_, ?_, ?_⟩
  · intro e he
    obtain ⟨c, hc, hce⟩ := entryLoop_mem _ _ _ h1 e he
    obtain ⟨hty, ⟨hk, _⟩, _⟩ := (discountCurveEntry_eq_ok vals c e).1 hce
    exact ⟨c, hc, hk, hty⟩
  · intro e he
    obtain ⟨c, hc, hce⟩ := entryLoop_mem _ _ _ h2 e he
    obtain ⟨hty, ⟨hk, _⟩, _⟩ := (indexCurveEntry_eq_ok vals c e).1 hce
    exact ⟨c, hc, hk, hty⟩
  · intro e he
    obtain ⟨c, hc, hce⟩ := entryLoop_mem _ _ _ h3 e he
    obtain ⟨hty, ⟨hk, _⟩, _⟩ := (yieldCurveEntry_eq_ok vals c e).1 hce
    exact ⟨c, hc, hk, hty⟩
  · intro e he
    obtain ⟨c, hc, hce⟩ := entryLoop_mem _ _ _ h4 e he
    obtain ⟨hk, hty, _⟩ := (fxSpotEntry_eq_ok vals c e).1 hce
    exact ⟨c, hc, hk, hty⟩
  · intro e he
    obtain ⟨c, hc, hce⟩ := entryLoop_mem _ _ _ h6 e he
    exact ⟨c, hc, (swaptionVolEntry_spec vals c e hce).1, (swaptionVolEntry_fields vals c e hce).1⟩
  · intro e he
    obtain ⟨c, hc, hce⟩ := entryLoop_mem _ _ _ h7 e he
    obtain ⟨hk, hty, _⟩ := (capFloorVolEntry_eq_ok vals c e).1 hce
    exact ⟨c, hc, hk, hty⟩

/-- C15 amended, witness: the document with one entry in each of the seven
sections loads with the shift type "Absolute"; with every shift type rewritten to
"Sideways" it loads as well, and every record stores "Sideways". -/
theorem fromXML_shiftType_as_read_witness :
    fromXML exampleValues [] (allSectionsDocument "Absolute") =
        (Except.ok (), allSectionsRecords "Absolute") ∧
      fromXML exampleValues [] (retagDocument (fun _ => "Sideways") (allSectionsDocument "Absolute")) =
        (Except.ok (), allSectionsRecords "Sideways") ∧
      (fromXML exampleValues []
          (retagDocument (fun _ => "Sideways") (allSectionsDocument "Absolute"))).1 =
        (fromXML exampleValues [] (allSectionsDocument "Absolute")).1 ∧
      List.Forall₂
        (fun tc test =>
          shiftTypeRead (fun d => d.shiftType) "ccy"
              (sectionEntries tc "DiscountCurves" "DiscountCurve") test.discountCurveShifts ∧
          shiftTypeRead (fun d => d.shiftType) "index"
              (sectionEntries tc "IndexCurves" "IndexCurve") test.indexCurveShifts ∧
          shiftTypeRead (fun d => d.shiftType) "name"
              (sectionEntries tc "YieldCurves" "YieldCurve") test.yieldCurveShifts ∧
          shiftTypeRead (fun d => d.shiftType) "ccypair"
              (sectionEntries tc "FxSpots" "FxSpot") test.fxShifts ∧
          shiftTypeRead (fun d => d.shiftType) "ccy"
              (sectionEntries tc "SwaptionVolatilities" "SwaptionVolatility") test.swaptionVolShifts ∧
          shiftTypeRead (fun d => d.shiftType) "ccy"
              (sectionEntries tc "CapFloorVolatilities" "CapFloorVolatility") test.capVolShifts)
        (testCases (allSectionsDocument "Absolute")) (allSectionsRecords "Absolute") :=
  ⟨by decide, by decide,
    (fromXML_shiftType_as_read exampleValues [] (allSectionsRecords "Absolute")
      (allSectionsDocument "Absolute") (fun _ => "Sideways")).1,
    (fromXML_shiftType_as_read exampleValues [] (allSectionsRecords "Absolute")
      (allSectionsDocument "Absolute") (fun _ => "Sideways")).2 (by decide)⟩

set_option maxRecDepth 8000 in
/-- C16, counterexample: the discount curve entry with `ccy="USD"` has one shift
for two tenors; `fromXML` throws a message that does not contain "USD". -/
theorem fromXML_length_error_names_entry_counterexample :
    getAttribute usdMismatchEntry "ccy" = "USD" ∧
      (fromXML exampleValues [] usdMismatchDocument).1 =
        Except.error "number of tenors and shifts does not match in discount curve stress data" ∧
      ¬ ("USD".toList <:+:
        "number of tenors and shifts does not match in discount curve stress data".toList) := by
  decide

/-- C16, amended. For every curve entry whose `ShiftType`, `Shifts` and
`ShiftTenors` are read and which fails a length check, the body of the loop throws
a fixed message of its section: "number of tenors and shifts does not match in
... curve stress data" when the lengths differ, "no shifts provided in ... curve
stress data" when both lists are empty, with "discount", "index" or "yield" for
the section.  The message contains the text naming the curve section and is the
same whatever the identifier of the entry. -/
theorem curve_length_error_names_section (vals : Values R P) (child : XMLNode) (ty : String)
    (shifts : List R) (tenors : List P)
    (hty : getChildValue child "ShiftType" true = Except.ok ty)
    (hs : getChildrenValuesAsDoublesCompact vals child "Shifts" true = Except.ok shifts)
    (ht : getChildrenValuesAsPeriods vals child "ShiftTenors" true = Except.ok tenors) :
    (shifts.length ≠ tenors.length →
        discountCurveEntry vals child =
          Except.error "number of tenors and shifts does not match in discount curve stress data" ∧
        indexCurveEntry vals child =
          Except.error "number of tenors and shifts does not match in index curve stress data" ∧
        yieldCurveEntry vals child =
          Except.error "number of tenors and shifts does not match in yield curve stress data") ∧
      (shifts.length = tenors.length → shifts.length = 0 →
        discountCurveEntry vals child =
          Except.error "no shifts provided in discount curve stress data" ∧
        indexCurveEntry vals child =
          Except.error "no shifts provided in index curve stress data" ∧
        yieldCurveEntry vals child =
          Except.error "no shifts provided in yield curve stress data") ∧
      "discount curve".toList <:+: "number of tenors and shifts does not match in discount curve stress data".toList ∧
      "discount curve".toList <:+: "no shifts provided in discount curve stress data".toList ∧
      "index curve".toList <:+: "number of tenors and shifts does not match in index curve stress data".toList ∧
      "index curve".toList <:+: "no shifts provided in index curve stress data".toList ∧
      "yield curve".toList <:+: "number of tenors and shifts does not match in yield curve stress data".toList ∧
      "yield curve".toList <:+: "no shifts provided in yield curve stress data".toList := by
  refine ⟨?_, ?_, ⟨"number of tenors and shifts does not match in ".toList, " stress data".toList, rfl⟩, ⟨"no shifts provided in ".toList, " stress data".toList, rfl⟩, ⟨"number of tenors and shifts does not match in ".toList, " stress data".toList, rfl⟩,
    ⟨"no shifts provided in ".toList, " stress data".toList, rfl⟩, ⟨"number of tenors and shifts does not match in ".toList, " stress data".toList, rfl⟩, ⟨"no shifts provided in ".toList, " stress data".toList, rfl⟩⟩
  · intro hne
    simp [discountCurveEntry, indexCurveEntry, yieldCurveEntry, hty, hs, ht, QL_REQUIRE, hne]
  · intro heq hzero
    have hzero' : tenors.length = 0 := by rw [← heq, hzero]
    simp [discountCurveEntry, indexCurveEntry, yieldCurveEntry, hty, hs, ht, QL_REQUIRE,
      List.length_eq_zero.1 hzero, List.length_eq_zero.1 hzero']

/-- C16 amended, witness: the USD discount curve entry with one shift for two
tenors throws the fixed message of the discount curve section, and so does the
load of its document. -/
theorem curve_length_error_names_section_witness :
    getChildValue usdMismatchEntry "ShiftType" true = Except.ok "Absolute" ∧
      getChildrenValuesAsDoublesCompact exampleValues usdMismatchEntry "Shifts" true =
        Except.ok [⟨1, 2⟩] ∧
      getChildrenValuesAsPeriods exampleValues usdMismatchEntry "ShiftTenors" true =
        Except.ok [⟨1, .Years⟩, ⟨2, .Years⟩] ∧
      discountCurveEntry exampleValues usdMismatchEntry =
        Except.error "number of tenors and shifts does not match in discount curve stress data" ∧
      (fromXML exampleValues [] usdMismatchDocument).1 =
        Except.error "number of tenors and shifts does not match in discount curve stress data" :=
  ⟨by decide, by decide, by decide,
    ((curve_length_error_names_section exampleValues usdMismatchEntry "Absolute" [⟨1, 2⟩]
      [⟨1, .Years⟩, ⟨2, .Years⟩] (by decide) (by decide) (by decide)).1 (by decide)).1,
    by decide⟩

theorem toBool_eq_true {α : Type} (x : Except String α) :
    x.toBool = true ↔ ∃ a, x = Except.ok a := by
  cases x <;> simp [Except.toBool]

theorem entryLoop_ok_of_all {K V : Type} [DecidableEq K]
    (entry : XMLNode → Except String (K × V)) (nodes : List XMLNode) (m0 : StdMap K V)
    (h : nodes.all (fun c => (entry c).toBool) = true) :
    ∃ m, entryLoop entry nodes m0 = Except.ok m := by
  have h' : ∀ c ∈ nodes, ∃ kd, entry c = Except.ok kd := by
    intro c hc
    exact (toBool_eq_true _).1 (List.all_eq_true.1 h c hc)
  obtain ⟨kds, hk⟩ := forall₂_of_forall_exists h'
  exact ⟨assignAll m0 kds, (entryLoop_eq_ok entry nodes m0 _).2 ⟨kds, hk, rfl⟩⟩

/-- A test case whose section nodes are present and whose entries are valid one by
one loads. -/
theorem loadTestCase_of_entriesValid [DecidableEq P] (vals : Values R P) (tc : XMLNode)
    (h : entriesValid vals tc = true) : ∃ test, loadTestCase vals tc = Except.ok test := by
  simp only [entriesValid, Bool.and_eq_true] at h
  obtain ⟨⟨⟨⟨⟨⟨⟨hs, h1⟩, h2⟩, h3⟩, h4⟩, h5⟩, h6⟩, h7⟩ := h
  have hs' : ∀ p ∈ sections, (getChildNode tc p.1).isSome = true := List.all_eq_true.1 hs
  obtain ⟨m1, e1⟩ := entryLoop_ok_of_all _ _ [] h1
  obtain ⟨m2, e2⟩ := entryLoop_ok_of_all _ _ [] h2
  obtain ⟨m3, e3⟩ := entryLoop_ok_of_all _ _ [] h3
  obtain ⟨m4, e4⟩ := entryLoop_ok_of_all _ _ [] h4
  obtain ⟨m5, e5⟩ := entryLoop_ok_of_all _ _ [] h5
  obtain ⟨m6, e6⟩ := entryLoop_ok_of_all _ _ [] h6
  obtain ⟨m7, e7⟩ := entryLoop_ok_of_all _ _ [] h7
  refine ⟨{ label := getAttribute tc "id", discountCurveShifts := m1, indexCurveShifts := m2,
            yieldCurveShifts := m3, fxShifts := m4, fxVolShifts := m5,
            swaptionVolShifts := m6, capVolShifts := m7 }, ?_⟩
  rw [loadTestCase_eq_ok]
  exact ⟨⟨hs' ("DiscountCurves", "DiscountCurve") (by simp [sections]),
      hs' ("IndexCurves", "IndexCurve") (by simp [sections]),
      hs' ("YieldCurves", "YieldCurve") (by simp [sections]),
      hs' ("FxSpots", "FxSpot") (by simp [sections]),
      hs' ("FxVolatilities", "FxVolatility") (by simp [sections]),
      hs' ("SwaptionVolatilities", "SwaptionVolatility") (by simp [sections]),
      hs' ("CapFloorVolatilities", "CapFloorVolatility") (by simp [sections])⟩,
    e1, e2, e3, e4, e5, e6, e7, rfl⟩

/-- The seven mappings of a loaded test case: each holds one entry per identifier,
with the data of the last entry of the section that carries it, and its keys are
exactly the identifiers of the entries of the section. -/
theorem mappings_of_load [DecidableEq P] (vals : Values R P) (tc : XMLNode)
    (test : StressTestData R P) (h : loadTestCase vals tc = Except.ok test) :
    (lastEntryWins "ccy" (discountCurveEntry vals)
          (sectionEntries tc "DiscountCurves" "DiscountCurve") test.discountCurveShifts ∧
        keysExactly "ccy" (sectionEntries tc "DiscountCurves" "DiscountCurve")
          test.discountCurveShifts) ∧
      (lastEntryWins "index" (indexCurveEntry vals)
          (sectionEntries tc "IndexCurves" "IndexCurve") test.indexCurveShifts ∧
        keysExactly "index" (sectionEntries tc "IndexCurves" "IndexCurve")
          test.indexCurveShifts) ∧
      (lastEntryWins "name" (yieldCurveEntry vals)
          (sectionEntries tc "YieldCurves" "YieldCurve") test.yieldCurveShifts ∧
        keysExactly "name" (sectionEntries tc "YieldCurves" "YieldCurve")
          test.yieldCurveShifts) ∧
      (lastEntryWins "ccypair" (fxSpotEntry vals)
          (sectionEntries tc "FxSpots" "FxSpot") test.fxShifts ∧
        keysExactly "ccypair" (sectionEntries tc "FxSpots" "FxSpot") test.fxShifts) ∧
      (lastEntryWins "ccypair" (fxVolEntry vals)
          (sectionEntries tc "FxVolatilities" "FxVolatility") test.fxVolShifts ∧
        keysExactly "ccypair" (sectionEntries tc "FxVolatilities" "FxVolatility")
          test.fxVolShifts) ∧
      (lastEntryWins "ccy" (swaptionVolEntry vals)
          (sectionEntries tc "SwaptionVolatilities" "SwaptionVolatility")
          test.swaptionVolShifts ∧
        keysExactly "ccy" (sectionEntries tc "SwaptionVolatilities" "SwaptionVolatility")
          test.swaptionVolShifts) ∧
      (lastEntryWins "ccy" (capFloorVolEntry vals)
          (sectionEntries tc "CapFloorVolatilities" "CapFloorVolatility") test.capVolShifts ∧
        keysExactly "ccy" (sectionEntries tc "CapFloorVolatilities" "CapFloorVolatility")
          test.capVolShifts) := by
  obtain ⟨_, h1, h2, h3, h4, h5, h6, h7, _⟩ := (loadTestCase_eq_ok vals tc test).1 h
  obtain ⟨k1, k2, k3, k4, k5, k6, k7⟩ := entry_keys vals
  exact ⟨entryLoop_lastEntryWins _ _ k1 _ _ h1, entryLoop_lastEntryWins _ _ k2 _ _ h2,
    entryLoop_lastEntryWins _ _ k3 _ _ h3, entryLoop_lastEntryWins _ _ k4 _ _ h4,
    entryLoop_lastEntryWins _ _ k5 _ _ h5, entryLoop_lastEntryWins _ _ k6 _ _ h6,
    entryLoop_lastEntryWins _ _ k7 _ _ h7⟩

theorem isSome_getChildValue (c : XMLNode) (name : String)
    (h : (getChildNode c name).isSome = true) :
    ∃ s, getChildValue c name true = Except.ok s := by
  cases hc : getChildNode c name with
  | none => simp [hc] at h
  | some n => exact ⟨getNodeValue n, by simp [getChildValue, hc]⟩

theorem discountCurveEntry_of_valid (vals : Values R P) (c : XMLNode)
    (h : validCurveEntry vals c = true) : (discountCurveEntry vals c).toBool = true := by
  simp only [validCurveEntry, Bool.and_eq_true] at h
  obtain ⟨hty, h2⟩ := h
  obtain ⟨ty, hty⟩ := isSome_getChildValue c "ShiftType" hty
  cases hs : getChildrenValuesAsDoublesCompact vals c "Shifts" true with
  | error e => simp [hs] at h2
  | ok shifts =>
    cases ht : getChildrenValuesAsPeriods vals c "ShiftTenors" true with
    | error e => simp [hs, ht] at h2
    | ok tenors =>
      simp only [hs, ht, Bool.and_eq_true, beq_iff_eq, decide_eq_true_eq] at h2
      rw [toBool_eq_true]
      exact ⟨(getAttribute c "ccy", ⟨ty, tenors, shifts⟩),
        (discountCurveEntry_eq_ok vals c _).2 ⟨hty, ⟨rfl, hs, ht⟩, h2.1, h2.2⟩⟩

theorem indexCurveEntry_of_valid (vals : Values R P) (c : XMLNode)
    (h : validCurveEntry vals c = true) : (indexCurveEntry vals c).toBool = true := by
  simp only [validCurveEntry, Bool.and_eq_true] at h
  obtain ⟨hty, h2⟩ := h
  obtain ⟨ty, hty⟩ := isSome_getChildValue c "ShiftType" hty
  cases hs : getChildrenValuesAsDoublesCompact vals c "Shifts" true with
  | error e => simp [hs] at h2
  | ok shifts =>
    cases ht : getChildrenValuesAsPeriods vals c "ShiftTenors" true with
    | error e => simp [hs, ht] at h2
    | ok tenors =>
      simp only [hs, ht, Bool.and_eq_true, beq_iff_eq, decide_eq_true_eq] at h2
      rw [toBool_eq_true]
      exact ⟨(getAttribute c "index", ⟨ty, tenors, shifts⟩),
        (indexCurveEntry_eq_ok vals c _).2 ⟨hty, ⟨rfl, hs, ht⟩, h2.1, h2.2⟩⟩

theorem yieldCurveEntry_of_valid (vals : Values R P) (c : XMLNode)
    (h : validCurveEntry vals c = true) : (yieldCurveEntry vals c).toBool = true := by
  simp only [validCurveEntry, Bool.and_eq_true] at h
  obtain ⟨hty, h2⟩ := h
  obtain ⟨ty, hty⟩ := isSome_getChildValue c "ShiftType" hty
  cases hs : getChildrenValuesAsDoublesCompact vals c "Shifts" true with
  | error e => simp [hs] at h2
  | ok shifts =>
    cases ht : getChildrenValuesAsPeriods vals c "ShiftTenors" true with
    | error e => simp [hs, ht] at h2
    | ok tenors =>
      simp only [hs, ht, Bool.and_eq_true, beq_iff_eq, decide_eq_true_eq] at h2
      rw [toBool_eq_true]
      exact ⟨(getAttribute c "name", ⟨ty, tenors, shifts⟩),
        (yieldCurveEntry_eq_ok vals c _).2 ⟨hty, ⟨rfl, hs, ht⟩, h2.1, h2.2⟩⟩

theorem fxSpotEntry_of_valid (vals : Values R P) (c : XMLNode)
    (h : validFxSpotEntry vals c = true) : (fxSpotEntry vals c).toBool = true := by
  simp only [validFxSpotEntry, Bool.and_eq_true, toBool_eq_true] at h
  obtain ⟨hty, sz, hsz⟩ := h
  obtain ⟨ty, hty⟩ := isSome_getChildValue c "ShiftType" hty
  rw [toBool_eq_true]
  exact ⟨(getAttribute c "ccypair", ⟨ty, sz⟩), (fxSpotEntry_eq_ok vals c _).2 ⟨rfl, hty, hsz⟩⟩

theorem fxVolEntry_of_valid (vals : Values R P) (c : XMLNode)
    (h : validFxVolEntry vals c = true) : (fxVolEntry vals c).toBool = true := by
  simp only [validFxVolEntry, Bool.and_eq_true, toBool_eq_true] at h
  obtain ⟨⟨shifts, hs⟩, exps, hex⟩ := h
  have hty : ∃ ty, getChildValue c "ShiftType" false = Except.ok ty := by
    cases hc : getChildNode c "ShiftType" with
    | none => exact ⟨"", by simp [getChildValue, hc]⟩
    | some n => exact ⟨getNodeValue n, by simp [getChildValue, hc]⟩
  obtain ⟨ty, hty⟩ := hty
  rw [toBool_eq_true]
  exact ⟨(getAttribute c "ccypair", ⟨ty, exps, shifts⟩),
    (fxVolEntry_eq_ok vals c _).2 ⟨rfl, hty, hs, hex⟩⟩

theorem capFloorVolEntry_of_valid (vals : Values R P) (c : XMLNode)
    (h : validCapFloorEntry vals c = true) : (capFloorVolEntry vals c).toBool = true := by
  simp only [validCapFloorEntry, Bool.and_eq_true, toBool_eq_true] at h
  obtain ⟨⟨hty, exps, hex⟩, shifts, hs⟩ := h
  obtain ⟨ty, hty⟩ := isSome_getChildValue c "ShiftType" hty
  rw [toBool_eq_true]
  exact ⟨(getAttribute c "ccy", ⟨ty, exps, shifts⟩),
    (capFloorVolEntry_eq_ok vals c _).2 ⟨rfl, hty, hex, hs⟩⟩

theorem shiftCellLoop_of_valid [DecidableEq P] (vals : Values R P) (cells : List XMLNode)
    (h : cells.all (validCell vals) = true) (d : SwaptionVolShiftData R P) :
    ∃ r, shiftCellLoop vals cells d = Except.ok r := by
  induction cells generalizing d with
  | nil => exact ⟨d, rfl⟩
  | cons cell rest ih =>
    simp only [List.all_cons, Bool.and_eq_true] at h
    obtain ⟨hcell, hrest⟩ := h
    have hstep : ∃ r, shiftCell vals d cell = Except.ok r := by
      simp only [validCell, Bool.or_eq_true, Bool.and_eq_true, toBool_eq_true,
        Option.isSome_iff_exists] at hcell
      rcases hcell with ⟨hp, v, hv⟩ | ⟨⟨hco, key, hkey⟩, v, hv⟩
      · exact ⟨_, (shiftCell_eq_ok vals d _ cell).2 (Or.inl ⟨hp, v, hv, rfl⟩)⟩
      · exact ⟨_, (shiftCell_eq_ok vals d _ cell).2 (Or.inr ⟨hco, key, v, hkey, hv, rfl⟩)⟩
    obtain ⟨r, hr⟩ := hstep
    obtain ⟨r', hr'⟩ := ih hrest r
    exact ⟨r', by simp [shiftCellLoop, hr, hr']⟩

theorem swaptionVolEntry_of_valid [DecidableEq P] (vals : Values R P) (c : XMLNode)
    (h : validSwaptionEntry vals c = true) : (swaptionVolEntry vals c).toBool = true := by
  simp only [validSwaptionEntry, Bool.and_eq_true, toBool_eq_true] at h
  obtain ⟨⟨⟨⟨hty, terms, hterms⟩, exps, hexps⟩, hsh⟩, hcells⟩ := h
  obtain ⟨ty, hty⟩ := isSome_getChildValue c "ShiftType" hty
  obtain ⟨shiftSizes, hs⟩ := Option.isSome_iff_exists.1 hsh
  have hc : shiftCells c = siblingsFrom shiftSizes "Shift" := by
    simp [shiftCells, sectionEntries, hs]
  rw [hc] at hcells
  obtain ⟨r, hr⟩ := shiftCellLoop_of_valid vals _ hcells
    { shiftType := ty, shiftTerms := terms, shiftExpiries := exps,
      parallelShiftSize := vals.zero }
  rw [toBool_eq_true]
  refine ⟨(getAttribute c "ccy", r), ?_⟩
  simp only [swaptionVolEntry, except_bind_eq_ok, requireNode_eq_ok, except_pure_eq,
    Except.ok.injEq, Prod.mk.injEq]
  exact ⟨ty, hty, terms, hterms, exps, hexps, shiftSizes, hs, r, hr, trivial, rfl⟩

/-- A test case whose entries are valid on their own is read by the seven loops
without an error. -/
theorem entriesValid_of_validTestCase [DecidableEq P] (vals : Values R P) (tc : XMLNode)
    (h : validTestCase vals tc = true) : entriesValid vals tc = true := by
  simp only [validTestCase, Bool.and_eq_true, List.all_eq_true] at h
  obtain ⟨⟨⟨⟨⟨⟨⟨hs, h1⟩, h2⟩, h3⟩, h4⟩, h5⟩, h6⟩, h7⟩ := h
  simp only [entriesValid, Bool.and_eq_true, List.all_eq_true]
  exact ⟨⟨⟨⟨⟨⟨⟨hs, fun c hc => discountCurveEntry_of_valid vals c (h1 c hc)⟩,
    fun c hc => indexCurveEntry_of_valid vals c (h2 c hc)⟩,
    fun c hc => yieldCurveEntry_of_valid vals c (h3 c hc)⟩,
    fun c hc => fxSpotEntry_of_valid vals c (h4 c hc)⟩,
    fun c hc => fxVolEntry_of_valid vals c (h5 c hc)⟩,
    fun c hc => swaptionVolEntry_of_valid vals c (h6 c hc)⟩,
    fun c hc => capFloorVolEntry_of_valid vals c (h7 c hc)⟩

theorem lastEntryHolds_of_lastEntryWins {V : Type} (attr : String)
    (entry : XMLNode → Except String (String × V)) (dataOf : XMLNode → V → Prop)
    (nodes : List XMLNode) (m : StdMap String V) (h : lastEntryWins attr entry nodes m)
    (hd : ∀ c kd, entry c = Except.ok kd → dataOf c kd.2) :
    lastEntryHolds attr dataOf nodes m := by
  refine ⟨h.1, ?_⟩
  intro k c hc
  obtain ⟨d, hcd, hf⟩ := h.2 k c hc
  exact ⟨d, hf, hd c (k, d) hcd⟩

/-- The record that each loop body yields holds the data of the entry node. -/
theorem entry_data [DecidableEq P] (vals : Values R P) :
    (∀ c kd, discountCurveEntry vals c = Except.ok kd → curveDataOf vals c kd.2) ∧
      (∀ c kd, indexCurveEntry vals c = Except.ok kd → curveDataOf vals c kd.2) ∧
      (∀ c kd, yieldCurveEntry vals c = Except.ok kd → curveDataOf vals c kd.2) ∧
      (∀ c kd, fxSpotEntry vals c = Except.ok kd → fxSpotDataOf vals c kd.2) ∧
      (∀ c kd, fxVolEntry vals c = Except.ok kd → fxVolDataOf vals c kd.2) ∧
      (∀ c kd, swaptionVolEntry vals c = Except.ok kd → swaptionDataOf vals c kd.2) ∧
      (∀ c kd, capFloorVolEntry vals c = Except.ok kd → capFloorDataOf vals c kd.2) := by
  refine ⟨?_, ?_, ?_, ?_, ?_, ?_, ?_⟩
  · intro c kd h
    obtain ⟨hty, ⟨_, hs, ht⟩, _⟩ := (discountCurveEntry_eq_ok vals c kd).1 h
    exact ⟨hty, hs, ht⟩
  · intro c kd h
    obtain ⟨hty, ⟨_, hs, ht⟩, _⟩ := (indexCurveEntry_eq_ok vals c kd).1 h
    exact ⟨hty, hs, ht⟩
  · intro c kd h
    obtain ⟨hty, ⟨_, hs, ht⟩, _⟩ := (yieldCurveEntry_eq_ok vals c kd).1 h
    exact ⟨hty, hs, ht⟩
  · intro c kd h
    exact ((fxSpotEntry_eq_ok vals c kd).1 h).2
  · intro c kd h
    exact ((fxVolEntry_eq_ok vals c kd).1 h).2
  · intro c kd h
    obtain ⟨hty, hterms, hexps⟩ := swaptionVolEntry_fields vals c kd h
    obtain ⟨_, hpar, hgrid, _⟩ := swaptionVolEntry_spec vals c kd h
    exact ⟨hty, hterms, hexps, hpar, hgrid⟩
  · intro c kd h
    exact ((capFloorVolEntry_eq_ok vals c kd).1 h).2

/-- C17. Let the document have a `StressTesting` section in which every test case
has its seven section nodes and every entry is valid on its own.  Then `fromXML`
returns, whether or not identifiers repeat inside a section; and in every record
each of the seven mappings holds a single entry per identifier, and at every
identifier of the section the record made of the data of the last entry of the
section, in document order, with that identifier: the text of its `ShiftType`,
its parsed lists or size, and for a swaption volatility its parallel shift and
grid of cells. -/
theorem fromXML_duplicate_identifier_last_wins [DecidableEq P] (vals : Values R P)
    (data0 : List (StressTestData R P)) (root node : XMLNode)
    (hloc : locateNode root "StressTesting" = Except.ok node)
    (hvalid : ∀ tc ∈ testCases root, validTestCase vals tc = true) :
    ∃ data, fromXML vals data0 root = (Except.ok (), data) ∧
      List.Forall₂
        (fun tc test =>
          lastEntryHolds "ccy" (curveDataOf vals)
              (sectionEntries tc "DiscountCurves" "DiscountCurve") test.discountCurveShifts ∧
          lastEntryHolds "index" (curveDataOf vals)
              (sectionEntries tc "IndexCurves" "IndexCurve") test.indexCurveShifts ∧
          lastEntryHolds "name" (curveDataOf vals)
              (sectionEntries tc "YieldCurves" "YieldCurve") test.yieldCurveShifts ∧
          lastEntryHolds "ccypair" (fxSpotDataOf vals)
              (sectionEntries tc "FxSpots" "FxSpot") test.fxShifts ∧
          lastEntryHolds "ccypair" (fxVolDataOf vals)
              (sectionEntries tc "FxVolatilities" "FxVolatility") test.fxVolShifts ∧
          lastEntryHolds "ccy" (swaptionDataOf vals)
              (sectionEntries tc "SwaptionVolatilities" "SwaptionVolatility") test.swaptionVolShifts ∧
          lastEntryHolds "ccy" (capFloorDataOf vals)
              (sectionEntries tc "CapFloorVolatilities" "CapFloorVolatility") test.capVolShifts)
        (testCases root) data := by
  obtain ⟨data, hdata⟩ := forall₂_of_forall_exists
    (fun tc htc => loadTestCase_of_entriesValid vals tc
      (entriesValid_of_validTestCase vals tc (hvalid tc htc)))
  refine ⟨data, (fromXML_eq_ok vals data0 data root).2 ⟨⟨node, hloc⟩, hdata⟩, ?_⟩
  refine hdata.imp ?_
  intro tc test hload
  obtain ⟨m1, m2, m3, m4, m5, m6, m7⟩ := mappings_of_load vals tc test hload
  obtain ⟨d1, d2, d3, d4, d5, d6, d7⟩ := entry_data vals
  exact ⟨lastEntryHolds_of_lastEntryWins _ _ _ _ _ m1.1 d1,
    lastEntryHolds_of_lastEntryWins _ _ _ _ _ m2.1 d2,
    lastEntryHolds_of_lastEntryWins _ _ _ _ _ m3.1 d3,
    lastEntryHolds_of_lastEntryWins _ _ _ _ _ m4.1 d4,
    lastEntryHolds_of_lastEntryWins _ _ _ _ _ m5.1 d5,
    lastEntryHolds_of_lastEntryWins _ _ _ _ _ m6.1 d6,
    lastEntryHolds_of_lastEntryWins _ _ _ _ _ m7.1 d7⟩

/-- C17, witness: a test in which each of the seven sections gives an identifier
twice loads, and each mapping holds one entry for the identifier, with the data
of the second entry. -/
theorem fromXML_duplicate_identifier_last_wins_witness :
    locateNode duplicatesDocument "StressTesting" = Except.ok duplicatesDocument ∧
      (∀ tc ∈ testCases duplicatesDocument, validTestCase exampleValues tc = true) ∧
      fromXML exampleValues [] duplicatesDocument = (Except.ok (), duplicatesRecords) ∧
      ∃ data, fromXML exampleValues [] duplicatesDocument = (Except.ok (), data) ∧
        List.Forall₂
          (fun tc test =>
            lastEntryHolds "ccy" (curveDataOf exampleValues)
                (sectionEntries tc "DiscountCurves" "DiscountCurve") test.discountCurveShifts ∧
            lastEntryHolds "index" (curveDataOf exampleValues)
                (sectionEntries tc "IndexCurves" "IndexCurve") test.indexCurveShifts ∧
            lastEntryHolds "name" (curveDataOf exampleValues)
                (sectionEntries tc "YieldCurves" "YieldCurve") test.yieldCurveShifts ∧
            lastEntryHolds "ccypair" (fxSpotDataOf exampleValues)
                (sectionEntries tc "FxSpots" "FxSpot") test.fxShifts ∧
            lastEntryHolds "ccypair" (fxVolDataOf exampleValues)
                (sectionEntries tc "FxVolatilities" "FxVolatility") test.fxVolShifts ∧
            lastEntryHolds "ccy" (swaptionDataOf exampleValues)
                (sectionEntries tc "SwaptionVolatilities" "SwaptionVolatility") test.swaptionVolShifts ∧
            lastEntryHolds "ccy" (capFloorDataOf exampleValues)
                (sectionEntries tc "CapFloorVolatilities" "CapFloorVolatility") test.capVolShifts)
          (testCases duplicatesDocument) data :=
  ⟨rfl, by decide, by decide,
    fromXML_duplicate_identifier_last_wins exampleValues [] duplicatesDocument duplicatesDocument
      rfl (by decide)⟩

/-- C18. When `fromXML` returns, record by record and test case by test case, the
keys of each of the seven mappings of the record are exactly the identifiers of
the entries of the corresponding section of its own test case (so `capVolShifts`,
which is not cleared, holds no entry of an earlier test case), and the keys of the
cells mapping of every stored swaption entry are exactly the coordinate pairs of
the cells of the entry node it was read from. -/
theorem fromXML_test_cases_do_not_leak [DecidableEq P] (vals : Values R P)
    (data0 data : List (StressTestData R P)) (root : XMLNode)
    (h : fromXML vals data0 root = (Except.ok (), data)) :
    List.Forall₂
      (fun tc test =>
        keysExactly "ccy" (sectionEntries tc "DiscountCurves" "DiscountCurve") test.discountCurveShifts ∧
        keysExactly "index" (sectionEntries tc "IndexCurves" "IndexCurve") test.indexCurveShifts ∧
        keysExactly "name" (sectionEntries tc "YieldCurves" "YieldCurve") test.yieldCurveShifts ∧
        keysExactly "ccypair" (sectionEntries tc "FxSpots" "FxSpot") test.fxShifts ∧
        keysExactly "ccypair" (sectionEntries tc "FxVolatilities" "FxVolatility") test.fxVolShifts ∧
        keysExactly "ccy" (sectionEntries tc "SwaptionVolatilities" "SwaptionVolatility") test.swaptionVolShifts ∧
        keysExactly "ccy" (sectionEntries tc "CapFloorVolatilities" "CapFloorVolatility") test.capVolShifts ∧
        ∀ e ∈ test.swaptionVolShifts,
          ∃ child ∈ sectionEntries tc "SwaptionVolatilities" "SwaptionVolatility",
            getAttribute child "ccy" = e.1 ∧
              ∀ key, key ∈ e.2.shifts.keys ↔
                ∃ c ∈ shiftCells child, isCoordinateCell c = true ∧ cellKey vals c = some key)
      (testCases root) data := by
  obtain ⟨_, hall⟩ := (fromXML_eq_ok vals data0 data root).1 h
  refine hall.imp ?_
  intro tc test hload
  obtain ⟨m1, m2, m3, m4, m5, m6, m7⟩ := mappings_of_load vals tc test hload
  refine ⟨m1.2, m2.2, m3.2, m4.2, m5.2, m6.2, m7.2, ?_⟩
  intro e he
  obtain ⟨c, hc, hce⟩ := (swaption_entries_of_load vals tc test hload).1 e he
  obtain ⟨hk, _, hg, _⟩ := swaptionVolEntry_spec vals c e hce
  exact ⟨c, hc, hk, hg.1⟩

/-- C18, witness: two test cases with different cap/floor and swaption entries;
the second record holds the identifiers of the second test case only, and each
swaption entry the cells of its own node. -/
theorem fromXML_test_cases_do_not_leak_witness :
    fromXML exampleValues [] twoCasesDocument = (Except.ok (), twoCasesRecords) ∧
      twoCasesRecords.map (fun test => test.capVolShifts.keys) = [["EUR"], ["USD"]] ∧
      twoCasesRecords.map (fun test => test.swaptionVolShifts.map (fun e => e.2.shifts.keys)) =
        [[[(⟨1, .Years⟩, ⟨5, .Years⟩)]], [[(⟨2, .Years⟩, ⟨10, .Years⟩)], []]] ∧
      List.Forall₂
        (fun tc test =>
          keysExactly "ccy" (sectionEntries tc "DiscountCurves" "DiscountCurve") test.discountCurveShifts ∧
          keysExactly "index" (sectionEntries tc "IndexCurves" "IndexCurve") test.indexCurveShifts ∧
          keysExactly "name" (sectionEntries tc "YieldCurves" "YieldCurve") test.yieldCurveShifts ∧
          keysExactly "ccypair" (sectionEntries tc "FxSpots" "FxSpot") test.fxShifts ∧
          keysExactly "ccypair" (sectionEntries tc "FxVolatilities" "FxVolatility") test.fxVolShifts ∧
          keysExactly "ccy" (sectionEntries tc "SwaptionVolatilities" "SwaptionVolatility") test.swaptionVolShifts ∧
          keysExactly "ccy" (sectionEntries tc "CapFloorVolatilities" "CapFloorVolatility") test.capVolShifts ∧
          ∀ e ∈ test.swaptionVolShifts,
            ∃ child ∈ sectionEntries tc "SwaptionVolatilities" "SwaptionVolatility",
              getAttribute child "ccy" = e.1 ∧
                ∀ key, key ∈ e.2.shifts.keys ↔
                  ∃ c ∈ shiftCells child, isCoordinateCell c = true ∧ cellKey exampleValues c = some key)
        (testCases twoCasesDocument) twoCasesRecords :=
  ⟨by decide, by decide, by decide,
    fromXML_test_cases_do_not_leak exampleValues [] twoCasesRecords twoCasesDocument
      (by decide)⟩

/-- C19. The coordinates of swaption cells are not checked against the declared
axes.  The document with axes `ShiftExpiries = 1Y`, `ShiftTerms = 5Y` and cells at
(3Y, 7Y) and (4Y, 7Y) loads; the cells are stored under keys whose expiry is not
in `shiftExpiries` and whose term is not in `shiftTerms`, and there are 2 of them
for 1 * 1 grid points; the document with axes of 2 expiries and 2 terms and no
coordinate cell loads with 0 cells for 2 * 2 grid points. -/
theorem fromXML_cells_not_checked_against_axes :
    fromXML exampleValues [] offAxisDocument = (Except.ok (), offAxisRecords) ∧
      offAxisRecords.map
          (fun test => test.swaptionVolShifts.map
            (fun e => (e.2.shiftExpiries, e.2.shiftTerms, e.2.shifts.keys))) =
        [[([⟨1, .Years⟩], [⟨5, .Years⟩],
          [(⟨3, .Years⟩, ⟨7, .Years⟩), (⟨4, .Years⟩, ⟨7, .Years⟩)])]] ∧
      (∀ test ∈ offAxisRecords, ∀ e ∈ test.swaptionVolShifts, ∀ key ∈ e.2.shifts.keys,
        key.1 ∉ e.2.shiftExpiries ∧ key.2 ∉ e.2.shiftTerms) ∧
      offAxisRecords.map
          (fun test => test.swaptionVolShifts.map
            (fun e => (e.2.shifts.length, e.2.shiftExpiries.length * e.2.shiftTerms.length))) =
        [[(2, 1)]] ∧
      fromXML exampleValues [] parallelOnlyDocument = (Except.ok (), parallelOnlyRecords) ∧
      parallelOnlyRecords.map
          (fun test => test.swaptionVolShifts.map
            (fun e => (e.2.shifts.length, e.2.shiftExpiries.length * e.2.shiftTerms.length))) =
        [[(0, 4)]] := by
  refine ⟨by decide, by decide, ?_, by decide, by decide, by decide⟩
  intro test htest e he key hkey
  simp only [offAxisRecords, List.mem_singleton] at htest
  subst htest
  simp only [List.mem_singleton] at he
  subst he
  simp only [StdMap.keys, List.map_cons, List.map_nil, List.mem_cons, List.mem_singleton,
    List.not_mem_nil, or_false] at hkey
  rcases hkey with rfl | rfl <;> exact ⟨by decide, by decide⟩

end StressTestScenarioData

end ore
